import Mathlib

/-!
Shallow embedding of the IBM PS/2 ESDI MCA fixed-disk controller driver
(`src/disk/hdc_esdi_mca.c`): the adapter state (`esdi_t`), the register
read/write handlers (`esdi_read`, `esdi_write`, `esdi_readw`, `esdi_writew`)
and the deferred command executor (`esdi_callback`).

Modelling conventions:
* machine integers are `Nat` with explicit `% 2^w` masking where the C code
  truncates (`u16`) or can wrap (`u32sub1` for `rba - 1` on a `uint32_t`);
* the one-shot timer (`pc_timer_t` + `esdi_mca_set_callback`) is an
  `Option ℚ` field: `some d` means a callback is pending after `d`
  microseconds, `none` means the timer is stopped;
* `fatal(...)` aborts the emulator, modelled as `Except.error` carrying a
  `Fatal` tag; no state is produced on that path;
* external collaborators (disk-image I/O, drive-timing model, the DMA
  channel) are an `Env` record of oracle functions; the DMA channel's
  independent progress is modelled per callback invocation: `dma_cap` words
  accepted by `dma_channel_write` before `DMA_NODATA`, and `dma_data` the
  words `dma_channel_read` yields before `DMA_NODATA`;
* image accesses performed by an invocation are returned as a `List ImgOp`
  so that "never touches the backing image" is a provable statement, and the
  words pushed through `dma_channel_write` are returned as a `List Nat`.

The C `while` loops of the transfer phase are written as fuel-indexed
structural recursions; the fuel passed by `esdi_callback` is proved
sufficient, below, for every state the loops are entered in.
-/

set_option maxHeartbeats 1600000

namespace EsdiMca

/-- `ESDI_TIME` (500.0 us), the base command latency. -/
def ESDI_TIME : ℚ := 500

def STATUS_DMA_ENA : Nat := 128
def STATUS_IRQ_PENDING : Nat := 64
def STATUS_CMD_IN_PROGRESS : Nat := 32
def STATUS_BUSY : Nat := 16
def STATUS_STATUS_OUT_FULL : Nat := 8
def STATUS_CMD_IR_FULL : Nat := 4
def STATUS_TRANSFER_REQ : Nat := 2
def STATUS_IRQ : Nat := 1

def CTRL_RESET : Nat := 128
def CTRL_DMA_ENA : Nat := 2
def CTRL_IRQ_ENA : Nat := 1

def IRQ_HOST_ADAPTER : Nat := 0xe0
def IRQ_CMD_COMPLETE_SUCCESS : Nat := 0x1
def IRQ_RESET_COMPLETE : Nat := 0xa
def IRQ_DATA_TRANSFER_READY : Nat := 0xb
def IRQ_CMD_COMPLETE_FAILURE : Nat := 0xc

def ATTN_DEVICE_SEL : Nat := 0xe0
def ATTN_HOST_ADAPTER : Nat := 0xe0
def ATTN_DEVICE_0 : Nat := 0x00
def ATTN_DEVICE_1 : Nat := 0x20
def ATTN_REQ_MASK : Nat := 0x0f
def ATTN_CMD_REQ : Nat := 1
def ATTN_EOI : Nat := 2
def ATTN_RESET : Nat := 4

def CMD_SIZE_4 : Nat := 0x4000
def CMD_DEVICE_SEL : Nat := 0xe0
def CMD_MASK : Nat := 0x1f
def CMD_READ : Nat := 0x01
def CMD_WRITE : Nat := 0x02
def CMD_READ_VERIFY : Nat := 0x03
def CMD_WRITE_VERIFY : Nat := 0x04
def CMD_SEEK : Nat := 0x05
def CMD_PARK_HEADS : Nat := 0x06
def CMD_GET_DEV_STATUS : Nat := 0x08
def CMD_GET_DEV_CONFIG : Nat := 0x09
def CMD_GET_POS_INFO : Nat := 0x0a
def CMD_FORMAT_UNIT : Nat := 0x16
def CMD_FORMAT_PREPARE : Nat := 0x17

/-- `STATUS_LEN(x) = x << 8` -/
def STATUS_LEN (x : Nat) : Nat := x <<< 8

/-- `STATUS_DEVICE(x) = x << 5` -/
def STATUS_DEVICE (x : Nat) : Nat := x <<< 5

def STATUS_DEVICE_HOST_ADAPTER : Nat := 0xe0

/-- truncation to `uint16_t` -/
def u16 (x : Nat) : Nat := x % 65536

/-- `x - 1` on a `uint32_t` (wraps at 0) -/
def u32sub1 (x : Nat) : Nat := (x + 0xffffffff) % 0x100000000

/-- `drive_t`: static per-drive geometry and presence, filled at init. -/
structure drive_t where
  spt : Nat
  hpc : Nat
  tracks : Nat
  sectors : Nat
  present : Bool
  hdd_num : Nat
deriving DecidableEq

/-- `esdi_t`: the adapter's whole mutable state.  `timer` models the
`pc_timer_t`; `irq_line` models the externally visible IRQ 14 line driven
through `picint_common`. -/
structure esdi_t where
  dma : Nat
  basic_ctrl : Nat
  status : Nat
  irq_status : Nat
  irq_ena_disable : Bool
  irq_in_progress : Bool
  cmd_req_in_progress : Bool
  cmd_pos : Nat
  cmd_data : List Nat
  cmd_dev : Nat
  status_pos : Nat
  status_len : Nat
  status_data : List Nat
  data_pos : Nat
  data : List Nat
  sector_buffer : List (List Nat)
  sector_pos : Nat
  sector_count : Nat
  command : Nat
  cmd_state : Nat
  in_reset : Bool
  rba : Nat
  drives0 : drive_t
  drives1 : drive_t
  pos_regs : List Nat
  irq_line : Bool
  timer : Option ℚ
deriving DecidableEq

/-- `set_irq`: latch the internal request flag and, if `CTRL_IRQ_ENA`,
assert IRQ 14. -/
def set_irq (dev : esdi_t) : esdi_t :=
  let dev := {dev with irq_ena_disable := true}
  if dev.basic_ctrl &&& CTRL_IRQ_ENA ≠ 0 then {dev with irq_line := true} else dev

/-- `clear_irq`: clear the internal request flag and, if `CTRL_IRQ_ENA`,
de-assert IRQ 14. -/
def clear_irq (dev : esdi_t) : esdi_t :=
  let dev := {dev with irq_ena_disable := false}
  if dev.basic_ctrl &&& CTRL_IRQ_ENA ≠ 0 then {dev with irq_line := false} else dev

/-- `update_irq`: re-evaluate the line from `CTRL_IRQ_ENA` and the latched
request flag. -/
def update_irq (dev : esdi_t) : esdi_t :=
  {dev with irq_line := (dev.basic_ctrl &&& CTRL_IRQ_ENA != 0) && dev.irq_ena_disable}

/-- `esdi_mca_set_callback`: `0.0` stops the timer, anything else schedules
the callback after that delay (replacing any pending one). -/
def esdi_mca_set_callback (dev : esdi_t) (callback : ℚ) : esdi_t :=
  if callback = 0 then {dev with timer := none} else {dev with timer := some callback}

/-- `esdi_mca_get_xfer_time`: 3125/8 us per sector. -/
def esdi_mca_get_xfer_time (size : Nat) : ℚ := (3125 / 8) * size

/-- `cmd_unsupported`: status words `0x0f03`/`0x0002`, failure interrupt. -/
def cmd_unsupported (dev : esdi_t) : esdi_t :=
  set_irq {dev with
    status_len := 9
    status_data := [u16 (dev.command ||| STATUS_LEN 9 ||| dev.cmd_dev),
      0x0f03, 0x0002, 0, 0, 0, 0, 0, 0]
    status := STATUS_IRQ ||| STATUS_STATUS_OUT_FULL
    irq_status := dev.cmd_dev ||| IRQ_CMD_COMPLETE_FAILURE
    irq_in_progress := true}

/-- `device_not_present`: status words `0x0c11`/`0x000b`, failure interrupt. -/
def device_not_present (dev : esdi_t) : esdi_t :=
  set_irq {dev with
    status_len := 9
    status_data := [u16 (dev.command ||| STATUS_LEN 9 ||| dev.cmd_dev),
      0x0c11, 0x000b, 0, 0, 0, 0, 0, 0]
    status := STATUS_IRQ ||| STATUS_STATUS_OUT_FULL
    irq_status := dev.cmd_dev ||| IRQ_CMD_COMPLETE_FAILURE
    irq_in_progress := true}

/-- `rba_out_of_range`: status words `0x0e01`/`0x0007`, failure interrupt. -/
def rba_out_of_range (dev : esdi_t) : esdi_t :=
  set_irq {dev with
    status_len := 9
    status_data := [u16 (dev.command ||| STATUS_LEN 9 ||| dev.cmd_dev),
      0x0e01, 0x0007, 0, 0, 0, 0, 0, 0]
    status := STATUS_IRQ ||| STATUS_STATUS_OUT_FULL
    irq_status := dev.cmd_dev ||| IRQ_CMD_COMPLETE_FAILURE
    irq_in_progress := true}

/-- `defective_block`: status words `0x0e01`/`0x0009`, failure interrupt. -/
def defective_block (dev : esdi_t) : esdi_t :=
  set_irq {dev with
    status_len := 9
    status_data := [u16 (dev.command ||| STATUS_LEN 9 ||| dev.cmd_dev),
      0x0e01, 0x0009, 0, 0, 0, 0, 0, 0]
    status := STATUS_IRQ ||| STATUS_STATUS_OUT_FULL
    irq_status := dev.cmd_dev ||| IRQ_CMD_COMPLETE_FAILURE
    irq_in_progress := true}

/-- `complete_command_status`: the 7-word success block; words 4/5 encode
`rba - 1` (`uint32_t` arithmetic, each word truncated to 16 bits, word 5
holding `(rba - 1) >> 8` exactly as the C does). -/
def complete_command_status (dev : esdi_t) : esdi_t :=
  let w0 := if dev.cmd_dev = ATTN_DEVICE_0 then
      dev.command ||| STATUS_LEN 7 ||| STATUS_DEVICE 0
    else
      dev.command ||| STATUS_LEN 7 ||| STATUS_DEVICE 1
  {dev with
    status_len := 7
    status_data := [u16 w0, 0x0000, 0x1900, 0,
      u16 (u32sub1 dev.rba), u16 (u32sub1 dev.rba >>> 8), 0]}

/-- Fatal internal-consistency conditions (`fatal(...)` calls): they abort
the emulation, so the embedding produces no successor state for them. -/
inductive Fatal
  | readPastEnd
  | writePastEnd
  | irqInProgress
  | sectorBufferCount
  | badCommand
  | cmdReqInProgress
  | badAttnRequest
  | badAttnDevice
  | cirOverflow
  | cmdDevMismatch
  | badPortWrite
  | badPortReadw
  | badPortWritew
  | outOfFuel
deriving DecidableEq

/-- Modelled from the spec: the external collaborators of §6 — image I/O
(read/write/zero a run of sectors, last-addressable-sector query), the
drive-timing model (seek/read/write cost), and the DMA channel with its
distinguished "no data" result.  Their code is outside this repository;
only the interface is modelled.  `dma_cap` is the number of words
`dma_channel_write` accepts during one executor invocation before
returning `DMA_NODATA`; `dma_data` is the word sequence `dma_channel_read`
yields during one invocation before returning `DMA_NODATA`. -/
structure Env where
  img_read : Nat → Nat → Option (List Nat)
  img_write_ok : Nat → Nat → Bool
  last_sector : Nat → Nat
  timing_read : Nat → Nat → Nat → ℚ
  timing_write : Nat → Nat → Nat → ℚ
  seek_time : Nat → Nat → ℚ
  dma_cap : Nat
  dma_data : List Nat

/-- Backing-image accesses performed by an executor invocation. -/
inductive ImgOp
  | rd (hdd rba : Nat)
  | wr (hdd rba : Nat) (sector : List Nat)
  | zero (hdd start count : Nat)
deriving DecidableEq

/-- Result of one transfer-loop run: `suspend` is the early `return` on
`DMA_NODATA` (callback already rescheduled), `errored` the early `return`
after `defective_block`, `done` falling out of the `while` with the
accumulated `cmd_time`. -/
inductive XRes
  | suspend (dev : esdi_t) (ops : List ImgOp) (out : List Nat)
  | errored (dev : esdi_t) (ops : List ImgOp) (out : List Nat)
  | done (dev : esdi_t) (cmd_time : ℚ) (ops : List ImgOp) (out : List Nat)

/-- The CMD_READ `cmd_state == 1` loop.  At a sector start (`data_pos == 0`)
the sector is loaded from the image (fatal past the drive end, guest error
on image failure) and its timing cost accrued; then words are pushed to the
DMA channel one at a time, suspending the whole phase on `DMA_NODATA` with
`ESDI_TIME + cmd_time`.  `cap` is the `Env.dma_cap` budget left. -/
def read_xfer_loop (env : Env) (drive : drive_t) :
    Nat → esdi_t → Nat → ℚ → List ImgOp → List Nat → Except Fatal XRes
  | 0, _, _, _, _, _ => Except.error Fatal.outOfFuel
  | Nat.succ fuel, dev, cap, cmd_time, ops, out =>
    if dev.sector_pos < dev.sector_count then
      if dev.data_pos = 0 ∧ dev.rba ≥ drive.sectors then
        Except.error Fatal.readPastEnd
      else if dev.data_pos = 0 ∧ env.img_read drive.hdd_num dev.rba = none then
        Except.ok (XRes.errored (defective_block dev)
          (ops ++ [ImgOp.rd drive.hdd_num dev.rba]) out)
      else
        let step :=
          if dev.data_pos = 0 then
            ({dev with data := (env.img_read drive.hdd_num dev.rba).getD []},
             cmd_time + env.timing_read drive.hdd_num dev.rba 1 + esdi_mca_get_xfer_time 1,
             ops ++ [ImgOp.rd drive.hdd_num dev.rba])
          else (dev, cmd_time, ops)
        let dev := step.1
        let cmd_time := step.2.1
        let ops := step.2.2
        if dev.data_pos < 256 then
          match cap with
          | 0 => Except.ok (XRes.suspend
              (esdi_mca_set_callback dev (ESDI_TIME + cmd_time)) ops out)
          | Nat.succ cap' =>
            read_xfer_loop env drive fuel {dev with data_pos := dev.data_pos + 1}
              cap' cmd_time ops (out ++ [dev.data.getD dev.data_pos 0])
        else
          read_xfer_loop env drive fuel
            {dev with data_pos := 0, sector_pos := dev.sector_pos + 1, rba := dev.rba + 1}
            cap cmd_time ops out
    else Except.ok (XRes.done dev cmd_time ops out)

/-- The CMD_WRITE / CMD_WRITE_VERIFY `cmd_state == 1` loop: pull words from
the DMA channel into the staging buffer (suspending on `DMA_NODATA`), and at
each full sector commit it to the image (fatal past the drive end, guest
error on image failure) and accrue its timing cost.  `input` is the
`Env.dma_data` budget left. -/
def write_xfer_loop (env : Env) (drive : drive_t) :
    Nat → esdi_t → List Nat → ℚ → List ImgOp → Except Fatal XRes
  | 0, _, _, _, _ => Except.error Fatal.outOfFuel
  | Nat.succ fuel, dev, input, cmd_time, ops =>
    if dev.sector_pos < dev.sector_count then
      if dev.data_pos < 256 then
        match input with
        | [] => Except.ok (XRes.suspend
            (esdi_mca_set_callback dev (ESDI_TIME + cmd_time)) ops [])
        | v :: input' =>
          write_xfer_loop env drive fuel
            {dev with data := dev.data.set dev.data_pos (u16 v),
                      data_pos := dev.data_pos + 1}
            input' cmd_time ops
      else
        if dev.rba ≥ drive.sectors then Except.error Fatal.writePastEnd
        else if env.img_write_ok drive.hdd_num dev.rba then
          write_xfer_loop env drive fuel
            {dev with rba := dev.rba + 1, sector_pos := dev.sector_pos + 1,
                      data_pos := 0}
            input
            (cmd_time + env.timing_write drive.hdd_num dev.rba 1 + esdi_mca_get_xfer_time 1)
            (ops ++ [ImgOp.wr drive.hdd_num dev.rba dev.data])
        else
          Except.ok (XRes.errored (defective_block dev)
            (ops ++ [ImgOp.wr drive.hdd_num dev.rba dev.data]) [])
    else Except.ok (XRes.done dev cmd_time ops [])

/-- The command `0x10` (write sector buffer) `cmd_state == 1` loop. -/
def sbuf_write_loop :
    Nat → esdi_t → List Nat → Except Fatal XRes
  | 0, _, _ => Except.error Fatal.outOfFuel
  | Nat.succ fuel, dev, input =>
    if dev.sector_pos < dev.sector_count then
      if dev.data_pos < 256 then
        match input with
        | [] => Except.ok (XRes.suspend (esdi_mca_set_callback dev ESDI_TIME) [] [])
        | v :: input' =>
          sbuf_write_loop fuel
            {dev with data := dev.data.set dev.data_pos (u16 v),
                      data_pos := dev.data_pos + 1}
            input'
      else
        sbuf_write_loop fuel
          {dev with sector_buffer := dev.sector_buffer.set dev.sector_pos dev.data,
                    sector_pos := dev.sector_pos + 1, data_pos := 0}
          input
    else Except.ok (XRes.done dev 0 [] [])

/-- The command `0x11` (read sector buffer) `cmd_state == 1` loop.  Note the
source increments `sector_pos` already at the `memcpy` that loads the
staging buffer. -/
def sbuf_read_loop :
    Nat → esdi_t → Nat → List Nat → Except Fatal XRes
  | 0, _, _, _ => Except.error Fatal.outOfFuel
  | Nat.succ fuel, dev, cap, out =>
    if dev.sector_pos < dev.sector_count then
      let dev :=
        if dev.data_pos = 0 then
          {dev with data := dev.sector_buffer.getD dev.sector_pos [],
                    sector_pos := dev.sector_pos + 1}
        else dev
      if dev.data_pos < 256 then
        match cap with
        | 0 => Except.ok (XRes.suspend (esdi_mca_set_callback dev ESDI_TIME) [] out)
        | Nat.succ cap' =>
          sbuf_read_loop fuel {dev with data_pos := dev.data_pos + 1} cap'
            (out ++ [dev.data.getD dev.data_pos 0])
      else
        sbuf_read_loop fuel {dev with data_pos := 0} cap out
    else Except.ok (XRes.done dev 0 [] out)

/-- Sufficient fuel for every transfer loop from any entry state of the
executor (each loop strictly decreases a measure bounded by this). -/
def loopFuel (dev : esdi_t) : Nat := 257 * dev.sector_count + 600

/-- `ESDI_DRIVE_ONLY`'s target test. -/
def driveOnlyFails (dev : esdi_t) : Prop :=
  dev.cmd_dev ≠ ATTN_DEVICE_0 ∧ dev.cmd_dev ≠ ATTN_DEVICE_1

instance (dev : esdi_t) : Decidable (driveOnlyFails dev) := by
  unfold driveOnlyFails; infer_instance

/-- `ESDI_DRIVE_ONLY`'s drive selection. -/
def selDrive (dev : esdi_t) : drive_t :=
  if dev.cmd_dev = ATTN_DEVICE_0 then dev.drives0 else dev.drives1

/-- The common tail of a transfer-phase run inside `esdi_callback`:
`suspend` and `errored` already carry the final state of the early
`return`s; `done` falls through to `status = STATUS_CMD_IN_PROGRESS`,
`cmd_state = 2` and `esdi_mca_set_callback(dev, cmd_time)`. -/
def finishXfer (r : XRes) : esdi_t × List ImgOp × List Nat :=
  match r with
  | XRes.suspend dev ops out => (dev, ops, out)
  | XRes.errored dev ops out => (dev, ops, out)
  | XRes.done dev cmd_time ops out =>
    (esdi_mca_set_callback
      {dev with status := STATUS_CMD_IN_PROGRESS, cmd_state := 2} cmd_time, ops, out)

/-- For the sector-buffer commands the fall-through schedules `ESDI_TIME`
instead of the accumulated time. -/
def finishSbuf (r : XRes) : esdi_t × List ImgOp × List Nat :=
  match r with
  | XRes.suspend dev ops out => (dev, ops, out)
  | XRes.errored dev ops out => (dev, ops, out)
  | XRes.done dev _ ops out =>
    (esdi_mca_set_callback
      {dev with status := STATUS_CMD_IN_PROGRESS, cmd_state := 2} ESDI_TIME, ops, out)

/-- `esdi_callback`: the deferred command executor.  The pending timer has
fired (so it is cleared on entry); a reset in flight completes first;
otherwise the in-flight command advances by one phase.  Returns the new
state together with the image accesses performed and the words pushed
through `dma_channel_write`. -/
def esdi_callback (env : Env) (dev0 : esdi_t) :
    Except Fatal (esdi_t × List ImgOp × List Nat) :=
  let dev : esdi_t := {dev0 with timer := none}
  if dev.in_reset then
    Except.ok ({dev with
      in_reset := false
      status := STATUS_IRQ ||| STATUS_TRANSFER_REQ ||| STATUS_STATUS_OUT_FULL
      status_len := 1
      status_data := [u16 (STATUS_LEN 1 ||| ATTN_HOST_ADAPTER)]
      irq_status := IRQ_HOST_ADAPTER ||| IRQ_RESET_COMPLETE}, [], [])
  else
    match dev.command with
    | 0x01 | 0x15 =>
      if driveOnlyFails dev then Except.ok (cmd_unsupported dev, [], [])
      else
        let drive := selDrive dev
        if drive.present = false then Except.ok (device_not_present dev, [], [])
        else
          match dev.cmd_state with
          | 0 =>
            let dev :=
              if dev.command = CMD_READ then
                {dev with rba :=
                  (dev.cmd_data.getD 2 0 ||| (dev.cmd_data.getD 3 0 <<< 16)) &&& 0x0fffffff}
              else dev
            let dev := {dev with sector_pos := 0, sector_count := dev.cmd_data.getD 1 0}
            if dev.rba + dev.sector_count > env.last_sector drive.hdd_num then
              Except.ok (rba_out_of_range dev, [], [])
            else
              let dev := set_irq {dev with
                status := STATUS_IRQ ||| STATUS_CMD_IN_PROGRESS ||| STATUS_TRANSFER_REQ
                irq_status := dev.cmd_dev ||| IRQ_DATA_TRANSFER_READY
                irq_in_progress := true
                cmd_state := 1}
              Except.ok ({esdi_mca_set_callback dev ESDI_TIME with data_pos := 0}, [], [])
          | 1 =>
            if dev.basic_ctrl &&& CTRL_DMA_ENA = 0 then
              Except.ok (esdi_mca_set_callback dev ESDI_TIME, [], [])
            else
              match read_xfer_loop env drive (loopFuel dev) dev env.dma_cap 0 [] [] with
              | Except.error f => Except.error f
              | Except.ok r => Except.ok (finishXfer r)
          | 2 =>
            let dev := complete_command_status dev
            Except.ok (set_irq {dev with
              status := STATUS_IRQ ||| STATUS_STATUS_OUT_FULL
              irq_status := dev.cmd_dev ||| IRQ_CMD_COMPLETE_SUCCESS
              irq_in_progress := true}, [], [])
          | _ => Except.ok (dev, [], [])
    | 0x02 | 0x04 =>
      if driveOnlyFails dev then Except.ok (cmd_unsupported dev, [], [])
      else
        let drive := selDrive dev
        if drive.present = false then Except.ok (device_not_present dev, [], [])
        else
          match dev.cmd_state with
          | 0 =>
            let dev := {dev with rba :=
              (dev.cmd_data.getD 2 0 ||| (dev.cmd_data.getD 3 0 <<< 16)) &&& 0x0fffffff}
            let dev := {dev with sector_pos := 0, sector_count := dev.cmd_data.getD 1 0}
            if dev.rba + dev.sector_count > env.last_sector drive.hdd_num then
              Except.ok (rba_out_of_range dev, [], [])
            else
              let dev := set_irq {dev with
                status := STATUS_IRQ ||| STATUS_CMD_IN_PROGRESS ||| STATUS_TRANSFER_REQ
                irq_status := dev.cmd_dev ||| IRQ_DATA_TRANSFER_READY
                irq_in_progress := true
                cmd_state := 1}
              Except.ok ({esdi_mca_set_callback dev ESDI_TIME with data_pos := 0}, [], [])
          | 1 =>
            if dev.basic_ctrl &&& CTRL_DMA_ENA = 0 then
              Except.ok (esdi_mca_set_callback dev ESDI_TIME, [], [])
            else
              match write_xfer_loop env drive (loopFuel dev) dev env.dma_data 0 [] with
              | Except.error f => Except.error f
              | Except.ok r => Except.ok (finishXfer r)
          | 2 =>
            let dev := complete_command_status dev
            Except.ok (set_irq {dev with
              status := STATUS_IRQ ||| STATUS_STATUS_OUT_FULL
              irq_status := dev.cmd_dev ||| IRQ_CMD_COMPLETE_SUCCESS
              irq_in_progress := true}, [], [])
          | _ => Except.ok (dev, [], [])
    | 0x03 =>
      if driveOnlyFails dev then Except.ok (cmd_unsupported dev, [], [])
      else
        let drive := selDrive dev
        if drive.present = false then Except.ok (device_not_present dev, [], [])
        else
          match dev.cmd_state with
          | 0 =>
            let dev := {dev with rba :=
              (dev.cmd_data.getD 2 0 ||| (dev.cmd_data.getD 3 0 <<< 16)) &&& 0x0fffffff}
            let dev := {dev with sector_count := dev.cmd_data.getD 1 0}
            if dev.rba + dev.sector_count > env.last_sector drive.hdd_num then
              Except.ok (rba_out_of_range dev, [], [])
            else
              let cmd_time := env.timing_read drive.hdd_num dev.rba dev.sector_count
              Except.ok (esdi_mca_set_callback {dev with cmd_state := 1}
                (ESDI_TIME + cmd_time), [], [])
          | 1 =>
            let dev := complete_command_status dev
            Except.ok (set_irq {dev with
              status := STATUS_IRQ ||| STATUS_STATUS_OUT_FULL
              irq_status := dev.cmd_dev ||| IRQ_CMD_COMPLETE_SUCCESS
              irq_in_progress := true}, [], [])
          | _ => Except.ok (dev, [], [])
    | 0x05 =>
      if driveOnlyFails dev then Except.ok (cmd_unsupported dev, [], [])
      else
        let drive := selDrive dev
        if drive.present = false then Except.ok (device_not_present dev, [], [])
        else if dev.rba + dev.sector_count > env.last_sector drive.hdd_num then
          Except.ok (rba_out_of_range dev, [], [])
        else
          match dev.cmd_state with
          | 0 =>
            let dev := {dev with rba :=
              (dev.cmd_data.getD 2 0 ||| (dev.cmd_data.getD 3 0 <<< 16)) &&& 0x0fffffff}
            let cmd_time := env.seek_time drive.hdd_num dev.rba
            Except.ok (esdi_mca_set_callback {dev with cmd_state := 1}
              (ESDI_TIME + cmd_time), [], [])
          | 1 =>
            let dev := complete_command_status dev
            Except.ok (set_irq {dev with
              status := STATUS_IRQ ||| STATUS_STATUS_OUT_FULL
              irq_status := dev.cmd_dev ||| IRQ_CMD_COMPLETE_SUCCESS
              irq_in_progress := true}, [], [])
          | _ => Except.ok (dev, [], [])
    | 0x06 =>
      if driveOnlyFails dev then Except.ok (cmd_unsupported dev, [], [])
      else
        let drive := selDrive dev
        if drive.present = false then Except.ok (device_not_present dev, [], [])
        else
          match dev.cmd_state with
          | 0 =>
            let dev := {dev with rba := 0}
            let cmd_time := env.seek_time drive.hdd_num dev.rba
            Except.ok (esdi_mca_set_callback {dev with cmd_state := 1}
              (ESDI_TIME + cmd_time), [], [])
          | 1 =>
            let dev := complete_command_status dev
            Except.ok (set_irq {dev with
              status := STATUS_IRQ ||| STATUS_STATUS_OUT_FULL
              irq_status := dev.cmd_dev ||| IRQ_CMD_COMPLETE_SUCCESS
              irq_in_progress := true}, [], [])
          | _ => Except.ok (dev, [], [])
    | 0x08 =>
      if driveOnlyFails dev then Except.ok (cmd_unsupported dev, [], [])
      else
        let drive := selDrive dev
        if drive.present = false then Except.ok (device_not_present dev, [], [])
        else if dev.status &&& STATUS_IRQ ≠ 0 ∨ dev.irq_in_progress then
          Except.error Fatal.irqInProgress
        else
          let dev := {dev with
            status_len := 9
            status_data := [u16 (CMD_GET_DEV_STATUS ||| STATUS_LEN 9 ||| STATUS_DEVICE_HOST_ADAPTER),
              0x0000, 0x1900, 0, 0, 0, 0, 0, 0]}
          Except.ok (set_irq {dev with
            status := STATUS_IRQ ||| STATUS_STATUS_OUT_FULL
            irq_status := dev.cmd_dev ||| IRQ_CMD_COMPLETE_SUCCESS
            irq_in_progress := true}, [], [])
    | 0x09 =>
      if dev.cmd_dev = ATTN_HOST_ADAPTER then
        if dev.status &&& STATUS_IRQ ≠ 0 ∨ dev.irq_in_progress then
          Except.error Fatal.irqInProgress
        else
          let dev := {dev with
            status_len := 6
            status_data := [u16 (CMD_GET_DEV_CONFIG ||| STATUS_LEN 6 ||| STATUS_DEVICE_HOST_ADAPTER),
              0, 0, 0x3200, 0, 0]}
          Except.ok (set_irq {dev with
            status := STATUS_IRQ ||| STATUS_STATUS_OUT_FULL
            irq_status := dev.cmd_dev ||| IRQ_CMD_COMPLETE_SUCCESS
            irq_in_progress := true}, [], [])
      else
        if driveOnlyFails dev then Except.ok (cmd_unsupported dev, [], [])
        else
          let drive := selDrive dev
          if drive.present = false then Except.ok (device_not_present dev, [], [])
          else if dev.status &&& STATUS_IRQ ≠ 0 ∨ dev.irq_in_progress then
            Except.error Fatal.irqInProgress
          else
            let dev := {dev with
              status_len := 6
              status_data := [u16 (CMD_GET_DEV_CONFIG ||| STATUS_LEN 6 ||| STATUS_DEVICE_HOST_ADAPTER),
                0x10, u16 drive.sectors, u16 (drive.sectors >>> 16),
                u16 drive.tracks, u16 (drive.hpc ||| (drive.spt <<< 16))]}
            Except.ok (set_irq {dev with
              status := STATUS_IRQ ||| STATUS_STATUS_OUT_FULL
              irq_status := dev.cmd_dev ||| IRQ_CMD_COMPLETE_SUCCESS
              irq_in_progress := true}, [], [])
    | 0x0a =>
      if dev.cmd_dev ≠ ATTN_HOST_ADAPTER then Except.ok (cmd_unsupported dev, [], [])
      else if dev.status &&& STATUS_IRQ ≠ 0 ∨ dev.irq_in_progress then
        Except.error Fatal.irqInProgress
      else
        let dev := {dev with
          status_len := 5
          status_data := [u16 (CMD_GET_POS_INFO ||| STATUS_LEN 5 ||| STATUS_DEVICE_HOST_ADAPTER),
            u16 (dev.pos_regs.getD 1 0 ||| (dev.pos_regs.getD 0 0 <<< 8)),
            u16 (dev.pos_regs.getD 3 0 ||| (dev.pos_regs.getD 2 0 <<< 8)),
            0xff, 0xff]}
        Except.ok (set_irq {dev with
          status := STATUS_IRQ ||| STATUS_STATUS_OUT_FULL
          irq_status := IRQ_HOST_ADAPTER ||| IRQ_CMD_COMPLETE_SUCCESS
          irq_in_progress := true}, [], [])
    | 0x10 =>
      if dev.cmd_dev ≠ ATTN_HOST_ADAPTER then Except.ok (cmd_unsupported dev, [], [])
      else
        match dev.cmd_state with
        | 0 =>
          let dev := {dev with sector_pos := 0, sector_count := dev.cmd_data.getD 1 0}
          if dev.sector_count > 256 then Except.error Fatal.sectorBufferCount
          else
            let dev := set_irq {dev with
              status := STATUS_IRQ ||| STATUS_CMD_IN_PROGRESS ||| STATUS_TRANSFER_REQ
              irq_status := IRQ_HOST_ADAPTER ||| IRQ_DATA_TRANSFER_READY
              irq_in_progress := true
              cmd_state := 1}
            Except.ok ({esdi_mca_set_callback dev ESDI_TIME with data_pos := 0}, [], [])
        | 1 =>
          if dev.basic_ctrl &&& CTRL_DMA_ENA = 0 then
            Except.ok (esdi_mca_set_callback dev ESDI_TIME, [], [])
          else
            match sbuf_write_loop (loopFuel dev) dev env.dma_data with
            | Except.error f => Except.error f
            | Except.ok r => Except.ok (finishSbuf r)
        | 2 =>
          Except.ok (set_irq {dev with
            status := STATUS_IRQ
            irq_status := IRQ_HOST_ADAPTER ||| IRQ_CMD_COMPLETE_SUCCESS
            irq_in_progress := true}, [], [])
        | _ => Except.ok (dev, [], [])
    | 0x11 =>
      if dev.cmd_dev ≠ ATTN_HOST_ADAPTER then Except.ok (cmd_unsupported dev, [], [])
      else
        match dev.cmd_state with
        | 0 =>
          let dev := {dev with sector_pos := 0, sector_count := dev.cmd_data.getD 1 0}
          if dev.sector_count > 256 then Except.error Fatal.sectorBufferCount
          else
            let dev := set_irq {dev with
              status := STATUS_IRQ ||| STATUS_CMD_IN_PROGRESS ||| STATUS_TRANSFER_REQ
              irq_status := IRQ_HOST_ADAPTER ||| IRQ_DATA_TRANSFER_READY
              irq_in_progress := true
              cmd_state := 1}
            Except.ok ({esdi_mca_set_callback dev ESDI_TIME with data_pos := 0}, [], [])
        | 1 =>
          if dev.basic_ctrl &&& CTRL_DMA_ENA = 0 then
            Except.ok (esdi_mca_set_callback dev ESDI_TIME, [], [])
          else
            match sbuf_read_loop (loopFuel dev) dev env.dma_cap [] with
            | Except.error f => Except.error f
            | Except.ok r => Except.ok (finishSbuf r)
        | 2 =>
          Except.ok (set_irq {dev with
            status := STATUS_IRQ
            irq_status := IRQ_HOST_ADAPTER ||| IRQ_CMD_COMPLETE_SUCCESS
            irq_in_progress := true}, [], [])
        | _ => Except.ok (dev, [], [])
    | 0x12 =>
      if dev.cmd_dev ≠ ATTN_HOST_ADAPTER then Except.ok (cmd_unsupported dev, [], [])
      else if dev.status &&& STATUS_IRQ ≠ 0 ∨ dev.irq_in_progress then
        Except.error Fatal.irqInProgress
      else
        let dev := {dev with
          status_len := 2
          status_data := [u16 (0x12 ||| STATUS_LEN 5 ||| STATUS_DEVICE_HOST_ADAPTER), 0]}
        Except.ok (set_irq {dev with
          status := STATUS_IRQ ||| STATUS_STATUS_OUT_FULL
          irq_status := IRQ_HOST_ADAPTER ||| IRQ_CMD_COMPLETE_SUCCESS
          irq_in_progress := true}, [], [])
    | 0x16 | 0x17 =>
      if driveOnlyFails dev then Except.ok (cmd_unsupported dev, [], [])
      else
        let drive := selDrive dev
        if drive.present = false then Except.ok (device_not_present dev, [], [])
        else
          match dev.cmd_state with
          | 0 =>
            let dev := {dev with rba := env.last_sector drive.hdd_num}
            let dev :=
              if dev.command = CMD_FORMAT_UNIT then
                {dev with sector_count := dev.cmd_data.getD 1 0}
              else {dev with sector_count := 0}
            let dev := set_irq {dev with
              status := STATUS_IRQ ||| STATUS_CMD_IN_PROGRESS ||| STATUS_TRANSFER_REQ
              irq_status := dev.cmd_dev ||| IRQ_DATA_TRANSFER_READY
              irq_in_progress := true
              cmd_state := 1}
            Except.ok (esdi_mca_set_callback dev ESDI_TIME, [], [])
          | 1 =>
            if dev.basic_ctrl &&& CTRL_DMA_ENA = 0 then
              Except.ok (esdi_mca_set_callback dev ESDI_TIME, [], [])
            else
              let ops :=
                if dev.command = CMD_FORMAT_UNIT then
                  [ImgOp.zero drive.hdd_num 0 (env.last_sector drive.hdd_num + 1)]
                else []
              Except.ok (esdi_mca_set_callback
                {dev with status := STATUS_CMD_IN_PROGRESS, cmd_state := 2}
                ESDI_TIME, ops, [])
          | 2 =>
            let dev := complete_command_status dev
            Except.ok (set_irq {dev with
              status := STATUS_IRQ ||| STATUS_STATUS_OUT_FULL
              irq_status := dev.cmd_dev ||| IRQ_CMD_COMPLETE_SUCCESS
              irq_in_progress := true}, [], [])
          | _ => Except.ok (dev, [], [])
    | _ => Except.error Fatal.badCommand

/-- `esdi_read`: byte port reads.  Port 2 returns the basic status register;
port 3 clears the `STATUS_IRQ` status bit and returns the interrupt-status
register; other ports only log and return 0. -/
def esdi_read (port : Nat) (dev : esdi_t) : esdi_t × Nat :=
  match port % 8 with
  | 2 => (dev, dev.status)
  | 3 => ({dev with status := dev.status &&& 0xfe}, dev.irq_status)
  | _ => (dev, 0)

/-- `esdi_write`: byte port writes.  Port 2 is the basic control register
(reset edges, DMA enable, IRQ enable); port 3 the attention register. -/
def esdi_write (port val0 : Nat) (dev : esdi_t) : Except Fatal esdi_t :=
  let val := val0 % 256
  match port % 8 with
  | 2 =>
    let dev :=
      if dev.basic_ctrl &&& CTRL_RESET ≠ 0 ∧ val &&& CTRL_RESET = 0 then
        {esdi_mca_set_callback dev (ESDI_TIME * 50) with
          in_reset := true, status := STATUS_BUSY}
      else if dev.basic_ctrl &&& CTRL_RESET = 0 ∧ val &&& CTRL_RESET ≠ 0 then
        {esdi_mca_set_callback dev 0 with status := STATUS_BUSY}
      else dev
    let old := dev.basic_ctrl
    let dev := {dev with basic_ctrl := val}
    Except.ok (if val &&& CTRL_IRQ_ENA ≠ 0 ∧ old &&& CTRL_IRQ_ENA = 0 then
      update_irq dev else dev)
  | 3 =>
    if val &&& ATTN_DEVICE_SEL = ATTN_HOST_ADAPTER then
      if val &&& ATTN_REQ_MASK = ATTN_CMD_REQ then
        if dev.cmd_req_in_progress then Except.error Fatal.cmdReqInProgress
        else Except.ok {dev with
          cmd_req_in_progress := true
          cmd_dev := ATTN_HOST_ADAPTER
          status := dev.status ||| STATUS_BUSY
          cmd_pos := 0
          status_pos := 0}
      else if val &&& ATTN_REQ_MASK = ATTN_EOI then
        Except.ok (clear_irq {dev with
          irq_in_progress := false, status := dev.status &&& 0xfe})
      else if val &&& ATTN_REQ_MASK = ATTN_RESET then
        Except.ok {esdi_mca_set_callback dev (ESDI_TIME * 50) with
          in_reset := true, status := STATUS_BUSY}
      else Except.error Fatal.badAttnRequest
    else if val &&& ATTN_DEVICE_SEL = ATTN_DEVICE_0 then
      if val &&& ATTN_REQ_MASK = ATTN_CMD_REQ then
        if dev.cmd_req_in_progress then Except.error Fatal.cmdReqInProgress
        else Except.ok {dev with
          cmd_req_in_progress := true
          cmd_dev := ATTN_DEVICE_0
          status := dev.status ||| STATUS_BUSY
          cmd_pos := 0
          status_pos := 0}
      else if val &&& ATTN_REQ_MASK = ATTN_EOI then
        Except.ok (clear_irq {dev with
          irq_in_progress := false, status := dev.status &&& 0xfe})
      else Except.error Fatal.badAttnRequest
    else if val &&& ATTN_DEVICE_SEL = ATTN_DEVICE_1 then
      if val &&& ATTN_REQ_MASK = ATTN_CMD_REQ then
        if dev.cmd_req_in_progress then Except.error Fatal.cmdReqInProgress
        else Except.ok {dev with
          cmd_req_in_progress := true
          cmd_dev := ATTN_DEVICE_1
          status := dev.status ||| STATUS_BUSY
          cmd_pos := 0
          status_pos := 0}
      else if val &&& ATTN_REQ_MASK = ATTN_EOI then
        Except.ok (clear_irq {dev with
          irq_in_progress := false, status := dev.status &&& 0xfe})
      else Except.error Fatal.badAttnRequest
    else Except.error Fatal.badAttnDevice
  | _ => Except.error Fatal.badPortWrite

/-- `esdi_readw`: word port reads.  Port 0 is the Status Interface Register:
pop one status word if the cursor is below the declared length, else return
0 unchanged; when the last declared word is popped, `STATUS_STATUS_OUT_FULL`
clears and cursor and length reset to 0. -/
def esdi_readw (port : Nat) (dev : esdi_t) : Except Fatal (esdi_t × Nat) :=
  match port % 8 with
  | 0 =>
    if dev.status_pos ≥ dev.status_len then Except.ok (dev, 0)
    else
      let ret := dev.status_data.getD dev.status_pos 0
      let dev := {dev with status_pos := dev.status_pos + 1}
      if dev.status_pos ≥ dev.status_len then
        Except.ok ({dev with
          status := dev.status &&& 0xf7, status_pos := 0, status_len := 0}, ret)
      else Except.ok (dev, ret)
  | _ => Except.error Fatal.badPortReadw

/-- `esdi_writew`: word port writes.  Port 0 is the Command Interface
Register: append the word; at 2 words (`CMD_SIZE_4` clear in word 0) or 4
words (set), consume the queue: fatal on target mismatch with the attention
latch, else decode the opcode, force busy status and schedule the executor
after `ESDI_TIME`. -/
def esdi_writew (port val0 : Nat) (dev : esdi_t) : Except Fatal esdi_t :=
  let val := u16 val0
  match port % 8 with
  | 0 =>
    if dev.cmd_pos ≥ 4 then Except.error Fatal.cirOverflow
    else
      let dev := {dev with
        cmd_data := dev.cmd_data.set dev.cmd_pos val, cmd_pos := dev.cmd_pos + 1}
      let w0 := dev.cmd_data.getD 0 0
      if (w0 &&& CMD_SIZE_4 ≠ 0 ∧ dev.cmd_pos = 4) ∨
         (w0 &&& CMD_SIZE_4 = 0 ∧ dev.cmd_pos = 2) then
        if w0 &&& CMD_DEVICE_SEL ≠ dev.cmd_dev then Except.error Fatal.cmdDevMismatch
        else
          Except.ok (esdi_mca_set_callback {dev with
            cmd_pos := 0
            cmd_req_in_progress := false
            cmd_state := 0
            command := w0 &&& CMD_MASK
            status := STATUS_BUSY
            data_pos := 0} ESDI_TIME)
      else Except.ok dev
  | _ => Except.error Fatal.badPortWritew

/-- The adapter state `esdi_init` leaves behind (adapter variant, drives as
configured): everything calloc-zeroed except `irq_status = 0xff`, the MCA
ID in `pos_regs`, and a pending reset with the long delay. -/
def esdi_init_state (d0 d1 : drive_t) : esdi_t where
  dma := 0
  basic_ctrl := 0
  status := STATUS_BUSY
  irq_status := 0xff
  irq_ena_disable := false
  irq_in_progress := false
  cmd_req_in_progress := false
  cmd_pos := 0
  cmd_data := [0, 0, 0, 0]
  cmd_dev := 0
  status_pos := 0
  status_len := 0
  status_data := []
  data_pos := 0
  data := List.replicate 256 0
  sector_buffer := List.replicate 256 (List.replicate 256 0)
  sector_pos := 0
  sector_count := 0
  command := 0
  cmd_state := 0
  in_reset := true
  rba := 0
  drives0 := d0
  drives1 := d1
  pos_regs := [0xff, 0xdd, 0, 0, 0, 0, 0, 0]
  irq_line := false
  timer := some (ESDI_TIME * 50)

/-- States reachable from an initial adapter through the register handlers
and executor callbacks (the DMA channel and image environment vary freely
between callbacks). -/
inductive Reachable : esdi_t → Prop
  | init (d0 d1 : drive_t) : Reachable (esdi_init_state d0 d1)
  | rd (port : Nat) {dev dev' : esdi_t} {ret : Nat} :
      Reachable dev → esdi_read port dev = (dev', ret) → Reachable dev'
  | wr (port val : Nat) {dev dev' : esdi_t} :
      Reachable dev → esdi_write port val dev = Except.ok dev' → Reachable dev'
  | rdw (port : Nat) {dev dev' : esdi_t} {ret : Nat} :
      Reachable dev → esdi_readw port dev = Except.ok (dev', ret) → Reachable dev'
  | wrw (port val : Nat) {dev dev' : esdi_t} :
      Reachable dev → esdi_writew port val dev = Except.ok dev' → Reachable dev'
  | cb (env : Env) {dev dev' : esdi_t} {ops : List ImgOp} {out : List Nat} :
      Reachable dev → esdi_callback env dev = Except.ok (dev', ops, out) →
      Reachable dev'

/-! ## Helper lemmas -/

/-- a trivial environment, for witnesses that use no collaborator -/
def trivEnv : Env where
  img_read := fun _ _ => none
  img_write_ok := fun _ _ => false
  last_sector := fun _ => 0
  timing_read := fun _ _ _ => 0
  timing_write := fun _ _ _ => 0
  seek_time := fun _ _ => 0
  dma_cap := 0
  dma_data := []

theorem set_callback_pos (d : esdi_t) (c : ℚ) (h : c ≠ 0) :
    esdi_mca_set_callback d c = {d with timer := some c} := by
  simp [esdi_mca_set_callback, h]

theorem set_callback_zero (d : esdi_t) :
    esdi_mca_set_callback d 0 = {d with timer := none} := by
  simp [esdi_mca_set_callback]

/-! ## C7: the Status Interface Register read -/

/-- Claim C7: reading the status interface register pops the word at the
cursor and advances the cursor when the cursor is below the declared
length; returns 0 with no state change when the queue is empty or drained;
and when the pop consumes the last declared word, the status-output-full
bit clears and both cursor and declared length reset to zero. -/
theorem C7_read_status_interface (dev : esdi_t) :
    (dev.status_pos ≥ dev.status_len → esdi_readw 0 dev = Except.ok (dev, 0)) ∧
    (dev.status_pos < dev.status_len → dev.status_pos + 1 < dev.status_len →
      esdi_readw 0 dev = Except.ok ({dev with status_pos := dev.status_pos + 1},
        dev.status_data.getD dev.status_pos 0)) ∧
    (dev.status_pos < dev.status_len → dev.status_pos + 1 ≥ dev.status_len →
      esdi_readw 0 dev = Except.ok ({dev with
        status := dev.status &&& 0xf7, status_pos := 0, status_len := 0},
        dev.status_data.getD dev.status_pos 0)) := by
  refine ⟨fun h => ?_, fun h h2 => ?_, fun h h2 => ?_⟩
  · simp only [esdi_readw]
    rw [if_pos h]
  · simp only [esdi_readw]
    rw [if_neg (by omega), if_neg (by omega)]
  · simp only [esdi_readw]
    rw [if_neg (by omega), if_pos (by omega)]

/-- concrete state for the C7 witness -/
def c7dev : esdi_t := {esdi_init_state ⟨0, 0, 0, 0, false, 0⟩ ⟨0, 0, 0, 0, false, 0⟩ with
  status_len := 2, status_pos := 1, status_data := [10, 20], status := 0xff}

/-- Witness for C7 at a concrete two-word queue. -/
theorem C7_read_status_interface_witness :
    esdi_readw 0 c7dev = Except.ok ({c7dev with
      status := 0xf7, status_pos := 0, status_len := 0}, 20) := by
  rw [(C7_read_status_interface c7dev).2.2 (by norm_num [c7dev]) (by norm_num [c7dev])]
  rfl

/-! ## C3: the Command Interface Register write -/

/-- Claim C3: a word written to the command interface register is appended
at the current queue cursor; exactly when the queue reaches 2 words (length
flag of word 0 clear) or 4 words (flag set) the queue is consumed in one
step — cursor reset to 0, `cmd_req_in_progress` cleared, phase reset to 0,
opcode decoded from word 0 (fatal on a target mismatch with the attention
latch), status forced busy, executor scheduled after `ESDI_TIME` — and
before that length is reached only the append happens. -/
theorem C3_cir_write (dev : esdi_t) (val : Nat) (h4 : dev.cmd_pos < 4) :
    let dev1 : esdi_t := {dev with
      cmd_data := dev.cmd_data.set dev.cmd_pos (u16 val), cmd_pos := dev.cmd_pos + 1}
    let w0 := dev1.cmd_data.getD 0 0
    let full := (w0 &&& CMD_SIZE_4 ≠ 0 ∧ dev1.cmd_pos = 4) ∨
      (w0 &&& CMD_SIZE_4 = 0 ∧ dev1.cmd_pos = 2)
    (¬full → esdi_writew 0 val dev = Except.ok dev1) ∧
    (full → w0 &&& CMD_DEVICE_SEL ≠ dev.cmd_dev →
      esdi_writew 0 val dev = Except.error Fatal.cmdDevMismatch) ∧
    (full → w0 &&& CMD_DEVICE_SEL = dev.cmd_dev →
      esdi_writew 0 val dev = Except.ok {dev1 with
        cmd_pos := 0, cmd_req_in_progress := false, cmd_state := 0,
        command := w0 &&& CMD_MASK, status := STATUS_BUSY, data_pos := 0,
        timer := some ESDI_TIME}) := by
  intro dev1 w0 full
  refine ⟨fun h => ?_, fun h hm => ?_, fun h hm => ?_⟩
  · simp only [esdi_writew]
    rw [if_neg (by omega), if_neg h]
  · simp only [esdi_writew]
    rw [if_neg (by omega), if_pos h, if_pos hm]
  · simp only [esdi_writew]
    rw [if_neg (by omega), if_pos h,
      if_neg (by simp only [ne_eq, not_not]; exact hm)]
    rw [set_callback_pos _ _ (by norm_num [ESDI_TIME])]

/-- concrete state for the C3 witness: one queued word `0x00ea`
(target = host adapter, short form), about to receive the second word -/
def c3dev : esdi_t := {esdi_init_state ⟨0, 0, 0, 0, false, 0⟩ ⟨0, 0, 0, 0, false, 0⟩ with
  cmd_pos := 1, cmd_data := [0xea, 0, 0, 0], cmd_dev := 0xe0,
  cmd_req_in_progress := true, cmd_state := 7, in_reset := false}

/-- Witness for C3: the second word completes the short-form queue and it
is consumed — `GET_POS_INFO` decoded, busy status, executor scheduled. -/
theorem C3_cir_write_witness :
    esdi_writew 0 0 c3dev = Except.ok {c3dev with
      cmd_data := [0xea, 0, 0, 0], cmd_pos := 0, cmd_req_in_progress := false,
      cmd_state := 0, command := 0x0a, status := STATUS_BUSY, data_pos := 0,
      timer := some ESDI_TIME} := by
  rw [(C3_cir_write c3dev 0 (by decide)).2.2 (by decide) (by decide)]
  rfl

/-! ## C4: the command-request attention -/

/-- Claim C4: a command-request attention write for any of the three
targets while `cmd_req_in_progress` is already set takes the fatal
internal-consistency path (the emulation aborts, so the prior request's
latched state is never overwritten); otherwise it sets
`cmd_req_in_progress`, latches the selected target into `cmd_dev`, sets the
busy status bit, and zeroes both the command-queue cursor and the
status-queue cursor. -/
theorem C4_attention_cmd_req (dev : esdi_t) (val t : Nat)
    (ht : t = ATTN_HOST_ADAPTER ∨ t = ATTN_DEVICE_0 ∨ t = ATTN_DEVICE_1)
    (hsel : val % 256 &&& ATTN_DEVICE_SEL = t)
    (hreq : val % 256 &&& ATTN_REQ_MASK = ATTN_CMD_REQ) :
    (dev.cmd_req_in_progress = true →
      esdi_write 3 val dev = Except.error Fatal.cmdReqInProgress) ∧
    (dev.cmd_req_in_progress = false →
      esdi_write 3 val dev = Except.ok {dev with
        cmd_req_in_progress := true, cmd_dev := t,
        status := dev.status ||| STATUS_BUSY, cmd_pos := 0, status_pos := 0}) := by
  rcases ht with ht | ht | ht <;> subst ht <;>
    refine ⟨fun h => ?_, fun h => ?_⟩ <;> simp only [esdi_write]
  · rw [if_pos hsel, if_pos hreq, if_pos h]
  · rw [if_pos hsel, if_pos hreq, if_neg (by simp [h])]
  · rw [if_neg (by simp [hsel, ATTN_DEVICE_0, ATTN_HOST_ADAPTER]),
      if_pos hsel, if_pos hreq, if_pos h]
  · rw [if_neg (by simp [hsel, ATTN_DEVICE_0, ATTN_HOST_ADAPTER]),
      if_pos hsel, if_pos hreq, if_neg (by simp [h])]
  · rw [if_neg (by simp [hsel, ATTN_DEVICE_1, ATTN_HOST_ADAPTER]),
      if_neg (by simp [hsel, ATTN_DEVICE_1, ATTN_DEVICE_0]),
      if_pos hsel, if_pos hreq, if_pos h]
  · rw [if_neg (by simp [hsel, ATTN_DEVICE_1, ATTN_HOST_ADAPTER]),
      if_neg (by simp [hsel, ATTN_DEVICE_1, ATTN_DEVICE_0]),
      if_pos hsel, if_pos hreq, if_neg (by simp [h])]

/-- concrete state for the C4 witness: no request in flight -/
def c4dev : esdi_t := {esdi_init_state ⟨0, 0, 0, 0, false, 0⟩ ⟨0, 0, 0, 0, false, 0⟩ with
  in_reset := false, status := 2, cmd_pos := 3, status_pos := 5}

/-- Witness for C4: device-0 command request on an idle adapter. -/
theorem C4_attention_cmd_req_witness :
    esdi_write 3 0x01 c4dev = Except.ok {c4dev with
      cmd_req_in_progress := true, cmd_dev := ATTN_DEVICE_0,
      status := 2 ||| STATUS_BUSY, cmd_pos := 0, status_pos := 0} := by
  rw [(C4_attention_cmd_req c4dev 0x01 ATTN_DEVICE_0 (Or.inr (Or.inl rfl))
    (by decide) (by decide)).2 (by decide)]
  rfl

/-! ## C8: the reset scenario -/

/-- Claim C8: a control-register write clearing the reset bit from a set
state enters the resetting state with busy status and the long delay
pending; when the reset timer fires, the resetting flag clears and the
state is exactly: status = IRQ-pending | transfer-request |
status-output-full, interrupt status = host-adapter | reset-complete, and a
status queue of declared length one whose single word identifies the host
adapter. -/
theorem C8_reset_scenario (env : Env) (dev : esdi_t) (val : Nat)
    (h1 : dev.basic_ctrl &&& CTRL_RESET ≠ 0) (h2 : val % 256 &&& CTRL_RESET = 0) :
    ∃ dev1, esdi_write 2 val dev = Except.ok dev1 ∧
      dev1.in_reset = true ∧ dev1.status = STATUS_BUSY ∧
      dev1.timer = some (ESDI_TIME * 50) ∧
      ∃ dev2, esdi_callback env dev1 = Except.ok (dev2, [], []) ∧
        dev2.in_reset = false ∧
        dev2.status = STATUS_IRQ ||| STATUS_TRANSFER_REQ ||| STATUS_STATUS_OUT_FULL ∧
        dev2.irq_status = IRQ_HOST_ADAPTER ||| IRQ_RESET_COMPLETE ∧
        dev2.status_len = 1 ∧
        dev2.status_data = [STATUS_LEN 1 ||| ATTN_HOST_ADAPTER] ∧
        dev2.timer = none := by
  have hr : ∀ d : esdi_t, d.in_reset = true →
      esdi_callback env d = Except.ok ({({d with timer := none}) with
        in_reset := false
        status := STATUS_IRQ ||| STATUS_TRANSFER_REQ ||| STATUS_STATUS_OUT_FULL
        status_len := 1
        status_data := [u16 (STATUS_LEN 1 ||| ATTN_HOST_ADAPTER)]
        irq_status := IRQ_HOST_ADAPTER ||| IRQ_RESET_COMPLETE}, [], []) := by
    intro d hd
    simp only [esdi_callback]
    rw [if_pos hd]
  simp only [esdi_write]
  rw [if_pos (show dev.basic_ctrl &&& CTRL_RESET ≠ 0 ∧
    val % 256 &&& CTRL_RESET = 0 from ⟨h1, h2⟩),
    set_callback_pos _ _ (by norm_num [ESDI_TIME])]
  split
  · refine ⟨_, rfl, rfl, rfl, rfl, _,
      hr _ rfl, rfl, rfl, rfl, rfl, ?_, rfl⟩
    show [u16 (STATUS_LEN 1 ||| ATTN_HOST_ADAPTER)] = [STATUS_LEN 1 ||| ATTN_HOST_ADAPTER]
    decide
  · refine ⟨_, rfl, rfl, rfl, rfl, _,
      hr _ rfl, rfl, rfl, rfl, rfl, ?_, rfl⟩
    show [u16 (STATUS_LEN 1 ||| ATTN_HOST_ADAPTER)] = [STATUS_LEN 1 ||| ATTN_HOST_ADAPTER]
    decide

/-- Witness for C8 at the freshly initialised adapter with the reset bit
previously set in the control register. -/
theorem C8_reset_scenario_witness :
    let dev : esdi_t := {esdi_init_state ⟨0, 0, 0, 0, false, 0⟩ ⟨0, 0, 0, 0, false, 0⟩ with
      basic_ctrl := 0x80, in_reset := false}
    ∃ dev1, esdi_write 2 0 dev = Except.ok dev1 ∧
      dev1.in_reset = true ∧ dev1.status = STATUS_BUSY ∧
      dev1.timer = some (ESDI_TIME * 50) ∧
      ∃ dev2, esdi_callback trivEnv dev1 = Except.ok (dev2, [], []) ∧
        dev2.in_reset = false ∧
        dev2.status = STATUS_IRQ ||| STATUS_TRANSFER_REQ ||| STATUS_STATUS_OUT_FULL ∧
        dev2.irq_status = IRQ_HOST_ADAPTER ||| IRQ_RESET_COMPLETE ∧
        dev2.status_len = 1 ∧
        dev2.status_data = [STATUS_LEN 1 ||| ATTN_HOST_ADAPTER] ∧
        dev2.timer = none :=
  C8_reset_scenario _ _ 0 (by decide) (by decide)




/-- Fields of the adapter state that the transfer loops never touch. -/
structure frameEq (a b : esdi_t) : Prop where
  eBasicCtrl : b.basic_ctrl = a.basic_ctrl
  eStatus : b.status = a.status
  eIrqStatus : b.irq_status = a.irq_status
  eIrqEna : b.irq_ena_disable = a.irq_ena_disable
  eIrqProg : b.irq_in_progress = a.irq_in_progress
  eCmdReq : b.cmd_req_in_progress = a.cmd_req_in_progress
  eCmdPos : b.cmd_pos = a.cmd_pos
  eCmdData : b.cmd_data = a.cmd_data
  eCmdDev : b.cmd_dev = a.cmd_dev
  eStatusPos : b.status_pos = a.status_pos
  eStatusLen : b.status_len = a.status_len
  eStatusData : b.status_data = a.status_data
  eSectorCount : b.sector_count = a.sector_count
  eCommand : b.command = a.command
  eCmdState : b.cmd_state = a.cmd_state
  eInReset : b.in_reset = a.in_reset
  eDrives0 : b.drives0 = a.drives0
  eDrives1 : b.drives1 = a.drives1
  ePosRegs : b.pos_regs = a.pos_regs
  eDma : b.dma = a.dma
  eIrqLine : b.irq_line = a.irq_line

theorem frameEq_refl (a : esdi_t) : frameEq a a := by
  constructor <;> rfl

theorem frameEq_set_callback {a d : esdi_t} (c : ℚ) (h : frameEq a d) :
    frameEq a (esdi_mca_set_callback d c) := by
  unfold esdi_mca_set_callback
  split <;>
    exact ⟨h.eBasicCtrl, h.eStatus, h.eIrqStatus, h.eIrqEna, h.eIrqProg, h.eCmdReq,
      h.eCmdPos, h.eCmdData, h.eCmdDev, h.eStatusPos, h.eStatusLen, h.eStatusData,
      h.eSectorCount, h.eCommand, h.eCmdState, h.eInReset, h.eDrives0, h.eDrives1,
      h.ePosRegs, h.eDma, h.eIrqLine⟩

theorem frameEq_trans {a b c : esdi_t} (h1 : frameEq a b) (h2 : frameEq b c) :
    frameEq a c :=
  ⟨h2.eBasicCtrl.trans h1.eBasicCtrl, h2.eStatus.trans h1.eStatus,
   h2.eIrqStatus.trans h1.eIrqStatus, h2.eIrqEna.trans h1.eIrqEna,
   h2.eIrqProg.trans h1.eIrqProg, h2.eCmdReq.trans h1.eCmdReq,
   h2.eCmdPos.trans h1.eCmdPos, h2.eCmdData.trans h1.eCmdData,
   h2.eCmdDev.trans h1.eCmdDev, h2.eStatusPos.trans h1.eStatusPos,
   h2.eStatusLen.trans h1.eStatusLen, h2.eStatusData.trans h1.eStatusData,
   h2.eSectorCount.trans h1.eSectorCount, h2.eCommand.trans h1.eCommand,
   h2.eCmdState.trans h1.eCmdState, h2.eInReset.trans h1.eInReset,
   h2.eDrives0.trans h1.eDrives0, h2.eDrives1.trans h1.eDrives1,
   h2.ePosRegs.trans h1.ePosRegs, h2.eDma.trans h1.eDma,
   h2.eIrqLine.trans h1.eIrqLine⟩

/-- what the transfer loops guarantee about the frame of their result -/
def xframe (dev : esdi_t) : XRes → Prop
  | XRes.suspend d _ _ => frameEq dev d
  | XRes.errored d _ _ => ∃ d0, d = defective_block d0 ∧ frameEq dev d0 ∧ d0.timer = dev.timer
  | XRes.done d _ _ _ => frameEq dev d ∧ d.timer = dev.timer

theorem xframe_compose {dev dev1 : esdi_t} {r : XRes}
    (h1 : frameEq dev dev1) (h1t : dev1.timer = dev.timer) (h2 : xframe dev1 r) :
    xframe dev r := by
  cases r with
  | suspend d ops out => exact frameEq_trans h1 h2
  | errored d ops out =>
    obtain ⟨d0, hd, hf, ht⟩ := h2
    exact ⟨d0, hd, frameEq_trans h1 hf, by rw [ht, h1t]⟩
  | done d t ops out => exact ⟨frameEq_trans h1 h2.1, by rw [h2.2, h1t]⟩

theorem read_xfer_loop_frame (env : Env) (drive : drive_t) :
    ∀ fuel dev cap t ops out r,
      read_xfer_loop env drive fuel dev cap t ops out = Except.ok r → xframe dev r := by
  intro fuel
  induction fuel with
  | zero => intro dev cap t ops out r h; exact absurd h (by simp [read_xfer_loop])
  | succ fuel ih =>
    intro dev cap t ops out r h
    rw [read_xfer_loop] at h
    split at h
    · split at h
      · exact absurd h (by simp)
      · split at h
        · cases h
          exact ⟨dev, rfl, frameEq_refl dev, rfl⟩
        · dsimp only at h
          by_cases hdp : dev.data_pos = 0
          · rw [if_pos hdp] at h
            dsimp only at h
            split at h
            · cases cap with
              | zero =>
                dsimp only at h
                cases h
                exact frameEq_set_callback _ (by constructor <;> rfl)
              | succ cap =>
                dsimp only at h
                refine xframe_compose ?_ ?_ (ih _ _ _ _ _ _ h)
                · constructor <;> rfl
                · rfl
            · refine xframe_compose ?_ ?_ (ih _ _ _ _ _ _ h)
              · constructor <;> rfl
              · rfl
          · rw [if_neg hdp] at h
            dsimp only at h
            split at h
            · cases cap with
              | zero =>
                dsimp only at h
                cases h
                exact frameEq_set_callback _ (by constructor <;> rfl)
              | succ cap =>
                dsimp only at h
                refine xframe_compose ?_ ?_ (ih _ _ _ _ _ _ h)
                · constructor <;> rfl
                · rfl
            · refine xframe_compose ?_ ?_ (ih _ _ _ _ _ _ h)
              · constructor <;> rfl
              · rfl
    · cases h
      exact ⟨frameEq_refl dev, rfl⟩

theorem write_xfer_loop_frame (env : Env) (drive : drive_t) :
    ∀ fuel dev input t ops r,
      write_xfer_loop env drive fuel dev input t ops = Except.ok r → xframe dev r := by
  intro fuel
  induction fuel with
  | zero => intro dev input t ops r h; exact absurd h (by simp [write_xfer_loop])
  | succ fuel ih =>
    intro dev input t ops r h
    rw [write_xfer_loop.eq_def] at h
    dsimp only at h
    split at h
    · split at h
      · cases input with
        | nil =>
          cases h
          exact frameEq_set_callback _ (frameEq_refl dev)
        | cons v input =>
          dsimp only at h
          refine xframe_compose ?_ ?_ (ih _ _ _ _ _ h)
          · constructor <;> rfl
          · rfl
      · split at h
        · exact absurd h (by simp)
        · split at h
          · refine xframe_compose ?_ ?_ (ih _ _ _ _ _ h)
            · constructor <;> rfl
            · rfl
          · cases h
            exact ⟨dev, rfl, frameEq_refl dev, rfl⟩
    · cases h
      exact ⟨frameEq_refl dev, rfl⟩

theorem sbuf_write_loop_frame :
    ∀ fuel dev input r,
      sbuf_write_loop fuel dev input = Except.ok r → xframe dev r := by
  intro fuel
  induction fuel with
  | zero => intro dev input r h; exact absurd h (by simp [sbuf_write_loop])
  | succ fuel ih =>
    intro dev input r h
    rw [sbuf_write_loop.eq_def] at h
    dsimp only at h
    split at h
    · split at h
      · cases input with
        | nil =>
          cases h
          exact frameEq_set_callback _ (frameEq_refl dev)
        | cons v input =>
          dsimp only at h
          refine xframe_compose ?_ ?_ (ih _ _ _ h)
          · constructor <;> rfl
          · rfl
      · refine xframe_compose ?_ ?_ (ih _ _ _ h)
        · constructor <;> rfl
        · rfl
    · cases h
      exact ⟨frameEq_refl dev, rfl⟩

theorem sbuf_read_loop_frame :
    ∀ fuel dev cap out r,
      sbuf_read_loop fuel dev cap out = Except.ok r → xframe dev r := by
  intro fuel
  induction fuel with
  | zero => intro dev cap out r h; exact absurd h (by simp [sbuf_read_loop])
  | succ fuel ih =>
    intro dev cap out r h
    rw [sbuf_read_loop] at h
    split at h
    · by_cases hdp : dev.data_pos = 0
      · rw [if_pos hdp] at h
        dsimp only at h
        split at h
        · cases cap with
          | zero =>
            dsimp only at h
            cases h
            exact frameEq_set_callback _ (by constructor <;> rfl)
          | succ cap =>
            dsimp only at h
            refine xframe_compose ?_ ?_ (ih _ _ _ _ h)
            · constructor <;> rfl
            · rfl
        · refine xframe_compose ?_ ?_ (ih _ _ _ _ h)
          · constructor <;> rfl
          · rfl
      · rw [if_neg hdp] at h
        dsimp only at h
        split at h
        · cases cap with
          | zero =>
            dsimp only at h
            cases h
            exact frameEq_set_callback _ (by constructor <;> rfl)
          | succ cap =>
            dsimp only at h
            refine xframe_compose ?_ ?_ (ih _ _ _ _ h)
            · constructor <;> rfl
            · rfl
        · refine xframe_compose ?_ ?_ (ih _ _ _ _ h)
          · constructor <;> rfl
          · rfl
    · cases h
      exact ⟨frameEq_refl dev, rfl⟩



@[simp] theorem set_irq_irq_status (d : esdi_t) : (set_irq d).irq_status = d.irq_status := by
  unfold set_irq; dsimp only; split <;> rfl

@[simp] theorem set_irq_status (d : esdi_t) : (set_irq d).status = d.status := by
  unfold set_irq; dsimp only; split <;> rfl

@[simp] theorem set_irq_irq_in_progress (d : esdi_t) :
    (set_irq d).irq_in_progress = d.irq_in_progress := by
  unfold set_irq; dsimp only; split <;> rfl

@[simp] theorem set_irq_irq_ena (d : esdi_t) : (set_irq d).irq_ena_disable = true := by
  unfold set_irq; dsimp only; split <;> rfl

@[simp] theorem set_irq_timer (d : esdi_t) : (set_irq d).timer = d.timer := by
  unfold set_irq; dsimp only; split <;> rfl

@[simp] theorem set_irq_status_len (d : esdi_t) : (set_irq d).status_len = d.status_len := by
  unfold set_irq; dsimp only; split <;> rfl

@[simp] theorem set_irq_status_data (d : esdi_t) : (set_irq d).status_data = d.status_data := by
  unfold set_irq; dsimp only; split <;> rfl

@[simp] theorem set_irq_cmd_dev (d : esdi_t) : (set_irq d).cmd_dev = d.cmd_dev := by
  unfold set_irq; dsimp only; split <;> rfl

@[simp] theorem set_irq_rba (d : esdi_t) : (set_irq d).rba = d.rba := by
  unfold set_irq; dsimp only; split <;> rfl

@[simp] theorem set_irq_cmd_state (d : esdi_t) : (set_irq d).cmd_state = d.cmd_state := by
  unfold set_irq; dsimp only; split <;> rfl

@[simp] theorem set_cb_irq_status (d : esdi_t) (c : ℚ) :
    (esdi_mca_set_callback d c).irq_status = d.irq_status := by
  unfold esdi_mca_set_callback; split <;> rfl

@[simp] theorem set_cb_status (d : esdi_t) (c : ℚ) :
    (esdi_mca_set_callback d c).status = d.status := by
  unfold esdi_mca_set_callback; split <;> rfl

@[simp] theorem set_cb_irq_in_progress (d : esdi_t) (c : ℚ) :
    (esdi_mca_set_callback d c).irq_in_progress = d.irq_in_progress := by
  unfold esdi_mca_set_callback; split <;> rfl

@[simp] theorem set_cb_irq_ena (d : esdi_t) (c : ℚ) :
    (esdi_mca_set_callback d c).irq_ena_disable = d.irq_ena_disable := by
  unfold esdi_mca_set_callback; split <;> rfl

@[simp] theorem set_cb_status_len (d : esdi_t) (c : ℚ) :
    (esdi_mca_set_callback d c).status_len = d.status_len := by
  unfold esdi_mca_set_callback; split <;> rfl

@[simp] theorem set_cb_status_data (d : esdi_t) (c : ℚ) :
    (esdi_mca_set_callback d c).status_data = d.status_data := by
  unfold esdi_mca_set_callback; split <;> rfl

@[simp] theorem set_cb_cmd_dev (d : esdi_t) (c : ℚ) :
    (esdi_mca_set_callback d c).cmd_dev = d.cmd_dev := by
  unfold esdi_mca_set_callback; split <;> rfl

@[simp] theorem set_cb_rba (d : esdi_t) (c : ℚ) :
    (esdi_mca_set_callback d c).rba = d.rba := by
  unfold esdi_mca_set_callback; split <;> rfl

@[simp] theorem set_cb_cmd_state (d : esdi_t) (c : ℚ) :
    (esdi_mca_set_callback d c).cmd_state = d.cmd_state := by
  unfold esdi_mca_set_callback; split <;> rfl

theorem set_cb_timer_pos (d : esdi_t) (c : ℚ) (h : c ≠ 0) :
    (esdi_mca_set_callback d c).timer = some c := by
  unfold esdi_mca_set_callback
  rw [if_neg h]

@[simp] theorem ccs_cmd_dev (d : esdi_t) :
    (complete_command_status d).cmd_dev = d.cmd_dev := rfl

@[simp] theorem ccs_irq_status (d : esdi_t) :
    (complete_command_status d).irq_status = d.irq_status := rfl

@[simp] theorem ccs_timer (d : esdi_t) :
    (complete_command_status d).timer = d.timer := rfl

/-- What every guest-visible error path leaves behind, relative to the state
`dev` the executor was entered in: a latched command-complete-failure
interrupt for the selected device, the interrupt raised, status IRQ +
status-output-full, a 9-word status block whose words 1/2 are one of the
four fixed error-class/error-detail pairs, and no further callback
scheduled (the command is over). -/
def errConc (dev x : esdi_t) : Prop :=
  x.timer = none ∧
  x.status = STATUS_IRQ ||| STATUS_STATUS_OUT_FULL ∧
  x.irq_status = dev.cmd_dev ||| IRQ_CMD_COMPLETE_FAILURE ∧
  x.irq_in_progress = true ∧
  x.irq_ena_disable = true ∧
  x.status_len = 9 ∧
  ((x.status_data.getD 1 0, x.status_data.getD 2 0) = ((0x0f03 : Nat), (0x0002 : Nat)) ∨
   (x.status_data.getD 1 0, x.status_data.getD 2 0) = ((0x0c11 : Nat), (0x000b : Nat)) ∨
   (x.status_data.getD 1 0, x.status_data.getD 2 0) = ((0x0e01 : Nat), (0x0007 : Nat)) ∨
   (x.status_data.getD 1 0, x.status_data.getD 2 0) = ((0x0e01 : Nat), (0x0009 : Nat)))

theorem errConc_cmd_unsupported {dev d : esdi_t} (hdev : d.cmd_dev = dev.cmd_dev)
    (ht : d.timer = none) : errConc dev (cmd_unsupported d) := by
  unfold errConc cmd_unsupported
  simp [hdev, ht]

theorem errConc_device_not_present {dev d : esdi_t} (hdev : d.cmd_dev = dev.cmd_dev)
    (ht : d.timer = none) : errConc dev (device_not_present d) := by
  unfold errConc device_not_present
  simp [hdev, ht]

theorem errConc_rba_out_of_range {dev d : esdi_t} (hdev : d.cmd_dev = dev.cmd_dev)
    (ht : d.timer = none) : errConc dev (rba_out_of_range d) := by
  unfold errConc rba_out_of_range
  simp [hdev, ht]

theorem errConc_defective_block {dev d : esdi_t} (hdev : d.cmd_dev = dev.cmd_dev)
    (ht : d.timer = none) : errConc dev (defective_block d) := by
  unfold errConc defective_block
  simp [hdev, ht]

/-- The opcodes whose dispatch begins with `ESDI_DRIVE_ONLY`
(`CMD_GET_DEV_CONFIG` reaches the same test only for a non-host-adapter
target and is handled separately). -/
def driveOnlyCmds : List Nat :=
  [0x01, 0x15, 0x02, 0x04, 0x03, 0x05, 0x06, 0x08, 0x16, 0x17]

/-- The opcodes whose dispatch begins with `ESDI_ADAPTER_ONLY`. -/
def adapterOnlyCmds : List Nat := [0x0a, 0x10, 0x11, 0x12]

theorem selDrive_timer_clear (d : esdi_t) :
    selDrive {d with timer := none} = selDrive d := rfl

theorem loopFuel_timer_clear (d : esdi_t) :
    loopFuel {d with timer := none} = loopFuel d := rfl

/-- `ESDI_DRIVE_ONLY` failing on a drive-only opcode: the invocation does
nothing but `cmd_unsupported`. -/
theorem cb_drive_only_unsupported (env : Env) (dev : esdi_t)
    (hin : dev.in_reset = false) (hc : dev.command ∈ driveOnlyCmds)
    (hdf : driveOnlyFails dev) :
    esdi_callback env dev =
      Except.ok (cmd_unsupported {dev with timer := none}, [], []) := by
  simp only [driveOnlyCmds, List.mem_cons, List.not_mem_nil, or_false] at hc
  rcases hc with hc | hc | hc | hc | hc | hc | hc | hc | hc | hc <;>
    (simp only [esdi_callback]
     rw [if_neg (by simp [hin]), hc]
     norm_num
     first
     | rw [if_pos (show driveOnlyFails _ by exact hdf)]
     | exact fun h => absurd hdf h)

/-- `ESDI_DRIVE_ONLY` failing inside `CMD_GET_DEV_CONFIG`'s non-adapter
branch. -/
theorem cb_cfg_unsupported (env : Env) (dev : esdi_t)
    (hin : dev.in_reset = false) (hc : dev.command = CMD_GET_DEV_CONFIG)
    (hna : dev.cmd_dev ≠ ATTN_HOST_ADAPTER) (hdf : driveOnlyFails dev) :
    esdi_callback env dev =
      Except.ok (cmd_unsupported {dev with timer := none}, [], []) := by
  simp only [esdi_callback]
  rw [if_neg (by simp [hin]), hc]
  norm_num [CMD_GET_DEV_CONFIG]
  rw [if_neg (by simpa using hna), if_pos (show driveOnlyFails _ by exact hdf)]

/-- `ESDI_ADAPTER_ONLY` failing on an adapter-only opcode. -/
theorem cb_adapter_only_unsupported (env : Env) (dev : esdi_t)
    (hin : dev.in_reset = false) (hc : dev.command ∈ adapterOnlyCmds)
    (hna : dev.cmd_dev ≠ ATTN_HOST_ADAPTER) :
    esdi_callback env dev =
      Except.ok (cmd_unsupported {dev with timer := none}, [], []) := by
  simp only [adapterOnlyCmds, List.mem_cons, List.not_mem_nil, or_false] at hc
  rcases hc with hc | hc | hc | hc <;>
    (simp only [esdi_callback]
     rw [if_neg (by simp [hin]), hc]
     norm_num
     first
     | rw [if_pos (by simpa using hna)]
     | exact fun h => absurd h hna
     | exact fun h => absurd hna h)

/-- The `!drive->present` test of every drive command: the invocation does
nothing but `device_not_present`. -/
theorem cb_device_not_present (env : Env) (dev : esdi_t)
    (hin : dev.in_reset = false)
    (hc : dev.command ∈ driveOnlyCmds ∨ dev.command = CMD_GET_DEV_CONFIG)
    (hdev : dev.cmd_dev = ATTN_DEVICE_0 ∨ dev.cmd_dev = ATTN_DEVICE_1)
    (hp : (selDrive dev).present = false) :
    esdi_callback env dev =
      Except.ok (device_not_present {dev with timer := none}, [], []) := by
  simp only [driveOnlyCmds, List.mem_cons, List.not_mem_nil, or_false,
    CMD_GET_DEV_CONFIG] at hc
  rcases hc with hc | hc
  · rcases hdev with hd | hd <;>
      simp [selDrive, hd, ATTN_DEVICE_0, ATTN_DEVICE_1] at hp <;>
      rcases hc with hc | hc | hc | hc | hc | hc | hc | hc | hc | hc <;>
      (simp only [esdi_callback]
       rw [if_neg (by simp [hin]), hc]
       norm_num
       rw [if_neg (by simp [driveOnlyFails, hd, ATTN_DEVICE_0, ATTN_DEVICE_1]),
         if_pos (by simp [selDrive, hd, ATTN_DEVICE_0, ATTN_DEVICE_1, hp])])
  · rcases hdev with hd | hd <;>
      simp [selDrive, hd, ATTN_DEVICE_0, ATTN_DEVICE_1] at hp <;>
      (simp only [esdi_callback]
       rw [if_neg (by simp [hin]), hc]
       norm_num
       rw [if_neg (by simp [hd, ATTN_DEVICE_0, ATTN_DEVICE_1, ATTN_HOST_ADAPTER]),
         if_neg (by simp [driveOnlyFails, hd, ATTN_DEVICE_0, ATTN_DEVICE_1]),
         if_pos (by simp [selDrive, hd, ATTN_DEVICE_0, ATTN_DEVICE_1, hp])])

/-- The out-of-range check of the four transfer setups (including the
`0x15` variant that reuses the stale `rba`): the invocation decodes the
cursors and does nothing further but `rba_out_of_range`. -/
theorem cb_setup_out_of_range (env : Env) (dev : esdi_t)
    (hin : dev.in_reset = false)
    (hc : dev.command ∈ ([0x01, 0x15, 0x02, 0x04, 0x03] : List Nat))
    (hs : dev.cmd_state = 0)
    (hdev : dev.cmd_dev = ATTN_DEVICE_0 ∨ dev.cmd_dev = ATTN_DEVICE_1)
    (hp : (selDrive dev).present = true)
    (hoor : (if dev.command = 0x15 then dev.rba
        else (dev.cmd_data.getD 2 0 ||| (dev.cmd_data.getD 3 0 <<< 16)) &&& 0x0fffffff)
        + dev.cmd_data.getD 1 0 > env.last_sector (selDrive dev).hdd_num) :
    ∃ d, esdi_callback env dev = Except.ok (rba_out_of_range d, [], []) ∧
      d.rba = (if dev.command = 0x15 then dev.rba
        else (dev.cmd_data.getD 2 0 ||| (dev.cmd_data.getD 3 0 <<< 16)) &&& 0x0fffffff) ∧
      d.sector_count = dev.cmd_data.getD 1 0 ∧
      errConc dev (rba_out_of_range d) := by
  simp only [List.mem_cons, List.not_mem_nil, or_false] at hc
  rcases hc with hc | hc | hc | hc | hc <;> rcases hdev with hd | hd <;>
    (rw [hc] at hoor
     norm_num at hoor
     simp [selDrive, hd, ATTN_DEVICE_0, ATTN_DEVICE_1] at hp
     simp only [esdi_callback]
     rw [if_neg (by simp [hin]), hc]
     norm_num [CMD_READ]
     rw [if_neg (by simp [driveOnlyFails, hd, ATTN_DEVICE_0, ATTN_DEVICE_1]),
       if_neg (by simp [selDrive, hd, ATTN_DEVICE_0, ATTN_DEVICE_1, hp]), hs]
     norm_num
     rw [if_pos (by simp [selDrive, hd, ATTN_DEVICE_0, ATTN_DEVICE_1] at hoor ⊢; omega)]
     exact ⟨_, rfl, by simp, by simp, errConc_rba_out_of_range rfl rfl⟩)

/-- The seek command's pre-switch out-of-range check, at any phase: the
invocation does nothing but `rba_out_of_range` on the stale cursors. -/
theorem cb_seek_out_of_range (env : Env) (dev : esdi_t)
    (hin : dev.in_reset = false) (hc : dev.command = CMD_SEEK)
    (hdev : dev.cmd_dev = ATTN_DEVICE_0 ∨ dev.cmd_dev = ATTN_DEVICE_1)
    (hp : (selDrive dev).present = true)
    (hoor : dev.rba + dev.sector_count > env.last_sector (selDrive dev).hdd_num) :
    esdi_callback env dev =
      Except.ok (rba_out_of_range {dev with timer := none}, [], []) := by
  rcases hdev with hd | hd <;>
    (simp [selDrive, hd, ATTN_DEVICE_0, ATTN_DEVICE_1] at hp hoor
     simp only [esdi_callback]
     rw [if_neg (by simp [hin]), hc]
     norm_num [CMD_SEEK]
     rw [if_neg (by simp [driveOnlyFails, hd, ATTN_DEVICE_0, ATTN_DEVICE_1]),
       if_neg (by simp [selDrive, hd, ATTN_DEVICE_0, ATTN_DEVICE_1, hp]),
       if_pos (by simp [selDrive, hd, ATTN_DEVICE_0, ATTN_DEVICE_1]; omega)])

/-- The read loop's image-failure site, at any loop state reaching a sector
start whose image read fails: the loop stops with exactly
`defective_block`. -/
theorem read_xfer_loop_defective (env : Env) (drive : drive_t) (fuel : Nat)
    (dev : esdi_t) (cap : Nat) (ct : ℚ) (ops : List ImgOp) (out : List Nat)
    (hf : fuel ≠ 0) (hsp : dev.sector_pos < dev.sector_count)
    (hdp : dev.data_pos = 0) (hrb : dev.rba < drive.sectors)
    (hir : env.img_read drive.hdd_num dev.rba = none) :
    read_xfer_loop env drive fuel dev cap ct ops out =
      Except.ok (XRes.errored (defective_block dev)
        (ops ++ [ImgOp.rd drive.hdd_num dev.rba]) out) := by
  cases fuel with
  | zero => exact absurd rfl hf
  | succ fuel =>
    rw [read_xfer_loop]
    rw [if_pos hsp, if_neg (by rintro ⟨-, h⟩; omega), if_pos ⟨hdp, hir⟩]

/-- The write loop's image-failure site, at any loop state committing a
filled staging buffer whose image write fails: the loop stops with exactly
`defective_block`. -/
theorem write_xfer_loop_defective (env : Env) (drive : drive_t) (fuel : Nat)
    (dev : esdi_t) (input : List Nat) (ct : ℚ) (ops : List ImgOp)
    (hf : fuel ≠ 0) (hsp : dev.sector_pos < dev.sector_count)
    (hdp : ¬ dev.data_pos < 256) (hrb : dev.rba < drive.sectors)
    (hwr : env.img_write_ok drive.hdd_num dev.rba = false) :
    write_xfer_loop env drive fuel dev input ct ops =
      Except.ok (XRes.errored (defective_block dev)
        (ops ++ [ImgOp.wr drive.hdd_num dev.rba dev.data]) []) := by
  cases fuel with
  | zero => exact absurd rfl hf
  | succ fuel =>
    rw [write_xfer_loop.eq_def]
    dsimp only
    rw [if_pos hsp, if_neg hdp, if_neg (show ¬ dev.rba ≥ drive.sectors by omega),
      if_neg (by simp [hwr])]

/-- A read transfer phase whose loop stops on `defective_block` surfaces
that stop unchanged as the whole invocation's result. -/
theorem cb_read_errored (env : Env) (dev e : esdi_t) (ops : List ImgOp)
    (out : List Nat)
    (hin : dev.in_reset = false)
    (hc : dev.command = CMD_READ ∨ dev.command = 0x15)
    (hs : dev.cmd_state = 1)
    (hdev : dev.cmd_dev = ATTN_DEVICE_0 ∨ dev.cmd_dev = ATTN_DEVICE_1)
    (hp : (selDrive dev).present = true)
    (hdma : ¬ dev.basic_ctrl &&& CTRL_DMA_ENA = 0)
    (hl : read_xfer_loop env (selDrive dev) (loopFuel dev) {dev with timer := none}
        env.dma_cap 0 [] [] = Except.ok (XRes.errored e ops out)) :
    esdi_callback env dev = Except.ok (e, ops, out) := by
  obtain ⟨dma, bc, st, is0, ie, ip, cr, cp, cd, cdev, sp0, sl, sd, dp, da, sb,
    spos, sc, cmd, cs, ir, rb, d0, d1, pr, il, tm⟩ := dev
  simp only [CMD_READ] at hc
  simp only [ATTN_DEVICE_0, ATTN_DEVICE_1] at hdev
  rcases hc with hc | hc <;> rcases hdev with hd | hd <;>
    (subst hc; subst hd; subst hs; subst hin
     simp [selDrive, ATTN_DEVICE_0, ATTN_DEVICE_1] at hp
     simp only [esdi_callback]
     rw [if_neg (by simp)]
     norm_num
     rw [if_neg (by simp [driveOnlyFails, ATTN_DEVICE_0, ATTN_DEVICE_1]),
       if_neg (by simp [selDrive, ATTN_DEVICE_0, ATTN_DEVICE_1, hp])]
     try norm_num
     rw [if_neg hdma]
     simp only [selDrive, loopFuel] at hl ⊢
     rw [hl]
     rfl)

/-- A write transfer phase whose loop stops on `defective_block` surfaces
that stop unchanged as the whole invocation's result. -/
theorem cb_write_errored (env : Env) (dev e : esdi_t) (ops : List ImgOp)
    (out : List Nat)
    (hin : dev.in_reset = false)
    (hc : dev.command = CMD_WRITE ∨ dev.command = CMD_WRITE_VERIFY)
    (hs : dev.cmd_state = 1)
    (hdev : dev.cmd_dev = ATTN_DEVICE_0 ∨ dev.cmd_dev = ATTN_DEVICE_1)
    (hp : (selDrive dev).present = true)
    (hdma : ¬ dev.basic_ctrl &&& CTRL_DMA_ENA = 0)
    (hl : write_xfer_loop env (selDrive dev) (loopFuel dev) {dev with timer := none}
        env.dma_data 0 [] = Except.ok (XRes.errored e ops out)) :
    esdi_callback env dev = Except.ok (e, ops, out) := by
  obtain ⟨dma, bc, st, is0, ie, ip, cr, cp, cd, cdev, sp0, sl, sd, dp, da, sb,
    spos, sc, cmd, cs, ir, rb, d0, d1, pr, il, tm⟩ := dev
  simp only [CMD_WRITE, CMD_WRITE_VERIFY] at hc
  simp only [ATTN_DEVICE_0, ATTN_DEVICE_1] at hdev
  rcases hc with hc | hc <;> rcases hdev with hd | hd <;>
    (subst hc; subst hd; subst hs; subst hin
     simp [selDrive, ATTN_DEVICE_0, ATTN_DEVICE_1] at hp
     simp only [esdi_callback]
     rw [if_neg (by simp)]
     norm_num
     rw [if_neg (by simp [driveOnlyFails, ATTN_DEVICE_0, ATTN_DEVICE_1]),
       if_neg (by simp [selDrive, ATTN_DEVICE_0, ATTN_DEVICE_1, hp])]
     try norm_num
     rw [if_neg hdma]
     simp only [selDrive, loopFuel] at hl ⊢
     rw [hl]
     rfl)

/-! ## C5: the four guest-visible errors -/

/-- Claim C5: each of the four guest-visible errors writes its own fixed
error-class/error-detail word pair (distinct pairs per error) into the
status queue, and at every one of their detection sites — the
`ESDI_DRIVE_ONLY` / `ESDI_ADAPTER_ONLY` target tests of every dispatching
command, the `!drive->present` test of every drive command, the setup-phase
and seek out-of-range checks, and the image-failure sites inside the two
transfer loops together with their surfacing through `esdi_callback` — the
invocation terminates at that very phase with exactly the corresponding
helper's state: status IRQ | status-output-full, a 9-word status block
carrying the error pair, the command-complete-failure code latched for the
selected device, the interrupt raised, and no further callback scheduled
(`errConc`); this holds for every pre-state satisfying the site's guard. -/
theorem C5_error_reporting :
    (∀ d : esdi_t,
      ((cmd_unsupported d).status_data.getD 1 0,
        (cmd_unsupported d).status_data.getD 2 0) = ((0x0f03 : Nat), (0x0002 : Nat)) ∧
      ((device_not_present d).status_data.getD 1 0,
        (device_not_present d).status_data.getD 2 0) = ((0x0c11 : Nat), (0x000b : Nat)) ∧
      ((rba_out_of_range d).status_data.getD 1 0,
        (rba_out_of_range d).status_data.getD 2 0) = ((0x0e01 : Nat), (0x0007 : Nat)) ∧
      ((defective_block d).status_data.getD 1 0,
        (defective_block d).status_data.getD 2 0) = ((0x0e01 : Nat), (0x0009 : Nat))) ∧
    [((0x0f03 : Nat), (0x0002 : Nat)), (0x0c11, 0x000b), (0x0e01, 0x0007),
      (0x0e01, 0x0009)].Pairwise (· ≠ ·) ∧
    (∀ (env : Env) (dev : esdi_t),
      dev.in_reset = false →
      (dev.command ∈ driveOnlyCmds ∧ driveOnlyFails dev) ∨
        (dev.command = CMD_GET_DEV_CONFIG ∧ dev.cmd_dev ≠ ATTN_HOST_ADAPTER ∧
          driveOnlyFails dev) ∨
        (dev.command ∈ adapterOnlyCmds ∧ dev.cmd_dev ≠ ATTN_HOST_ADAPTER) →
      esdi_callback env dev =
        Except.ok (cmd_unsupported {dev with timer := none}, [], []) ∧
      errConc dev (cmd_unsupported {dev with timer := none})) ∧
    (∀ (env : Env) (dev : esdi_t),
      dev.in_reset = false →
      dev.command ∈ driveOnlyCmds ∨ dev.command = CMD_GET_DEV_CONFIG →
      dev.cmd_dev = ATTN_DEVICE_0 ∨ dev.cmd_dev = ATTN_DEVICE_1 →
      (selDrive dev).present = false →
      esdi_callback env dev =
        Except.ok (device_not_present {dev with timer := none}, [], []) ∧
      errConc dev (device_not_present {dev with timer := none})) ∧
    (∀ (env : Env) (dev : esdi_t),
      dev.in_reset = false →
      dev.command ∈ ([0x01, 0x15, 0x02, 0x04, 0x03] : List Nat) →
      dev.cmd_state = 0 →
      dev.cmd_dev = ATTN_DEVICE_0 ∨ dev.cmd_dev = ATTN_DEVICE_1 →
      (selDrive dev).present = true →
      (if dev.command = 0x15 then dev.rba
        else (dev.cmd_data.getD 2 0 ||| (dev.cmd_data.getD 3 0 <<< 16)) &&& 0x0fffffff)
        + dev.cmd_data.getD 1 0 > env.last_sector (selDrive dev).hdd_num →
      ∃ d, esdi_callback env dev = Except.ok (rba_out_of_range d, [], []) ∧
        d.rba = (if dev.command = 0x15 then dev.rba
          else (dev.cmd_data.getD 2 0 ||| (dev.cmd_data.getD 3 0 <<< 16)) &&& 0x0fffffff) ∧
        d.sector_count = dev.cmd_data.getD 1 0 ∧
        errConc dev (rba_out_of_range d)) ∧
    (∀ (env : Env) (dev : esdi_t),
      dev.in_reset = false →
      dev.command = CMD_SEEK →
      dev.cmd_dev = ATTN_DEVICE_0 ∨ dev.cmd_dev = ATTN_DEVICE_1 →
      (selDrive dev).present = true →
      dev.rba + dev.sector_count > env.last_sector (selDrive dev).hdd_num →
      esdi_callback env dev =
        Except.ok (rba_out_of_range {dev with timer := none}, [], []) ∧
      errConc dev (rba_out_of_range {dev with timer := none})) ∧
    (∀ (env : Env) (drive : drive_t) (fuel : Nat) (dev : esdi_t) (cap : Nat)
        (ct : ℚ) (ops : List ImgOp) (out : List Nat),
      fuel ≠ 0 → dev.sector_pos < dev.sector_count → dev.data_pos = 0 →
      dev.rba < drive.sectors → env.img_read drive.hdd_num dev.rba = none →
      read_xfer_loop env drive fuel dev cap ct ops out =
        Except.ok (XRes.errored (defective_block dev)
          (ops ++ [ImgOp.rd drive.hdd_num dev.rba]) out) ∧
      (dev.timer = none → errConc dev (defective_block dev))) ∧
    (∀ (env : Env) (dev e : esdi_t) (ops : List ImgOp) (out : List Nat),
      dev.in_reset = false →
      dev.command = CMD_READ ∨ dev.command = 0x15 →
      dev.cmd_state = 1 →
      dev.cmd_dev = ATTN_DEVICE_0 ∨ dev.cmd_dev = ATTN_DEVICE_1 →
      (selDrive dev).present = true →
      ¬ dev.basic_ctrl &&& CTRL_DMA_ENA = 0 →
      read_xfer_loop env (selDrive dev) (loopFuel dev) {dev with timer := none}
        env.dma_cap 0 [] [] = Except.ok (XRes.errored e ops out) →
      esdi_callback env dev = Except.ok (e, ops, out)) ∧
    (∀ (env : Env) (drive : drive_t) (fuel : Nat) (dev : esdi_t)
        (input : List Nat) (ct : ℚ) (ops : List ImgOp),
      fuel ≠ 0 → dev.sector_pos < dev.sector_count → ¬ dev.data_pos < 256 →
      dev.rba < drive.sectors → env.img_write_ok drive.hdd_num dev.rba = false →
      write_xfer_loop env drive fuel dev input ct ops =
        Except.ok (XRes.errored (defective_block dev)
          (ops ++ [ImgOp.wr drive.hdd_num dev.rba dev.data]) []) ∧
      (dev.timer = none → errConc dev (defective_block dev))) ∧
    (∀ (env : Env) (dev e : esdi_t) (ops : List ImgOp) (out : List Nat),
      dev.in_reset = false →
      dev.command = CMD_WRITE ∨ dev.command = CMD_WRITE_VERIFY →
      dev.cmd_state = 1 →
      dev.cmd_dev = ATTN_DEVICE_0 ∨ dev.cmd_dev = ATTN_DEVICE_1 →
      (selDrive dev).present = true →
      ¬ dev.basic_ctrl &&& CTRL_DMA_ENA = 0 →
      write_xfer_loop env (selDrive dev) (loopFuel dev) {dev with timer := none}
        env.dma_data 0 [] = Except.ok (XRes.errored e ops out) →
      esdi_callback env dev = Except.ok (e, ops, out)) := by
  refine ⟨?_, by decide, ?_, ?_, ?_, ?_, ?_, ?_, ?_, ?_⟩
  · intro d
    refine ⟨?_, ?_, ?_, ?_⟩ <;>
      simp [cmd_unsupported, device_not_present, rba_out_of_range, defective_block]
  · rintro env dev hin (⟨hc, hdf⟩ | ⟨hc, hna, hdf⟩ | ⟨hc, hna⟩)
    · exact ⟨cb_drive_only_unsupported env dev hin hc hdf,
        errConc_cmd_unsupported rfl rfl⟩
    · exact ⟨cb_cfg_unsupported env dev hin hc hna hdf,
        errConc_cmd_unsupported rfl rfl⟩
    · exact ⟨cb_adapter_only_unsupported env dev hin hc hna,
        errConc_cmd_unsupported rfl rfl⟩
  · intro env dev hin hc hdev hp
    exact ⟨cb_device_not_present env dev hin hc hdev hp,
      errConc_device_not_present rfl rfl⟩
  · intro env dev hin hc hs hdev hp hoor
    exact cb_setup_out_of_range env dev hin hc hs hdev hp hoor
  · intro env dev hin hc hdev hp hoor
    exact ⟨cb_seek_out_of_range env dev hin hc hdev hp hoor,
      errConc_rba_out_of_range rfl rfl⟩
  · intro env drive fuel dev cap ct ops out hf hsp hdp hrb hir
    exact ⟨read_xfer_loop_defective env drive fuel dev cap ct ops out hf hsp hdp hrb hir,
      fun ht => errConc_defective_block rfl ht⟩
  · intro env dev e ops out hin hc hs hdev hp hdma hl
    exact cb_read_errored env dev e ops out hin hc hs hdev hp hdma hl
  · intro env drive fuel dev input ct ops hf hsp hdp hrb hwr
    exact ⟨write_xfer_loop_defective env drive fuel dev input ct ops hf hsp hdp hrb hwr,
      fun ht => errConc_defective_block rfl ht⟩
  · intro env dev e ops out hin hc hs hdev hp hdma hl
    exact cb_write_errored env dev e ops out hin hc hs hdev hp hdma hl

/-- concrete state for the C5 witness: a read command targeting an absent
drive 0 -/
def c5dev : esdi_t := {esdi_init_state ⟨0, 0, 0, 0, false, 0⟩ ⟨0, 0, 0, 0, false, 0⟩ with
  in_reset := false, command := 1, cmd_dev := 0, cmd_state := 0, irq_status := 0}

/-- Witness for C5: the device-not-present error at a concrete callback. -/
theorem C5_error_reporting_witness :
    esdi_callback trivEnv c5dev =
      Except.ok (device_not_present {c5dev with timer := none}, [], []) ∧
    errConc c5dev (device_not_present {c5dev with timer := none}) :=
  C5_error_reporting.2.2.2.1 trivEnv c5dev (by decide) (Or.inl (by decide))
    (Or.inl (by decide)) (by decide)

/-! ## C6: the IRQ-pending status bit

A concrete reachable trace refutes the claimed invariant: reset-complete,
EOI, drain the one-word status queue, host-adapter command request, send
`GET_POS_INFO` (`0xea`, `0x0000`), let the executor fill the status queue
and latch command-complete-success (bit set, `irq_in_progress` set), then
read the interrupt-status register (port 3): the read clears the
IRQ-pending status bit while the latched interrupt value is still
unacknowledged (`irq_in_progress` still set, no EOI was issued since the
latch). -/

def c6nodrive : drive_t := ⟨0, 0, 0, 0, false, 0⟩

def c6st0 : esdi_t := esdi_init_state c6nodrive c6nodrive

def c6st1 : esdi_t :=
  match esdi_callback trivEnv c6st0 with
  | Except.ok (s, _, _) => s
  | Except.error _ => c6st0

def c6st2 : esdi_t :=
  match esdi_write 3 0xe2 c6st1 with
  | Except.ok s => s
  | Except.error _ => c6st1

def c6st3 : esdi_t :=
  match esdi_readw 0 c6st2 with
  | Except.ok (s, _) => s
  | Except.error _ => c6st2

def c6st4 : esdi_t :=
  match esdi_write 3 0xe1 c6st3 with
  | Except.ok s => s
  | Except.error _ => c6st3

def c6st5 : esdi_t :=
  match esdi_writew 0 0xea c6st4 with
  | Except.ok s => s
  | Except.error _ => c6st4

def c6st6 : esdi_t :=
  match esdi_writew 0 0 c6st5 with
  | Except.ok s => s
  | Except.error _ => c6st5

def c6st7 : esdi_t :=
  match esdi_callback trivEnv c6st6 with
  | Except.ok (s, _, _) => s
  | Except.error _ => c6st6

def c6st8 : esdi_t := (esdi_read 3 c6st7).1

/-- Claim C6 is false on the code: the invariant "the IRQ-pending status
bit is set iff an unacknowledged interrupt status value is latched" does
not hold in every reachable state — after the trace above, the latched
command-complete-success interrupt is still unacknowledged
(`irq_in_progress` is set, no EOI was issued since the latch), yet the
IRQ-pending status bit is clear, because the port-3 read clears the bit as
a read-clears-flag. -/
theorem C6_irq_pending_cex :
    ¬ (∀ st : esdi_t, Reachable st →
        ((st.status &&& STATUS_IRQ ≠ 0) ↔ st.irq_in_progress = true)) := by
  intro hinv
  have h0 : Reachable c6st0 := Reachable.init c6nodrive c6nodrive
  have e1 : esdi_callback trivEnv c6st0 = Except.ok (c6st1, [], []) := rfl
  have h1 : Reachable c6st1 := Reachable.cb trivEnv h0 e1
  have e2 : esdi_write 3 0xe2 c6st1 = Except.ok c6st2 := rfl
  have h2 : Reachable c6st2 := Reachable.wr 3 0xe2 h1 e2
  have e3 : esdi_readw 0 c6st2 = Except.ok (c6st3, 0x1e0) := rfl
  have h3 : Reachable c6st3 := Reachable.rdw 0 h2 e3
  have e4 : esdi_write 3 0xe1 c6st3 = Except.ok c6st4 := rfl
  have h4 : Reachable c6st4 := Reachable.wr 3 0xe1 h3 e4
  have e5 : esdi_writew 0 0xea c6st4 = Except.ok c6st5 := rfl
  have h5 : Reachable c6st5 := Reachable.wrw 0 0xea h4 e5
  have e6 : esdi_writew 0 0 c6st5 = Except.ok c6st6 := rfl
  have h6 : Reachable c6st6 := Reachable.wrw 0 0 h5 e6
  have e7 : esdi_callback trivEnv c6st6 = Except.ok (c6st7, [], []) := rfl
  have h7 : Reachable c6st7 := Reachable.cb trivEnv h6 e7
  have e8 : esdi_read 3 c6st7 = (c6st8, 0xe1) := rfl
  have h8 : Reachable c6st8 := Reachable.rd 3 h7 e8
  have hb := (hinv c6st8 h8).mpr rfl
  exact hb rfl

/-- Claim C6 (amended): the interrupt-latching error paths set both the
IRQ-pending status bit and the unacknowledged-interrupt flag, and an
end-of-interrupt attention clears both; but reading the interrupt-status
register (port 3) clears the IRQ-pending status bit while leaving the
latched interrupt value and the unacknowledged-interrupt flag intact, so
the bit is not equivalent to "an unacknowledged interrupt status value is
latched". -/
theorem C6_irq_pending_amended (st : esdi_t) :
    ((esdi_read 3 st).1.status &&& STATUS_IRQ = 0 ∧
     (esdi_read 3 st).1.irq_in_progress = st.irq_in_progress ∧
     (esdi_read 3 st).1.irq_status = st.irq_status ∧
     (esdi_read 3 st).2 = st.irq_status) ∧
    (∀ val : Nat,
      (val % 256 &&& ATTN_DEVICE_SEL = ATTN_HOST_ADAPTER ∨
       val % 256 &&& ATTN_DEVICE_SEL = ATTN_DEVICE_0 ∨
       val % 256 &&& ATTN_DEVICE_SEL = ATTN_DEVICE_1) →
      val % 256 &&& ATTN_REQ_MASK = ATTN_EOI →
      ∃ st', esdi_write 3 val st = Except.ok st' ∧
        st'.status &&& STATUS_IRQ = 0 ∧ st'.irq_in_progress = false ∧
        st'.irq_status = st.irq_status) ∧
    ((cmd_unsupported st).status &&& STATUS_IRQ ≠ 0 ∧
      (cmd_unsupported st).irq_in_progress = true) ∧
    ((device_not_present st).status &&& STATUS_IRQ ≠ 0 ∧
      (device_not_present st).irq_in_progress = true) ∧
    ((rba_out_of_range st).status &&& STATUS_IRQ ≠ 0 ∧
      (rba_out_of_range st).irq_in_progress = true) ∧
    ((defective_block st).status &&& STATUS_IRQ ≠ 0 ∧
      (defective_block st).irq_in_progress = true) := by
  refine ⟨⟨?_, rfl, rfl, rfl⟩, ?_, ?_, ?_, ?_, ?_⟩
  · show st.status &&& 0xfe &&& STATUS_IRQ = 0
    rw [Nat.and_assoc]
    simp [STATUS_IRQ]
  · intro val hsel hreq
    have heoi : ∀ d : esdi_t,
        (clear_irq {d with irq_in_progress := false, status := d.status &&& 0xfe}).status
            &&& STATUS_IRQ = 0 ∧
        (clear_irq {d with irq_in_progress := false, status := d.status &&& 0xfe}).irq_in_progress
            = false ∧
        (clear_irq {d with irq_in_progress := false, status := d.status &&& 0xfe}).irq_status
            = d.irq_status := by
      intro d
      unfold clear_irq
      dsimp only
      split <;> exact ⟨by rw [Nat.and_assoc]; simp [STATUS_IRQ], rfl, rfl⟩
    rcases hsel with hs | hs | hs
    · refine ⟨_, ?_, heoi st⟩
      simp only [esdi_write]
      rw [if_pos hs, if_neg (by rw [hreq]; decide), if_pos hreq]
    · refine ⟨_, ?_, heoi st⟩
      simp only [esdi_write]
      rw [if_neg (by rw [hs]; decide), if_pos hs,
        if_neg (by rw [hreq]; decide), if_pos hreq]
    · refine ⟨_, ?_, heoi st⟩
      simp only [esdi_write]
      rw [if_neg (by rw [hs]; decide), if_neg (by rw [hs]; decide), if_pos hs,
        if_neg (by rw [hreq]; decide), if_pos hreq]
  · exact ⟨by simp [cmd_unsupported, STATUS_IRQ, STATUS_STATUS_OUT_FULL], by simp [cmd_unsupported]⟩
  · exact ⟨by simp [device_not_present, STATUS_IRQ, STATUS_STATUS_OUT_FULL], by simp [device_not_present]⟩
  · exact ⟨by simp [rba_out_of_range, STATUS_IRQ, STATUS_STATUS_OUT_FULL], by simp [rba_out_of_range]⟩
  · exact ⟨by simp [defective_block, STATUS_IRQ, STATUS_STATUS_OUT_FULL], by simp [defective_block]⟩

/-- Witness for the amended C6: the EOI clause at a concrete state. -/
theorem C6_irq_pending_amended_witness :
    ∃ st', esdi_write 3 0xe2 c6st1 = Except.ok st' ∧
      st'.status &&& STATUS_IRQ = 0 ∧ st'.irq_in_progress = false ∧
      st'.irq_status = c6st1.irq_status :=
  (C6_irq_pending_amended c6st1).2.1 0xe2 (Or.inl (by decide)) (by decide)

/-! ## C10: the seek command's stale range check -/

/-- Claim C10: for a seek on a present drive, the address-range validation
before the phase switch compares the `rba` and `sector_count` left over
from the previously executed command — the out-of-range outcome is the
same for every content of the command queue — and the seek's own target
address is decoded from the command queue only afterwards, inside phase 0,
where it overwrites `rba` and feeds the seek-time model. -/
theorem C10_seek_range_check_stale (env : Env) (dev : esdi_t)
    (hin : dev.in_reset = false)
    (hc : dev.command = CMD_SEEK) (hs : dev.cmd_state = 0)
    (hdev : dev.cmd_dev = ATTN_DEVICE_0 ∨ dev.cmd_dev = ATTN_DEVICE_1)
    (hp : (selDrive dev).present = true) :
    (dev.rba + dev.sector_count > env.last_sector (selDrive dev).hdd_num →
      ∀ cd : List Nat, ∃ dev',
        esdi_callback env {dev with cmd_data := cd} = Except.ok (dev', [], []) ∧
        dev'.status_data.getD 1 0 = 0x0e01 ∧ dev'.status_data.getD 2 0 = 0x0007 ∧
        dev'.rba = dev.rba ∧ dev'.timer = none) ∧
    (dev.rba + dev.sector_count ≤ env.last_sector (selDrive dev).hdd_num →
      0 ≤ env.seek_time (selDrive dev).hdd_num
        ((dev.cmd_data.getD 2 0 ||| (dev.cmd_data.getD 3 0 <<< 16)) &&& 0x0fffffff) →
      ∃ dev', esdi_callback env dev = Except.ok (dev', [], []) ∧
        dev'.rba = (dev.cmd_data.getD 2 0 ||| (dev.cmd_data.getD 3 0 <<< 16)) &&& 0x0fffffff ∧
        dev'.cmd_state = 1 ∧
        dev'.timer = some (ESDI_TIME + env.seek_time (selDrive dev).hdd_num
          ((dev.cmd_data.getD 2 0 ||| (dev.cmd_data.getD 3 0 <<< 16)) &&& 0x0fffffff))) := by
  rcases hdev with hd | hd <;> refine ⟨fun hoor cd => ?_, fun hok hst => ?_⟩
  · simp [selDrive, hd, ATTN_DEVICE_0, ATTN_DEVICE_1] at hp hoor
    simp only [esdi_callback]
    rw [if_neg (by simp [hin]), hc]
    norm_num [CMD_SEEK]
    rw [if_neg (by simp [driveOnlyFails, hd, ATTN_DEVICE_0, ATTN_DEVICE_1]),
      if_neg (by simp [selDrive, hd, ATTN_DEVICE_0, ATTN_DEVICE_1, hp]),
      if_pos (by simp [selDrive, hd, ATTN_DEVICE_0, ATTN_DEVICE_1]; omega)]
    refine ⟨_, rfl, ?_, ?_, ?_, ?_⟩ <;> simp [rba_out_of_range]
  · simp [selDrive, hd, ATTN_DEVICE_0, ATTN_DEVICE_1] at hp hok
    have hst2 : 0 ≤ env.seek_time dev.drives0.hdd_num ((dev.cmd_data.getD 2 0 ||| (dev.cmd_data.getD 3 0 <<< 16)) &&& 0x0fffffff) := by
      simpa only [selDrive, hd, ATTN_DEVICE_0, ATTN_DEVICE_1, reduceIte] using hst
    have hne : ESDI_TIME + env.seek_time dev.drives0.hdd_num ((dev.cmd_data.getD 2 0 ||| (dev.cmd_data.getD 3 0 <<< 16)) &&& 0x0fffffff) ≠ 0 := by rw [ESDI_TIME]; intro hcon; linarith
    simp only [esdi_callback]
    rw [if_neg (by simp [hin]), hc]
    norm_num [CMD_SEEK]
    rw [if_neg (by simp [driveOnlyFails, hd, ATTN_DEVICE_0, ATTN_DEVICE_1]),
      if_neg (by simp [selDrive, hd, ATTN_DEVICE_0, ATTN_DEVICE_1, hp]),
      if_neg (by simp [selDrive, hd, ATTN_DEVICE_0, ATTN_DEVICE_1]; omega), hs]
    norm_num
    simp only [selDrive, hd, ATTN_DEVICE_0, ATTN_DEVICE_1, reduceIte]
    exact set_cb_timer_pos _ _ (by simp only [List.getD_eq_getElem?_getD] at hne; exact hne)

  · simp [selDrive, hd, ATTN_DEVICE_0, ATTN_DEVICE_1] at hp hoor
    simp only [esdi_callback]
    rw [if_neg (by simp [hin]), hc]
    norm_num [CMD_SEEK]
    rw [if_neg (by simp [driveOnlyFails, hd, ATTN_DEVICE_0, ATTN_DEVICE_1]),
      if_neg (by simp [selDrive, hd, ATTN_DEVICE_0, ATTN_DEVICE_1, hp]),
      if_pos (by simp [selDrive, hd, ATTN_DEVICE_0, ATTN_DEVICE_1]; omega)]
    refine ⟨_, rfl, ?_, ?_, ?_, ?_⟩ <;> simp [rba_out_of_range]
  · simp [selDrive, hd, ATTN_DEVICE_0, ATTN_DEVICE_1] at hp hok
    have hst2 : 0 ≤ env.seek_time dev.drives1.hdd_num ((dev.cmd_data.getD 2 0 ||| (dev.cmd_data.getD 3 0 <<< 16)) &&& 0x0fffffff) := by
      simpa only [selDrive, hd, ATTN_DEVICE_0, ATTN_DEVICE_1, reduceIte] using hst
    have hne : ESDI_TIME + env.seek_time dev.drives1.hdd_num ((dev.cmd_data.getD 2 0 ||| (dev.cmd_data.getD 3 0 <<< 16)) &&& 0x0fffffff) ≠ 0 := by rw [ESDI_TIME]; intro hcon; linarith
    simp only [esdi_callback]
    rw [if_neg (by simp [hin]), hc]
    norm_num [CMD_SEEK]
    rw [if_neg (by simp [driveOnlyFails, hd, ATTN_DEVICE_0, ATTN_DEVICE_1]),
      if_neg (by simp [selDrive, hd, ATTN_DEVICE_0, ATTN_DEVICE_1, hp]),
      if_neg (by simp [selDrive, hd, ATTN_DEVICE_0, ATTN_DEVICE_1]; omega), hs]
    norm_num
    simp only [selDrive, hd, ATTN_DEVICE_0, ATTN_DEVICE_1, reduceIte]
    exact set_cb_timer_pos _ _ (by simp only [List.getD_eq_getElem?_getD] at hne; exact hne)


/-- environment for the C10 witness: one 101-sector drive, zero seek cost -/
def c10env : Env := {trivEnv with last_sector := fun _ => 100}

/-- concrete state for the C10 witness: a seek issued right after a command
whose `rba`/`sector_count` run past the drive end -/
def c10dev : esdi_t := {esdi_init_state ⟨17, 4, 100, 100, true, 0⟩ ⟨0, 0, 0, 0, false, 0⟩ with
  in_reset := false, command := CMD_SEEK, cmd_dev := 0, cmd_state := 0,
  rba := 50, sector_count := 60, cmd_data := [0x05, 0, 7, 0]}

/-- Witness for C10: the stale out-of-range failure at a concrete state,
for an arbitrary replacement command queue. -/
theorem C10_seek_range_check_stale_witness :
    ∃ dev', esdi_callback c10env {c10dev with cmd_data := [9, 9, 9, 9]} =
        Except.ok (dev', [], []) ∧
      dev'.status_data.getD 1 0 = 0x0e01 ∧ dev'.status_data.getD 2 0 = 0x0007 ∧
      dev'.rba = c10dev.rba ∧ dev'.timer = none :=
  (C10_seek_range_check_stale c10env c10dev (by decide) (by decide) (by decide)
    (Or.inl (by decide)) (by decide)).1 (by decide) [9, 9, 9, 9]

/-! ## C2: the address-range check of the transfer commands -/

/-- Claim C2: for a read, write, read-verify or write-verify command on a
present drive, when the decoded block address plus sector count exceeds the
image collaborator's reported last sector the command terminates in its
setup phase with status words `0x0e01`/`0x0007`, a command-complete-failure
interrupt, no backing-image operation, and no transfer phase scheduled as
`cmd_state` stays `0`; when it does not exceed it, the status queue is left
untouched and the command proceeds to phase 1. -/
theorem C2_oor_range_check (env : Env) (dev : esdi_t)
    (hin : dev.in_reset = false)
    (hc : dev.command = CMD_READ ∨ dev.command = CMD_WRITE ∨
          dev.command = CMD_READ_VERIFY ∨ dev.command = CMD_WRITE_VERIFY)
    (hs : dev.cmd_state = 0)
    (hdev : dev.cmd_dev = ATTN_DEVICE_0 ∨ dev.cmd_dev = ATTN_DEVICE_1)
    (hp : (selDrive dev).present = true) :
    (((dev.cmd_data.getD 2 0 ||| (dev.cmd_data.getD 3 0 <<< 16)) &&& 0x0fffffff)
        + dev.cmd_data.getD 1 0 > env.last_sector (selDrive dev).hdd_num →
      ∃ dev', esdi_callback env dev = Except.ok (dev', [], []) ∧
        dev'.status_data.getD 1 0 = 0x0e01 ∧ dev'.status_data.getD 2 0 = 0x0007 ∧
        dev'.irq_status = dev.cmd_dev ||| IRQ_CMD_COMPLETE_FAILURE ∧
        dev'.irq_in_progress = true ∧ dev'.cmd_state = 0 ∧ dev'.timer = none) ∧
    (((dev.cmd_data.getD 2 0 ||| (dev.cmd_data.getD 3 0 <<< 16)) &&& 0x0fffffff)
        + dev.cmd_data.getD 1 0 ≤ env.last_sector (selDrive dev).hdd_num →
      ∃ dev', esdi_callback env dev = Except.ok (dev', [], []) ∧
        dev'.status_data = dev.status_data ∧ dev'.status_len = dev.status_len ∧
        dev'.cmd_state = 1) := by
  rcases hc with hc | hc | hc | hc <;> rcases hdev with hd | hd <;>
    simp only [selDrive, hd, ATTN_DEVICE_0, ATTN_DEVICE_1] at hp ⊢ <;>
    norm_num at hp ⊢ <;>
    refine ⟨fun hoor => ?_, fun hok => ?_⟩ <;>
    simp only [esdi_callback] <;>
    rw [if_neg (by simp [hin]), hc] <;>
    norm_num [CMD_READ, CMD_WRITE, CMD_READ_VERIFY, CMD_WRITE_VERIFY] <;>
    rw [if_neg (by simp [driveOnlyFails, hd, ATTN_DEVICE_0, ATTN_DEVICE_1]),
      if_neg (by simp [selDrive, hd, ATTN_DEVICE_0, ATTN_DEVICE_1, hp]), hs] <;>
    norm_num <;>
    [skip; skip; skip; skip; skip; skip; skip; skip; skip; skip; skip; skip;
     skip; skip; skip; skip] <;>
    first
    | (rw [if_pos hc]
       first
       | (rw [if_pos (by simp [selDrive, hd, ATTN_DEVICE_0, ATTN_DEVICE_1] at hoor ⊢; omega)]
          refine ⟨_, rfl, ?_, ?_, ?_, ?_, ?_, ?_⟩ <;>
            simp [rba_out_of_range, hs, hd, ATTN_DEVICE_0, ATTN_DEVICE_1])
       | (rw [if_neg (by simp [selDrive, hd, ATTN_DEVICE_0, ATTN_DEVICE_1] at hok ⊢; omega)]
          refine ⟨_, rfl, ?_, ?_, ?_⟩ <;> simp))
    | (rw [if_pos (by simp [selDrive, hd, ATTN_DEVICE_0, ATTN_DEVICE_1] at hoor ⊢; omega)]
       refine ⟨_, rfl, ?_, ?_, ?_, ?_, ?_, ?_⟩ <;>
         simp [rba_out_of_range, hs, hd, ATTN_DEVICE_0, ATTN_DEVICE_1])
    | (rw [if_neg (by simp [selDrive, hd, ATTN_DEVICE_0, ATTN_DEVICE_1] at hok ⊢; omega)]
       refine ⟨_, rfl, ?_, ?_, ?_⟩ <;> simp)

/-- environment for the C2 witness: one 101-sector drive -/
def c2env : Env := {trivEnv with last_sector := fun _ => 100}

/-- concrete state for the C2 witness: a read of 60 sectors at address 50
on a 101-sector drive, overrunning the image end -/
def c2dev : esdi_t := {esdi_init_state ⟨17, 4, 100, 100, true, 0⟩ ⟨0, 0, 0, 0, false, 0⟩ with
  in_reset := false, command := CMD_READ, cmd_dev := 0, cmd_state := 0,
  cmd_data := [0x01, 60, 50, 0]}

/-- Witness for C2: the out-of-range failure at a concrete state. -/
theorem C2_oor_range_check_witness :
    ∃ dev', esdi_callback c2env c2dev = Except.ok (dev', [], []) ∧
      dev'.status_data.getD 1 0 = 0x0e01 ∧ dev'.status_data.getD 2 0 = 0x0007 ∧
      dev'.irq_status = c2dev.cmd_dev ||| IRQ_CMD_COMPLETE_FAILURE ∧
      dev'.irq_in_progress = true ∧ dev'.cmd_state = 0 ∧ dev'.timer = none :=
  (C2_oor_range_check c2env c2dev (by decide) (Or.inl (by decide)) (by decide)
    (Or.inl (by decide)) (by decide)).1 (by decide)

/-! ## The transfer-loop word streams -/

/-- additional projections of `esdi_mca_set_callback` -/
@[simp] theorem set_cb_sector_pos (d : esdi_t) (c : ℚ) :
    (esdi_mca_set_callback d c).sector_pos = d.sector_pos := by
  unfold esdi_mca_set_callback; split <;> rfl

@[simp] theorem set_cb_data_pos (d : esdi_t) (c : ℚ) :
    (esdi_mca_set_callback d c).data_pos = d.data_pos := by
  unfold esdi_mca_set_callback; split <;> rfl

@[simp] theorem set_cb_data (d : esdi_t) (c : ℚ) :
    (esdi_mca_set_callback d c).data = d.data := by
  unfold esdi_mca_set_callback; split <;> rfl

@[simp] theorem set_cb_sector_count (d : esdi_t) (c : ℚ) :
    (esdi_mca_set_callback d c).sector_count = d.sector_count := by
  unfold esdi_mca_set_callback; split <;> rfl

@[simp] theorem set_cb_command (d : esdi_t) (c : ℚ) :
    (esdi_mca_set_callback d c).command = d.command := by
  unfold esdi_mca_set_callback; split <;> rfl

@[simp] theorem set_cb_status_pos (d : esdi_t) (c : ℚ) :
    (esdi_mca_set_callback d c).status_pos = d.status_pos := by
  unfold esdi_mca_set_callback; split <;> rfl

@[simp] theorem set_cb_in_reset (d : esdi_t) (c : ℚ) :
    (esdi_mca_set_callback d c).in_reset = d.in_reset := by
  unfold esdi_mca_set_callback; split <;> rfl

@[simp] theorem set_cb_basic_ctrl (d : esdi_t) (c : ℚ) :
    (esdi_mca_set_callback d c).basic_ctrl = d.basic_ctrl := by
  unfold esdi_mca_set_callback; split <;> rfl

@[simp] theorem set_cb_drives0 (d : esdi_t) (c : ℚ) :
    (esdi_mca_set_callback d c).drives0 = d.drives0 := by
  unfold esdi_mca_set_callback; split <;> rfl

@[simp] theorem set_cb_drives1 (d : esdi_t) (c : ℚ) :
    (esdi_mca_set_callback d c).drives1 = d.drives1 := by
  unfold esdi_mca_set_callback; split <;> rfl

/-- the words of one image sector, as the read loop stages them -/
def secW (img : Nat → Nat → Option (List Nat)) (h r : Nat) : List Nat :=
  (img h r).getD []

/-- the full word stream of an `n`-sector read starting at block `r` -/
def flatR (img : Nat → Nat → Option (List Nat)) (h : Nat) : Nat → Nat → List Nat
  | _, 0 => []
  | r, n + 1 => secW img h r ++ flatR img h (r + 1) n

/-- the words still to be transferred when the cursor sits `dp` words into
sector `r` with `m` sectors (sector `r` included) left to go -/
def remW (img : Nat → Nat → Option (List Nat)) (h r dp m : Nat) : List Nat :=
  (flatR img h r m).drop dp

/-- an image whose every block reads back as a full 256-word sector -/
def imgTotal (img : Nat → Nat → Option (List Nat)) (h : Nat) : Prop :=
  ∀ r, ∃ ws, img h r = some ws ∧ ws.length = 256

/-- the staging cost the read loop accrues in one invocation that starts
`dp` words into sector `r` with `m` sectors left and a DMA budget of `c`
words: sector `r` is (re)staged when the cursor sits at its start, and each
later sector start the budget reaches is staged as well -/
def timeR (tm : Nat → Nat → Nat → ℚ) (h : Nat) : Nat → Nat → Nat → Nat → ℚ
  | _, _, _, 0 => 0
  | r, dp, c, m + 1 =>
    (if dp = 0 then tm h r 1 + esdi_mca_get_xfer_time 1 else 0) +
    (if 256 - dp ≤ c then timeR tm h (r + 1) 0 (c - (256 - dp)) m else 0)

theorem secW_length {img : Nat → Nat → Option (List Nat)} {h : Nat}
    (ht : imgTotal img h) (r : Nat) : (secW img h r).length = 256 := by
  obtain ⟨ws, hw, hl⟩ := ht r
  simp [secW, hw, hl]

theorem flatR_length {img : Nat → Nat → Option (List Nat)} {h : Nat}
    (ht : imgTotal img h) : ∀ n r, (flatR img h r n).length = 256 * n
  | 0, _ => by simp [flatR]
  | n + 1, r => by
    simp [flatR, secW_length ht, flatR_length ht n (r + 1)]; ring

theorem flatR_append {img : Nat → Nat → Option (List Nat)} {h : Nat} :
    ∀ a r b, flatR img h r (a + b) = flatR img h r a ++ flatR img h (r + a) b
  | 0, r, b => by simp [flatR]
  | a + 1, r, b => by
    have : a + 1 + b = (a + b) + 1 := by omega
    rw [this]
    show secW img h r ++ flatR img h (r + 1) (a + b) = _
    rw [flatR_append a (r + 1) b]
    have h2 : r + 1 + a = r + (a + 1) := by omega
    rw [h2]
    exact (List.append_assoc _ _ _).symm

theorem remW_word {img : Nat → Nat → Option (List Nat)} {h : Nat}
    (ht : imgTotal img h) (r dp m : Nat) (hdp : dp < 256) :
    remW img h r dp (m + 1) =
      (secW img h r).getD dp 0 :: remW img h r (dp + 1) (m + 1) := by
  have hlen := secW_length ht r
  unfold remW
  show List.drop dp (secW img h r ++ flatR img h (r + 1) m) =
    (secW img h r).getD dp 0 ::
      List.drop (dp + 1) (secW img h r ++ flatR img h (r + 1) m)
  rw [List.drop_append_of_le_length (by omega),
    List.drop_append_of_le_length (by omega),
    List.drop_eq_getElem_cons (show dp < (secW img h r).length by omega),
    List.getD_eq_getElem _ _ (by omega)]
  rfl

theorem remW_reset {img : Nat → Nat → Option (List Nat)} {h : Nat}
    (ht : imgTotal img h) (r m : Nat) :
    remW img h r 256 (m + 1) = remW img h (r + 1) 0 m := by
  have hlen := secW_length ht r
  unfold remW
  show List.drop 256 (secW img h r ++ flatR img h (r + 1) m) =
    List.drop 0 (flatR img h (r + 1) m)
  rw [List.drop_append_of_le_length (by omega), ← hlen, List.drop_length]
  rfl

theorem remW_length {img : Nat → Nat → Option (List Nat)} {h : Nat}
    (ht : imgTotal img h) (r dp m : Nat) :
    (remW img h r dp m).length = 256 * m - dp := by
  simp [remW, flatR_length ht]

theorem remW_advance {img : Nat → Nat → Option (List Nat)} {h : Nat}
    (ht : imgTotal img h) (r dp m c : Nat) (hc : dp + c ≤ 256 * m) :
    remW img h (r + (dp + c) / 256) ((dp + c) % 256) (m - (dp + c) / 256) =
      (remW img h r dp m).drop c := by
  have hsplit : m = (dp + c) / 256 + (m - (dp + c) / 256) := by omega
  have hlen : (flatR img h r ((dp + c) / 256)).length = 256 * ((dp + c) / 256) :=
    flatR_length ht _ _
  have h2 : dp + c = (flatR img h r ((dp + c) / 256)).length + (dp + c) % 256 := by
    rw [hlen]; omega
  unfold remW
  rw [List.drop_drop]
  conv_rhs => rw [hsplit]
  rw [flatR_append]
  conv_rhs =>
    arg 1
    rw [h2]
  rw [List.drop_append]

theorem timeR_word (tm : Nat → Nat → Nat → ℚ) (h r dp c m : Nat) (hdp : dp < 256) :
    timeR tm h r dp (c + 1) (m + 1) =
      (if dp = 0 then tm h r 1 + esdi_mca_get_xfer_time 1 else 0) +
        timeR tm h r (dp + 1) c (m + 1) := by
  show (if dp = 0 then tm h r 1 + esdi_mca_get_xfer_time 1 else 0) +
      (if 256 - dp ≤ c + 1 then timeR tm h (r + 1) 0 (c + 1 - (256 - dp)) m else 0) =
    (if dp = 0 then tm h r 1 + esdi_mca_get_xfer_time 1 else 0) +
      ((if dp + 1 = 0 then tm h r 1 + esdi_mca_get_xfer_time 1 else 0) +
        (if 256 - (dp + 1) ≤ c then timeR tm h (r + 1) 0 (c - (256 - (dp + 1))) m else 0))
  rw [if_neg (show ¬ dp + 1 = 0 by omega), zero_add]
  by_cases hle : 256 - dp ≤ c + 1
  · rw [if_pos hle, if_pos (show 256 - (dp + 1) ≤ c by omega),
      show c + 1 - (256 - dp) = c - (256 - (dp + 1)) by omega]
  · rw [if_neg hle, if_neg (show ¬ 256 - (dp + 1) ≤ c by omega)]

theorem timeR_reset (tm : Nat → Nat → Nat → ℚ) (h r c m : Nat) :
    timeR tm h r 256 c (m + 1) = timeR tm h (r + 1) 0 c m := by
  show (if (256 : Nat) = 0 then tm h r 1 + esdi_mca_get_xfer_time 1 else 0) +
    (if 256 - 256 ≤ c then timeR tm h (r + 1) 0 (c - (256 - 256)) m else 0) =
    timeR tm h (r + 1) 0 c m
  norm_num

theorem timeR_cap0 (tm : Nat → Nat → Nat → ℚ) (h r dp m : Nat) (hdp : dp < 256) :
    timeR tm h r dp 0 (m + 1) =
      if dp = 0 then tm h r 1 + esdi_mca_get_xfer_time 1 else 0 := by
  show (if dp = 0 then tm h r 1 + esdi_mca_get_xfer_time 1 else 0) +
    (if 256 - dp ≤ 0 then timeR tm h (r + 1) 0 (0 - (256 - dp)) m else 0) =
    if dp = 0 then tm h r 1 + esdi_mca_get_xfer_time 1 else 0
  rw [if_neg (show ¬ 256 - dp ≤ 0 by omega), add_zero]

theorem timeR_nonneg (tm : Nat → Nat → Nat → ℚ) (h : Nat)
    (hnn : ∀ r, 0 ≤ tm h r 1) : ∀ m r dp c, 0 ≤ timeR tm h r dp c m
  | 0, _, _, _ => le_refl 0
  | m + 1, r, dp, c => by
    show 0 ≤ (if dp = 0 then tm h r 1 + esdi_mca_get_xfer_time 1 else 0) +
      (if 256 - dp ≤ c then timeR tm h (r + 1) 0 (c - (256 - dp)) m else 0)
    have hx : (0 : ℚ) ≤ esdi_mca_get_xfer_time 1 := by
      norm_num [esdi_mca_get_xfer_time]
    have h1 := hnn r
    have h2 := timeR_nonneg tm h hnn m (r + 1) 0 (c - (256 - dp))
    split <;> split <;> linarith

/-! ## Characterizing one invocation of the read transfer loop -/

theorem xferT_nonneg : (0 : ℚ) ≤ esdi_mca_get_xfer_time 1 := by
  norm_num [esdi_mca_get_xfer_time]

set_option maxHeartbeats 4000000 in
/-- One run of the read loop from an arbitrary mid-transfer cursor
`(sp, dp)`: with a DMA budget below the remaining word count it suspends
having emitted exactly the next `cap` words of the image stream, at the
advanced cursor, with the staging buffer holding the cursor's sector and
the callback rescheduled `ESDI_TIME` plus the entry accrual plus exactly
this invocation's staging cost later; with a budget at least the remainder
it falls out of the `while` having emitted the whole remainder. -/
theorem read_xfer_loop_run (env : Env) (drive : drive_t)
    (ht : imgTotal env.img_read drive.hdd_num)
    (htr : ∀ r, 0 ≤ env.timing_read drive.hdd_num r 1)
    (cnt rba0 : Nat) (hend : rba0 + cnt ≤ drive.sectors) :
    ∀ fuel sp dp (dev : esdi_t) (cap : Nat) (t : ℚ) (ops : List ImgOp) (out : List Nat),
      dev.sector_pos = sp → dev.data_pos = dp → dev.sector_count = cnt →
      dev.rba = rba0 + sp →
      sp ≤ cnt → dp ≤ 256 → (sp = cnt → dp = 0) →
      (0 < dp → dp < 256 → dev.data = secW env.img_read drive.hdd_num (rba0 + sp)) →
      0 ≤ t →
      257 * (cnt - sp) + (257 - dp) ≤ fuel →
      ((cap < 256 * (cnt - sp) - dp →
        ∃ dev2 ops2, read_xfer_loop env drive fuel dev cap t ops out =
            Except.ok (XRes.suspend dev2 ops2
              (out ++ (remW env.img_read drive.hdd_num (rba0 + sp) dp (cnt - sp)).take cap)) ∧
          dev2.sector_pos = sp + (dp + cap) / 256 ∧
          dev2.data_pos = (dp + cap) % 256 ∧
          dev2.rba = rba0 + (sp + (dp + cap) / 256) ∧
          dev2.sector_count = cnt ∧
          dev2.data = secW env.img_read drive.hdd_num (rba0 + (sp + (dp + cap) / 256)) ∧
          dev2.timer = some (ESDI_TIME + t +
            timeR env.timing_read drive.hdd_num (rba0 + sp) dp cap (cnt - sp)) ∧
          frameEq dev dev2) ∧
      (256 * (cnt - sp) - dp ≤ cap →
        ∃ dev2 ops2, read_xfer_loop env drive fuel dev cap t ops out =
            Except.ok (XRes.done dev2
              (t + timeR env.timing_read drive.hdd_num (rba0 + sp) dp cap (cnt - sp))
              ops2 (out ++ remW env.img_read drive.hdd_num (rba0 + sp) dp (cnt - sp))) ∧
          dev2.sector_pos = cnt ∧ dev2.data_pos = 0 ∧
          dev2.rba = rba0 + cnt ∧ dev2.sector_count = cnt ∧
          dev2.timer = dev.timer ∧ frameEq dev dev2)) := by
  intro fuel
  induction fuel with
  | zero =>
    intro sp dp dev cap t ops out hsp hdp hsc hr hsple hdple hspcnt hbuf ht0 hfuel
    omega
  | succ fuel ih =>
    intro sp dp dev cap t ops out hsp hdp hsc hr hsple hdple hspcnt hbuf ht0 hfuel
    obtain ⟨dma, bc, st, iqs, iqe, iqp, crp, cpos, cdat, cdev, stpos, stlen, stdat,
      dpos, dta, sbuf, spos, scnt, cmd, cst, inr, rb, d0, d1, prg, il, tmr⟩ := dev
    dsimp only at hsp hdp hsc hr hbuf
    replace hsp := hsp.symm
    replace hdp := hdp.symm
    replace hsc := hsc.symm
    subst hsp
    subst hdp
    subst hsc
    subst hr
    obtain ⟨ws, hws, hwl⟩ := ht (rba0 + sp)
    rw [read_xfer_loop]
    dsimp only
    have hm0 : cnt - sp = (cnt - sp - 1) + 1 ∨ sp = cnt := by omega
    refine ⟨fun hlt => ?_, fun hge => ?_⟩
    · -- budget below the remainder: suspension
      have hscnt : sp < cnt := by omega
      have hm : cnt - sp = (cnt - sp - 1) + 1 := by omega
      rw [if_pos hscnt,
        if_neg (show ¬(dp = 0 ∧ rba0 + sp ≥ drive.sectors) from by
          rintro ⟨-, h2⟩; omega),
        if_neg (show ¬(dp = 0 ∧ env.img_read drive.hdd_num (rba0 + sp) = none) from by
          rintro ⟨-, h2⟩; rw [hws] at h2; cases h2)]
      by_cases hdp256 : dp < 256
      · by_cases hdp0 : dp = 0
        · subst hdp0
          rw [if_pos rfl]
          dsimp only
          rw [if_pos (show (0 : Nat) < 256 by omega)]
          have htL : (0 : ℚ) ≤ t + env.timing_read drive.hdd_num (rba0 + sp) 1 +
              esdi_mca_get_xfer_time 1 := by
            have h1 := htr (rba0 + sp); have h2 := xferT_nonneg; linarith
          cases cap with
          | zero =>
            rw [List.take_zero, List.append_nil]
            have hne : ESDI_TIME + (t + env.timing_read drive.hdd_num (rba0 + sp) 1 +
                esdi_mca_get_xfer_time 1) ≠ 0 := by
              rw [ESDI_TIME]; intro hcon; linarith
            refine ⟨_, _, rfl, ?_, ?_, ?_, ?_, ?_, ?_, ?_⟩
            · simp
            · simp
            · simp
            · simp
            · simp [secW]
            · rw [set_cb_timer_pos _ _ hne, hm, timeR_cap0 _ _ _ _ _ (by omega), if_pos rfl]
              congr 1; ring
            · exact frameEq_set_callback _ (by constructor <;> rfl)
          | succ c =>
            dsimp only
            have H := ih sp (0 + 1)
              ⟨dma, bc, st, iqs, iqe, iqp, crp, cpos, cdat, cdev, stpos, stlen, stdat,
                0 + 1, (env.img_read drive.hdd_num (rba0 + sp)).getD [], sbuf, sp, cnt,
                cmd, cst, inr, rba0 + sp, d0, d1, prg, il, tmr⟩
              c (t + env.timing_read drive.hdd_num (rba0 + sp) 1 + esdi_mca_get_xfer_time 1)
              (ops ++ [ImgOp.rd drive.hdd_num (rba0 + sp)])
              (out ++ [((env.img_read drive.hdd_num (rba0 + sp)).getD []).getD 0 0])
              rfl rfl rfl rfl (by omega) (by omega) (by omega)
              (fun _ _ => rfl) htL (by omega)
            have hside : c < 256 * (cnt - sp) - (0 + 1) := by clear H ih; omega
            obtain ⟨dev2, ops2, heq, hp1, hp2, hp3, hp4, hp5, hp6, hp7⟩ := H.1 hside
            clear H
            have hout : out ++ (remW env.img_read drive.hdd_num (rba0 + sp) 0 (cnt - sp)).take (c + 1) =
                (out ++ [((env.img_read drive.hdd_num (rba0 + sp)).getD []).getD 0 0]) ++
                  (remW env.img_read drive.hdd_num (rba0 + sp) (0 + 1) (cnt - sp)).take c := by
              rw [hm, remW_word ht _ _ _ (by omega), List.take_succ_cons, List.append_assoc]
              rfl
            refine ⟨dev2, ops2, ?_, ?_, ?_, ?_, hp4, ?_, ?_, ?_⟩
            · rw [hout]; exact heq
            · rw [hp1]; omega
            · rw [hp2]; omega
            · rw [hp3]; congr 1; omega
            · rw [hp5]; congr 1; omega
            · rw [hp6, hm, timeR_word _ _ _ _ _ _ (by omega), if_pos rfl]
              congr 1; ring
            · exact frameEq_trans (by constructor <;> rfl) hp7
        · rw [if_neg hdp0]
          dsimp only
          rw [if_pos hdp256]
          cases cap with
          | zero =>
            rw [List.take_zero, List.append_nil]
            have hne : ESDI_TIME + t ≠ 0 := by
              rw [ESDI_TIME]; intro hcon; linarith
            refine ⟨_, _, rfl, ?_, ?_, ?_, ?_, ?_, ?_, ?_⟩
            · simp only [set_cb_sector_pos]; omega
            · simp only [set_cb_data_pos]; omega
            · simp only [set_cb_rba]; omega
            · simp only [set_cb_sector_count]
            · simp only [set_cb_data]
              rw [hbuf (by omega) hdp256]; congr 1; omega
            · rw [set_cb_timer_pos _ _ hne, hm, timeR_cap0 _ _ _ _ _ hdp256, if_neg hdp0,
                add_zero]
            · exact frameEq_set_callback _ (frameEq_refl _)
          | succ c =>
            dsimp only
            have H := ih sp (dp + 1)
              ⟨dma, bc, st, iqs, iqe, iqp, crp, cpos, cdat, cdev, stpos, stlen, stdat,
                dp + 1, dta, sbuf, sp, cnt, cmd, cst, inr, rba0 + sp, d0, d1, prg, il, tmr⟩
              c t ops (out ++ [dta.getD dp 0])
              rfl rfl rfl rfl (by omega) (by omega) (by omega)
              (fun _ _ => hbuf (by omega) hdp256) ht0 (by omega)
            have hside : c < 256 * (cnt - sp) - (dp + 1) := by clear H ih; omega
            obtain ⟨dev2, ops2, heq, hp1, hp2, hp3, hp4, hp5, hp6, hp7⟩ := H.1 hside
            clear H
            have hout : out ++ (remW env.img_read drive.hdd_num (rba0 + sp) dp (cnt - sp)).take (c + 1) =
                (out ++ [dta.getD dp 0]) ++
                  (remW env.img_read drive.hdd_num (rba0 + sp) (dp + 1) (cnt - sp)).take c := by
              rw [hbuf (by omega) hdp256, hm, remW_word ht _ _ _ hdp256,
                List.take_succ_cons, List.append_assoc]
              rfl
            refine ⟨dev2, ops2, ?_, ?_, ?_, ?_, hp4, ?_, ?_, ?_⟩
            · rw [hout]; exact heq
            · rw [hp1]; omega
            · rw [hp2]; omega
            · rw [hp3]; congr 1; omega
            · rw [hp5]; congr 1; omega
            · rw [hp6, hm, timeR_word _ _ _ _ _ _ hdp256, if_neg hdp0]
              congr 1; ring
            · exact frameEq_trans (by constructor <;> rfl) hp7
      · have hdpe : dp = 256 := by omega
        subst hdpe
        rw [if_neg (show ¬(256 : Nat) = 0 by omega)]
        dsimp only
        rw [if_neg (show ¬(256 : Nat) < 256 by omega)]
        have e1 : rba0 + sp + 1 = rba0 + (sp + 1) := by omega
        have e2 : cnt - sp - 1 = cnt - (sp + 1) := by omega
        have H := ih (sp + 1) 0
          ⟨dma, bc, st, iqs, iqe, iqp, crp, cpos, cdat, cdev, stpos, stlen, stdat,
            0, dta, sbuf, sp + 1, cnt, cmd, cst, inr, rba0 + (sp + 1), d0, d1, prg, il, tmr⟩
          cap t ops out
          rfl rfl rfl rfl (by omega) (by omega) (fun _ => rfl)
          (fun h0 _ => absurd h0 (by omega)) ht0 (by omega)
        have hside : cap < 256 * (cnt - (sp + 1)) - 0 := by clear H ih; omega
        obtain ⟨dev2, ops2, heq, hp1, hp2, hp3, hp4, hp5, hp6, hp7⟩ := H.1 hside
        clear H
        have hout : out ++ (remW env.img_read drive.hdd_num (rba0 + sp) 256 (cnt - sp)).take cap =
            out ++ (remW env.img_read drive.hdd_num (rba0 + (sp + 1)) 0 (cnt - (sp + 1))).take cap := by
          rw [hm, remW_reset ht, e1, e2]
        refine ⟨dev2, ops2, ?_, ?_, ?_, ?_, hp4, ?_, ?_, ?_⟩
        · rw [hout]; exact heq
        · rw [hp1]; omega
        · rw [hp2]; omega
        · rw [hp3]; congr 1; omega
        · rw [hp5]; congr 1; omega
        · rw [hp6, hm, timeR_reset, e1, e2]
        · exact frameEq_trans (by constructor <;> rfl) hp7
    · -- budget at least the remainder: the loop completes
      by_cases hscnt : sp < cnt
      · have hm : cnt - sp = (cnt - sp - 1) + 1 := by omega
        rw [if_pos hscnt,
          if_neg (show ¬(dp = 0 ∧ rba0 + sp ≥ drive.sectors) from by
            rintro ⟨-, h2⟩; omega),
          if_neg (show ¬(dp = 0 ∧ env.img_read drive.hdd_num (rba0 + sp) = none) from by
            rintro ⟨-, h2⟩; rw [hws] at h2; cases h2)]
        by_cases hdp256 : dp < 256
        · by_cases hdp0 : dp = 0
          · subst hdp0
            rw [if_pos rfl]
            dsimp only
            rw [if_pos (show (0 : Nat) < 256 by omega)]
            have htL : (0 : ℚ) ≤ t + env.timing_read drive.hdd_num (rba0 + sp) 1 +
                esdi_mca_get_xfer_time 1 := by
              have h1 := htr (rba0 + sp); have h2 := xferT_nonneg; linarith
            cases cap with
            | zero => exact absurd hge (by omega)
            | succ c =>
              dsimp only
              have H := ih sp (0 + 1)
                ⟨dma, bc, st, iqs, iqe, iqp, crp, cpos, cdat, cdev, stpos, stlen, stdat,
                  0 + 1, (env.img_read drive.hdd_num (rba0 + sp)).getD [], sbuf, sp, cnt,
                  cmd, cst, inr, rba0 + sp, d0, d1, prg, il, tmr⟩
                c (t + env.timing_read drive.hdd_num (rba0 + sp) 1 + esdi_mca_get_xfer_time 1)
                (ops ++ [ImgOp.rd drive.hdd_num (rba0 + sp)])
                (out ++ [((env.img_read drive.hdd_num (rba0 + sp)).getD []).getD 0 0])
                rfl rfl rfl rfl (by omega) (by omega) (by omega)
                (fun _ _ => rfl) htL (by omega)
              have hside : 256 * (cnt - sp) - (0 + 1) ≤ c := by clear H ih; omega
              obtain ⟨dev2, ops2, heq, hp1, hp2, hp3, hp4, hp5, hp6⟩ := H.2 hside
              clear H
              have hout : out ++ remW env.img_read drive.hdd_num (rba0 + sp) 0 (cnt - sp) =
                  (out ++ [((env.img_read drive.hdd_num (rba0 + sp)).getD []).getD 0 0]) ++
                    remW env.img_read drive.hdd_num (rba0 + sp) (0 + 1) (cnt - sp) := by
                rw [hm, remW_word ht _ _ _ (by omega), List.append_assoc]
                rfl
              have htime : t + timeR env.timing_read drive.hdd_num (rba0 + sp) 0 (c + 1) (cnt - sp) =
                  t + env.timing_read drive.hdd_num (rba0 + sp) 1 + esdi_mca_get_xfer_time 1 +
                    timeR env.timing_read drive.hdd_num (rba0 + sp) (0 + 1) c (cnt - sp) := by
                rw [hm, timeR_word _ _ _ _ _ _ (by omega), if_pos rfl]; ring
              refine ⟨dev2, ops2, ?_, hp1, hp2, hp3, hp4, hp5, ?_⟩
              · rw [hout, htime]; exact heq
              · exact frameEq_trans (by constructor <;> rfl) hp6
          · rw [if_neg hdp0]
            dsimp only
            rw [if_pos hdp256]
            cases cap with
            | zero => exact absurd hge (by omega)
            | succ c =>
              dsimp only
              have H := ih sp (dp + 1)
                ⟨dma, bc, st, iqs, iqe, iqp, crp, cpos, cdat, cdev, stpos, stlen, stdat,
                  dp + 1, dta, sbuf, sp, cnt, cmd, cst, inr, rba0 + sp, d0, d1, prg, il, tmr⟩
                c t ops (out ++ [dta.getD dp 0])
                rfl rfl rfl rfl (by omega) (by omega) (by omega)
                (fun _ _ => hbuf (by omega) hdp256) ht0 (by omega)
              have hside : 256 * (cnt - sp) - (dp + 1) ≤ c := by clear H ih; omega
              obtain ⟨dev2, ops2, heq, hp1, hp2, hp3, hp4, hp5, hp6⟩ := H.2 hside
              clear H
              have hout : out ++ remW env.img_read drive.hdd_num (rba0 + sp) dp (cnt - sp) =
                  (out ++ [dta.getD dp 0]) ++
                    remW env.img_read drive.hdd_num (rba0 + sp) (dp + 1) (cnt - sp) := by
                rw [hbuf (by omega) hdp256, hm, remW_word ht _ _ _ hdp256, List.append_assoc]
                rfl
              have htime : t + timeR env.timing_read drive.hdd_num (rba0 + sp) dp (c + 1) (cnt - sp) =
                  t + timeR env.timing_read drive.hdd_num (rba0 + sp) (dp + 1) c (cnt - sp) := by
                rw [hm, timeR_word _ _ _ _ _ _ hdp256, if_neg hdp0]; ring
              refine ⟨dev2, ops2, ?_, hp1, hp2, hp3, hp4, hp5, ?_⟩
              · rw [hout, htime]; exact heq
              · exact frameEq_trans (by constructor <;> rfl) hp6
        · have hdpe : dp = 256 := by omega
          subst hdpe
          rw [if_neg (show ¬(256 : Nat) = 0 by omega)]
          dsimp only
          rw [if_neg (show ¬(256 : Nat) < 256 by omega)]
          have e1 : rba0 + sp + 1 = rba0 + (sp + 1) := by omega
          have e2 : cnt - sp - 1 = cnt - (sp + 1) := by omega
          have H := ih (sp + 1) 0
            ⟨dma, bc, st, iqs, iqe, iqp, crp, cpos, cdat, cdev, stpos, stlen, stdat,
              0, dta, sbuf, sp + 1, cnt, cmd, cst, inr, rba0 + (sp + 1), d0, d1, prg, il, tmr⟩
            cap t ops out
            rfl rfl rfl rfl (by omega) (by omega) (fun _ => rfl)
            (fun h0 _ => absurd h0 (by omega)) ht0 (by omega)
          have hside : 256 * (cnt - (sp + 1)) - 0 ≤ cap := by clear H ih; omega
          obtain ⟨dev2, ops2, heq, hp1, hp2, hp3, hp4, hp5, hp6⟩ := H.2 hside
          clear H
          have hout : out ++ remW env.img_read drive.hdd_num (rba0 + sp) 256 (cnt - sp) =
              out ++ remW env.img_read drive.hdd_num (rba0 + (sp + 1)) 0 (cnt - (sp + 1)) := by
            rw [hm, remW_reset ht, e1, e2]
          have htime : t + timeR env.timing_read drive.hdd_num (rba0 + sp) 256 cap (cnt - sp) =
              t + timeR env.timing_read drive.hdd_num (rba0 + (sp + 1)) 0 cap (cnt - (sp + 1)) := by
            rw [hm, timeR_reset, e1, e2]
          refine ⟨dev2, ops2, ?_, hp1, hp2, hp3, hp4, hp5, ?_⟩
          · rw [hout, htime]; exact heq
          · exact frameEq_trans (by constructor <;> rfl) hp6
      · have hspe : cnt = sp := by omega
        subst hspe
        have hdp0 : dp = 0 := hspcnt rfl
        subst hdp0
        rw [if_neg hscnt]
        rw [show cnt - cnt = 0 from by omega,
          show timeR env.timing_read drive.hdd_num (rba0 + cnt) 0 cap 0 = 0 from rfl,
          add_zero,
          show remW env.img_read drive.hdd_num (rba0 + cnt) 0 0 = [] from rfl,
          List.append_nil]
        exact ⟨_, ops, rfl, rfl, rfl, rfl, rfl, rfl, frameEq_refl _⟩

/-! ## One executor invocation of the read transfer phase -/

set_option maxHeartbeats 4000000 in
/-- One `esdi_callback` invocation of CMD_READ phase 1 on a present drive:
with a DMA budget below the remainder it suspends mid-transfer at the
advanced cursor having emitted exactly the next `dma_cap` stream words and
rescheduled `ESDI_TIME` plus this invocation's staging cost; with the
budget covering the remainder it emits the whole remainder and moves to
`cmd_state = 2` with the accrued staging cost as the new delay. -/
theorem esdi_callback_read_phase1 (env : Env) (dev : esdi_t) (cnt rba0 sp dp : Nat)
    (hin : dev.in_reset = false) (hc : dev.command = CMD_READ ∨ dev.command = 0x15)
    (hs : dev.cmd_state = 1)
    (hdev : dev.cmd_dev = ATTN_DEVICE_0 ∨ dev.cmd_dev = ATTN_DEVICE_1)
    (hp : (selDrive dev).present = true)
    (hctrl : ¬ dev.basic_ctrl &&& CTRL_DMA_ENA = 0)
    (ht : imgTotal env.img_read (selDrive dev).hdd_num)
    (htr : ∀ r, 0 ≤ env.timing_read (selDrive dev).hdd_num r 1)
    (hend : rba0 + cnt ≤ (selDrive dev).sectors)
    (hsp : dev.sector_pos = sp) (hdp : dev.data_pos = dp) (hsc : dev.sector_count = cnt)
    (hr : dev.rba = rba0 + sp)
    (hsple : sp ≤ cnt) (hdple : dp < 256) (hspcnt : sp = cnt → dp = 0)
    (hbuf : 0 < dp → dev.data = secW env.img_read (selDrive dev).hdd_num (rba0 + sp)) :
    (env.dma_cap < 256 * (cnt - sp) - dp →
      ∃ dev2 ops2, esdi_callback env dev = Except.ok (dev2, ops2,
          (remW env.img_read (selDrive dev).hdd_num (rba0 + sp) dp (cnt - sp)).take env.dma_cap) ∧
        dev2.sector_pos = sp + (dp + env.dma_cap) / 256 ∧
        dev2.data_pos = (dp + env.dma_cap) % 256 ∧
        dev2.rba = rba0 + (sp + (dp + env.dma_cap) / 256) ∧
        dev2.sector_count = cnt ∧
        dev2.data = secW env.img_read (selDrive dev).hdd_num
          (rba0 + (sp + (dp + env.dma_cap) / 256)) ∧
        dev2.timer = some (ESDI_TIME +
          timeR env.timing_read (selDrive dev).hdd_num (rba0 + sp) dp env.dma_cap (cnt - sp)) ∧
        frameEq dev dev2) ∧
    (256 * (cnt - sp) - dp ≤ env.dma_cap →
      ∃ dev2 ops2, esdi_callback env dev = Except.ok (dev2, ops2,
          remW env.img_read (selDrive dev).hdd_num (rba0 + sp) dp (cnt - sp)) ∧
        dev2.sector_pos = cnt ∧ dev2.data_pos = 0 ∧ dev2.rba = rba0 + cnt ∧
        dev2.sector_count = cnt ∧ dev2.cmd_state = 2 ∧
        dev2.status = STATUS_CMD_IN_PROGRESS ∧
        dev2.command = dev.command ∧ dev2.cmd_dev = dev.cmd_dev ∧
        dev2.in_reset = dev.in_reset ∧ dev2.basic_ctrl = dev.basic_ctrl ∧
        dev2.drives0 = dev.drives0 ∧ dev2.drives1 = dev.drives1 ∧
        dev2.status_pos = dev.status_pos ∧ dev2.status_len = dev.status_len ∧
        dev2.status_data = dev.status_data ∧
        dev2.irq_ena_disable = dev.irq_ena_disable ∧
        dev2.irq_in_progress = dev.irq_in_progress ∧
        dev2.irq_status = dev.irq_status) := by
  rcases hc with hc | hc <;> rcases hdev with hd | hd
  · simp only [selDrive, hd, ATTN_DEVICE_0, ATTN_DEVICE_1, reduceIte] at hp ht htr hend hbuf ⊢
    norm_num at hp ht htr hend hbuf ⊢
    refine ⟨fun hlt => ?_, fun hge => ?_⟩
    · simp only [esdi_callback]
      rw [if_neg (by simp [hin]), hc]
      norm_num [CMD_READ]
      rw [if_neg (by simp [driveOnlyFails, hd, ATTN_DEVICE_0, ATTN_DEVICE_1]),
        if_neg (by simp [selDrive, hd, ATTN_DEVICE_0, ATTN_DEVICE_1, hp]), hs]
      norm_num
      rw [if_neg (show ¬ ({dev with timer := none} : esdi_t).basic_ctrl &&& CTRL_DMA_ENA = 0 from hctrl),
        show selDrive {dev with command := 1, cmd_state := 1, timer := none} = dev.drives0 from by
          simp [selDrive, hd, ATTN_DEVICE_0, ATTN_DEVICE_1]]
      obtain ⟨dev2, ops2, heq, hp1, hp2, hp3, hp4, hp5, hp6, hp7⟩ :=
        (read_xfer_loop_run env dev.drives0 ht htr cnt rba0 hend
          (loopFuel {dev with command := 1, cmd_state := 1, timer := none}) sp dp
          {dev with command := 1, cmd_state := 1, timer := none}
          env.dma_cap 0 [] [] hsp hdp hsc hr hsple (by omega) hspcnt
          (fun h0 _ => hbuf h0) (le_refl 0)
          (show 257 * (cnt - sp) + (257 - dp) ≤ 257 * dev.sector_count + 600 from by
            rw [hsc]; omega)).1 hlt
      rw [heq]
      dsimp only [finishXfer]
      rw [List.nil_append]
      refine ⟨dev2, ⟨ops2, rfl⟩, hp1, hp2, hp3, hp4, hp5, ?_, ?_⟩
      · rw [hp6]; congr 1; ring
      · exact frameEq_trans
          (by constructor <;> first | rfl | exact hc.symm | exact hs.symm) hp7
    · simp only [esdi_callback]
      rw [if_neg (by simp [hin]), hc]
      norm_num [CMD_READ]
      rw [if_neg (by simp [driveOnlyFails, hd, ATTN_DEVICE_0, ATTN_DEVICE_1]),
        if_neg (by simp [selDrive, hd, ATTN_DEVICE_0, ATTN_DEVICE_1, hp]), hs]
      norm_num
      rw [if_neg (show ¬ ({dev with timer := none} : esdi_t).basic_ctrl &&& CTRL_DMA_ENA = 0 from hctrl),
        show selDrive {dev with command := 1, cmd_state := 1, timer := none} = dev.drives0 from by
          simp [selDrive, hd, ATTN_DEVICE_0, ATTN_DEVICE_1]]
      obtain ⟨dev2, ops2, heq, hp1, hp2, hp3, hp4, hp5, hp6⟩ :=
        (read_xfer_loop_run env dev.drives0 ht htr cnt rba0 hend
          (loopFuel {dev with command := 1, cmd_state := 1, timer := none}) sp dp
          {dev with command := 1, cmd_state := 1, timer := none}
          env.dma_cap 0 [] [] hsp hdp hsc hr hsple (by omega) hspcnt
          (fun h0 _ => hbuf h0) (le_refl 0)
          (show 257 * (cnt - sp) + (257 - dp) ≤ 257 * dev.sector_count + 600 from by
            rw [hsc]; omega)).2 (by omega)
      rw [heq]
      dsimp only [finishXfer]
      rw [List.nil_append]
      refine ⟨_, ⟨ops2, rfl⟩, ?_, ?_, ?_, ?_, ?_, ?_, ?_, ?_, ?_, ?_, ?_, ?_, ?_, ?_, ?_, ?_, ?_, ?_⟩ <;>
        simp [hp1, hp2, hp3, hp4, hp6.eCommand, hp6.eCmdDev, hp6.eInReset,
          hp6.eBasicCtrl, hp6.eDrives0, hp6.eDrives1, hp6.eStatusPos, hp6.eStatusLen,
          hp6.eStatusData, hp6.eIrqEna, hp6.eIrqProg, hp6.eIrqStatus, hd,
          ATTN_DEVICE_0, ATTN_DEVICE_1]
  · simp only [selDrive, hd, ATTN_DEVICE_0, ATTN_DEVICE_1, reduceIte] at hp ht htr hend hbuf ⊢
    norm_num at hp ht htr hend hbuf ⊢
    refine ⟨fun hlt => ?_, fun hge => ?_⟩
    · simp only [esdi_callback]
      rw [if_neg (by simp [hin]), hc]
      norm_num [CMD_READ]
      rw [if_neg (by simp [driveOnlyFails, hd, ATTN_DEVICE_0, ATTN_DEVICE_1]),
        if_neg (by simp [selDrive, hd, ATTN_DEVICE_0, ATTN_DEVICE_1, hp]), hs]
      norm_num
      rw [if_neg (show ¬ ({dev with timer := none} : esdi_t).basic_ctrl &&& CTRL_DMA_ENA = 0 from hctrl),
        show selDrive {dev with command := 1, cmd_state := 1, timer := none} = dev.drives1 from by
          simp [selDrive, hd, ATTN_DEVICE_0, ATTN_DEVICE_1]]
      obtain ⟨dev2, ops2, heq, hp1, hp2, hp3, hp4, hp5, hp6, hp7⟩ :=
        (read_xfer_loop_run env dev.drives1 ht htr cnt rba0 hend
          (loopFuel {dev with command := 1, cmd_state := 1, timer := none}) sp dp
          {dev with command := 1, cmd_state := 1, timer := none}
          env.dma_cap 0 [] [] hsp hdp hsc hr hsple (by omega) hspcnt
          (fun h0 _ => hbuf h0) (le_refl 0)
          (show 257 * (cnt - sp) + (257 - dp) ≤ 257 * dev.sector_count + 600 from by
            rw [hsc]; omega)).1 hlt
      rw [heq]
      dsimp only [finishXfer]
      rw [List.nil_append]
      refine ⟨dev2, ⟨ops2, rfl⟩, hp1, hp2, hp3, hp4, hp5, ?_, ?_⟩
      · rw [hp6]; congr 1; ring
      · exact frameEq_trans
          (by constructor <;> first | rfl | exact hc.symm | exact hs.symm) hp7
    · simp only [esdi_callback]
      rw [if_neg (by simp [hin]), hc]
      norm_num [CMD_READ]
      rw [if_neg (by simp [driveOnlyFails, hd, ATTN_DEVICE_0, ATTN_DEVICE_1]),
        if_neg (by simp [selDrive, hd, ATTN_DEVICE_0, ATTN_DEVICE_1, hp]), hs]
      norm_num
      rw [if_neg (show ¬ ({dev with timer := none} : esdi_t).basic_ctrl &&& CTRL_DMA_ENA = 0 from hctrl),
        show selDrive {dev with command := 1, cmd_state := 1, timer := none} = dev.drives1 from by
          simp [selDrive, hd, ATTN_DEVICE_0, ATTN_DEVICE_1]]
      obtain ⟨dev2, ops2, heq, hp1, hp2, hp3, hp4, hp5, hp6⟩ :=
        (read_xfer_loop_run env dev.drives1 ht htr cnt rba0 hend
          (loopFuel {dev with command := 1, cmd_state := 1, timer := none}) sp dp
          {dev with command := 1, cmd_state := 1, timer := none}
          env.dma_cap 0 [] [] hsp hdp hsc hr hsple (by omega) hspcnt
          (fun h0 _ => hbuf h0) (le_refl 0)
          (show 257 * (cnt - sp) + (257 - dp) ≤ 257 * dev.sector_count + 600 from by
            rw [hsc]; omega)).2 (by omega)
      rw [heq]
      dsimp only [finishXfer]
      rw [List.nil_append]
      refine ⟨_, ⟨ops2, rfl⟩, ?_, ?_, ?_, ?_, ?_, ?_, ?_, ?_, ?_, ?_, ?_, ?_, ?_, ?_, ?_, ?_, ?_, ?_⟩ <;>
        simp [hp1, hp2, hp3, hp4, hp6.eCommand, hp6.eCmdDev, hp6.eInReset,
          hp6.eBasicCtrl, hp6.eDrives0, hp6.eDrives1, hp6.eStatusPos, hp6.eStatusLen,
          hp6.eStatusData, hp6.eIrqEna, hp6.eIrqProg, hp6.eIrqStatus, hd,
          ATTN_DEVICE_0, ATTN_DEVICE_1]
  · simp only [selDrive, hd, ATTN_DEVICE_0, ATTN_DEVICE_1, reduceIte] at hp ht htr hend hbuf ⊢
    norm_num at hp ht htr hend hbuf ⊢
    refine ⟨fun hlt => ?_, fun hge => ?_⟩
    · simp only [esdi_callback]
      rw [if_neg (by simp [hin]), hc]
      norm_num [CMD_READ]
      rw [if_neg (by simp [driveOnlyFails, hd, ATTN_DEVICE_0, ATTN_DEVICE_1]),
        if_neg (by simp [selDrive, hd, ATTN_DEVICE_0, ATTN_DEVICE_1, hp]), hs]
      norm_num
      rw [if_neg (show ¬ ({dev with timer := none} : esdi_t).basic_ctrl &&& CTRL_DMA_ENA = 0 from hctrl),
        show selDrive {dev with command := 21, cmd_state := 1, timer := none} = dev.drives0 from by
          simp [selDrive, hd, ATTN_DEVICE_0, ATTN_DEVICE_1]]
      obtain ⟨dev2, ops2, heq, hp1, hp2, hp3, hp4, hp5, hp6, hp7⟩ :=
        (read_xfer_loop_run env dev.drives0 ht htr cnt rba0 hend
          (loopFuel {dev with command := 21, cmd_state := 1, timer := none}) sp dp
          {dev with command := 21, cmd_state := 1, timer := none}
          env.dma_cap 0 [] [] hsp hdp hsc hr hsple (by omega) hspcnt
          (fun h0 _ => hbuf h0) (le_refl 0)
          (show 257 * (cnt - sp) + (257 - dp) ≤ 257 * dev.sector_count + 600 from by
            rw [hsc]; omega)).1 hlt
      rw [heq]
      dsimp only [finishXfer]
      rw [List.nil_append]
      refine ⟨dev2, ⟨ops2, rfl⟩, hp1, hp2, hp3, hp4, hp5, ?_, ?_⟩
      · rw [hp6]; congr 1; ring
      · exact frameEq_trans
          (by constructor <;> first | rfl | exact hc.symm | exact hs.symm) hp7
    · simp only [esdi_callback]
      rw [if_neg (by simp [hin]), hc]
      norm_num [CMD_READ]
      rw [if_neg (by simp [driveOnlyFails, hd, ATTN_DEVICE_0, ATTN_DEVICE_1]),
        if_neg (by simp [selDrive, hd, ATTN_DEVICE_0, ATTN_DEVICE_1, hp]), hs]
      norm_num
      rw [if_neg (show ¬ ({dev with timer := none} : esdi_t).basic_ctrl &&& CTRL_DMA_ENA = 0 from hctrl),
        show selDrive {dev with command := 21, cmd_state := 1, timer := none} = dev.drives0 from by
          simp [selDrive, hd, ATTN_DEVICE_0, ATTN_DEVICE_1]]
      obtain ⟨dev2, ops2, heq, hp1, hp2, hp3, hp4, hp5, hp6⟩ :=
        (read_xfer_loop_run env dev.drives0 ht htr cnt rba0 hend
          (loopFuel {dev with command := 21, cmd_state := 1, timer := none}) sp dp
          {dev with command := 21, cmd_state := 1, timer := none}
          env.dma_cap 0 [] [] hsp hdp hsc hr hsple (by omega) hspcnt
          (fun h0 _ => hbuf h0) (le_refl 0)
          (show 257 * (cnt - sp) + (257 - dp) ≤ 257 * dev.sector_count + 600 from by
            rw [hsc]; omega)).2 (by omega)
      rw [heq]
      dsimp only [finishXfer]
      rw [List.nil_append]
      refine ⟨_, ⟨ops2, rfl⟩, ?_, ?_, ?_, ?_, ?_, ?_, ?_, ?_, ?_, ?_, ?_, ?_, ?_, ?_, ?_, ?_, ?_, ?_⟩ <;>
        simp [hp1, hp2, hp3, hp4, hp6.eCommand, hp6.eCmdDev, hp6.eInReset,
          hp6.eBasicCtrl, hp6.eDrives0, hp6.eDrives1, hp6.eStatusPos, hp6.eStatusLen,
          hp6.eStatusData, hp6.eIrqEna, hp6.eIrqProg, hp6.eIrqStatus, hd,
          ATTN_DEVICE_0, ATTN_DEVICE_1]
  · simp only [selDrive, hd, ATTN_DEVICE_0, ATTN_DEVICE_1, reduceIte] at hp ht htr hend hbuf ⊢
    norm_num at hp ht htr hend hbuf ⊢
    refine ⟨fun hlt => ?_, fun hge => ?_⟩
    · simp only [esdi_callback]
      rw [if_neg (by simp [hin]), hc]
      norm_num [CMD_READ]
      rw [if_neg (by simp [driveOnlyFails, hd, ATTN_DEVICE_0, ATTN_DEVICE_1]),
        if_neg (by simp [selDrive, hd, ATTN_DEVICE_0, ATTN_DEVICE_1, hp]), hs]
      norm_num
      rw [if_neg (show ¬ ({dev with timer := none} : esdi_t).basic_ctrl &&& CTRL_DMA_ENA = 0 from hctrl),
        show selDrive {dev with command := 21, cmd_state := 1, timer := none} = dev.drives1 from by
          simp [selDrive, hd, ATTN_DEVICE_0, ATTN_DEVICE_1]]
      obtain ⟨dev2, ops2, heq, hp1, hp2, hp3, hp4, hp5, hp6, hp7⟩ :=
        (read_xfer_loop_run env dev.drives1 ht htr cnt rba0 hend
          (loopFuel {dev with command := 21, cmd_state := 1, timer := none}) sp dp
          {dev with command := 21, cmd_state := 1, timer := none}
          env.dma_cap 0 [] [] hsp hdp hsc hr hsple (by omega) hspcnt
          (fun h0 _ => hbuf h0) (le_refl 0)
          (show 257 * (cnt - sp) + (257 - dp) ≤ 257 * dev.sector_count + 600 from by
            rw [hsc]; omega)).1 hlt
      rw [heq]
      dsimp only [finishXfer]
      rw [List.nil_append]
      refine ⟨dev2, ⟨ops2, rfl⟩, hp1, hp2, hp3, hp4, hp5, ?_, ?_⟩
      · rw [hp6]; congr 1; ring
      · exact frameEq_trans
          (by constructor <;> first | rfl | exact hc.symm | exact hs.symm) hp7
    · simp only [esdi_callback]
      rw [if_neg (by simp [hin]), hc]
      norm_num [CMD_READ]
      rw [if_neg (by simp [driveOnlyFails, hd, ATTN_DEVICE_0, ATTN_DEVICE_1]),
        if_neg (by simp [selDrive, hd, ATTN_DEVICE_0, ATTN_DEVICE_1, hp]), hs]
      norm_num
      rw [if_neg (show ¬ ({dev with timer := none} : esdi_t).basic_ctrl &&& CTRL_DMA_ENA = 0 from hctrl),
        show selDrive {dev with command := 21, cmd_state := 1, timer := none} = dev.drives1 from by
          simp [selDrive, hd, ATTN_DEVICE_0, ATTN_DEVICE_1]]
      obtain ⟨dev2, ops2, heq, hp1, hp2, hp3, hp4, hp5, hp6⟩ :=
        (read_xfer_loop_run env dev.drives1 ht htr cnt rba0 hend
          (loopFuel {dev with command := 21, cmd_state := 1, timer := none}) sp dp
          {dev with command := 21, cmd_state := 1, timer := none}
          env.dma_cap 0 [] [] hsp hdp hsc hr hsple (by omega) hspcnt
          (fun h0 _ => hbuf h0) (le_refl 0)
          (show 257 * (cnt - sp) + (257 - dp) ≤ 257 * dev.sector_count + 600 from by
            rw [hsc]; omega)).2 (by omega)
      rw [heq]
      dsimp only [finishXfer]
      rw [List.nil_append]
      refine ⟨_, ⟨ops2, rfl⟩, ?_, ?_, ?_, ?_, ?_, ?_, ?_, ?_, ?_, ?_, ?_, ?_, ?_, ?_, ?_, ?_, ?_, ?_⟩ <;>
        simp [hp1, hp2, hp3, hp4, hp6.eCommand, hp6.eCmdDev, hp6.eInReset,
          hp6.eBasicCtrl, hp6.eDrives0, hp6.eDrives1, hp6.eStatusPos, hp6.eStatusLen,
          hp6.eStatusData, hp6.eIrqEna, hp6.eIrqProg, hp6.eIrqStatus, hd,
          ATTN_DEVICE_0, ATTN_DEVICE_1]

/-! ## Driving the transfer phase invocation by invocation -/

@[simp] theorem env_cap_img (env : Env) (c : Nat) :
    ({env with dma_cap := c} : Env).img_read = env.img_read := rfl

@[simp] theorem env_cap_timing (env : Env) (c : Nat) :
    ({env with dma_cap := c} : Env).timing_read = env.timing_read := rfl

@[simp] theorem env_cap_cap (env : Env) (c : Nat) :
    ({env with dma_cap := c} : Env).dma_cap = c := rfl

@[simp] theorem env_data_img (env : Env) (d : List Nat) :
    ({env with dma_data := d} : Env).img_read = env.img_read := rfl

@[simp] theorem env_data_wok (env : Env) (d : List Nat) :
    ({env with dma_data := d} : Env).img_write_ok = env.img_write_ok := rfl

@[simp] theorem env_data_timing (env : Env) (d : List Nat) :
    ({env with dma_data := d} : Env).timing_write = env.timing_write := rfl

@[simp] theorem env_data_data (env : Env) (d : List Nat) :
    ({env with dma_data := d} : Env).dma_data = d := rfl

theorem selDrive_frame {a b : esdi_t} (h : frameEq a b) : selDrive b = selDrive a := by
  unfold selDrive
  rw [h.eCmdDev, h.eDrives0, h.eDrives1]

/-- Run the executor once per entry of `caps`, the invocation seeing that
entry as its DMA word budget, while the adapter remains in a phase-1 state
with a scheduled callback; the image operations and emitted DMA words of the
invocations are concatenated. -/
def runPhase1R (env : Env) : List Nat → esdi_t → Except Fatal (esdi_t × List ImgOp × List Nat)
  | [], dev => Except.ok (dev, [], [])
  | c :: cs, dev =>
    if dev.cmd_state = 1 ∧ dev.timer ≠ none then
      match esdi_callback {env with dma_cap := c} dev with
      | Except.error f => Except.error f
      | Except.ok (dev2, ops, out) =>
        match runPhase1R env cs dev2 with
        | Except.error f => Except.error f
        | Except.ok (dev3, ops2, out2) => Except.ok (dev3, ops ++ ops2, out ++ out2)
    else Except.ok (dev, [], [])

theorem runPhase1R_stop (env : Env) (cs : List Nat) (dev : esdi_t)
    (h : ¬ dev.cmd_state = 1) :
    runPhase1R env cs dev = Except.ok (dev, [], []) := by
  cases cs with
  | nil => rfl
  | cons c cs =>
    rw [runPhase1R, if_neg (fun hcon => h hcon.1)]

set_option maxHeartbeats 4000000 in
/-- Running the read transfer phase across suspensions: any schedule of DMA
budgets whose total covers the remaining words drives the transfer from an
arbitrary mid-transfer cursor to completion, emitting exactly the remaining
image stream with no word duplicated or skipped, and leaves the adapter in
`cmd_state = 2` with `rba` one past the last block. -/
theorem runPhase1R_read (env : Env) (cnt rba0 : Nat) :
    ∀ (caps : List Nat) (sp dp : Nat) (dev : esdi_t),
      dev.in_reset = false → (dev.command = CMD_READ ∨ dev.command = 0x15) →
      dev.cmd_state = 1 →
      (dev.cmd_dev = ATTN_DEVICE_0 ∨ dev.cmd_dev = ATTN_DEVICE_1) →
      (selDrive dev).present = true →
      ¬ dev.basic_ctrl &&& CTRL_DMA_ENA = 0 →
      imgTotal env.img_read (selDrive dev).hdd_num →
      (∀ r, 0 ≤ env.timing_read (selDrive dev).hdd_num r 1) →
      rba0 + cnt ≤ (selDrive dev).sectors →
      dev.sector_pos = sp → dev.data_pos = dp → dev.sector_count = cnt →
      dev.rba = rba0 + sp →
      sp ≤ cnt → dp < 256 → (sp = cnt → dp = 0) →
      (0 < dp → dev.data = secW env.img_read (selDrive dev).hdd_num (rba0 + sp)) →
      dev.timer ≠ none →
      0 < 256 * (cnt - sp) - dp →
      256 * (cnt - sp) - dp ≤ caps.sum →
      ∃ dev2 ops2, runPhase1R env caps dev = Except.ok (dev2, ops2,
          remW env.img_read (selDrive dev).hdd_num (rba0 + sp) dp (cnt - sp)) ∧
        dev2.cmd_state = 2 ∧ dev2.rba = rba0 + cnt ∧ dev2.sector_count = cnt ∧
        dev2.status = STATUS_CMD_IN_PROGRESS ∧
        dev2.command = dev.command ∧ dev2.cmd_dev = dev.cmd_dev ∧
        dev2.in_reset = dev.in_reset ∧ dev2.basic_ctrl = dev.basic_ctrl ∧
        dev2.drives0 = dev.drives0 ∧ dev2.drives1 = dev.drives1 := by
  intro caps
  induction caps with
  | nil =>
    intro sp dp dev hin hc hs hdev hp hctrl ht htr hend hsp hdp hsc hr hsple hdple
      hspcnt hbuf htm hrem hsum
    rw [List.sum_nil] at hsum
    omega
  | cons c cs ih =>
    intro sp dp dev hin hc hs hdev hp hctrl ht htr hend hsp hdp hsc hr hsple hdple
      hspcnt hbuf htm hrem hsum
    rw [List.sum_cons] at hsum
    rw [runPhase1R, if_pos ⟨hs, htm⟩]
    have HCB := esdi_callback_read_phase1 {env with dma_cap := c} dev cnt rba0 sp dp
      hin hc hs hdev hp hctrl ht htr hend hsp hdp hsc hr hsple hdple hspcnt hbuf
    by_cases hcase : c < 256 * (cnt - sp) - dp
    · obtain ⟨dev2, ops2, heq, hq1, hq2, hq3, hq4, hq5, hq6, hq7⟩ := HCB.1 hcase
      clear HCB
      rw [heq]
      dsimp only
      have hsel : selDrive dev2 = selDrive dev := selDrive_frame hq7
      have e3 : rba0 + (sp + (dp + c) / 256) = rba0 + sp + (dp + c) / 256 := by
        clear ih; omega
      have e4 : cnt - (sp + (dp + c) / 256) = cnt - sp - (dp + c) / 256 := by
        clear ih; omega
      have hadv := remW_advance ht (rba0 + sp) dp (cnt - sp) c (by clear ih; omega)
      obtain ⟨dev3, ops3, heq2, hr1, hr2, hr3, hr4, hr5, hr6, hr7, hr8, hr9, hr10⟩ :=
        ih (sp + (dp + c) / 256) ((dp + c) % 256) dev2
          (hq7.eInReset.trans hin) (by rw [hq7.eCommand]; exact hc) (hq7.eCmdState.trans hs)
          (by rw [hq7.eCmdDev]; exact hdev) (by rw [hsel]; exact hp)
          (by rw [hq7.eBasicCtrl]; exact hctrl) (by rw [hsel]; exact ht)
          (by rw [hsel]; exact htr) (by rw [hsel]; exact hend)
          hq1 hq2 hq4 hq3
          (by clear ih; omega) (by clear ih; omega) (by clear ih; omega)
          (fun _ => by rw [hsel]; exact hq5) (by rw [hq6]; simp)
          (by clear ih; omega) (by clear ih; omega)
      rw [heq2]
      dsimp only
      have hout2 : remW env.img_read (selDrive dev2).hdd_num
          (rba0 + (sp + (dp + c) / 256)) ((dp + c) % 256) (cnt - (sp + (dp + c) / 256)) =
          (remW env.img_read (selDrive dev).hdd_num (rba0 + sp) dp (cnt - sp)).drop c := by
        rw [hsel, e3, e4]
        exact hadv
      refine ⟨dev3, ops2 ++ ops3, ?_, hr1, hr2, hr3, hr4, hr5.trans hq7.eCommand,
        hr6.trans hq7.eCmdDev, hr7.trans hq7.eInReset, hr8.trans hq7.eBasicCtrl,
        hr9.trans hq7.eDrives0, hr10.trans hq7.eDrives1⟩
      rw [hout2, List.take_append_drop]
    · obtain ⟨dev2, ops2, heq, hq1, hq2, hq3, hq4, hq5, hq6, hq7, hq8, hq9, hq10,
        hq11, hq12, hq13, hq14, hq15, hq16, hq17, hq18⟩ :=
        HCB.2 (by clear ih; show 256 * (cnt - sp) - dp ≤ c; omega)
      clear HCB
      rw [heq]
      dsimp only
      rw [runPhase1R_stop env cs dev2 (by rw [hq5]; omega)]
      dsimp only
      refine ⟨dev2, ops2, ?_, hq5, hq3, hq4, hq6, hq7, hq8, hq9, hq10, hq11, hq12⟩
      rw [List.append_nil, List.append_nil]

/-! ## The write transfer loop: committed sectors and staging algebra -/

/-- the sectors the write loop commits while consuming the word stream
`inp`, when the staging buffer already holds the `u16`-narrowed prefix
`pref` of the current sector and `m` sectors are left: a sector is
committed exactly when its staging reaches 256 words -/
def chunkW (h : Nat) : Nat → List Nat → List Nat → Nat → List ImgOp
  | _, _, _, 0 => []
  | r, pref, inp, m + 1 =>
    if 256 - pref.length ≤ inp.length then
      ImgOp.wr h r (pref ++ (inp.take (256 - pref.length)).map u16) ::
        chunkW h (r + 1) [] (inp.drop (256 - pref.length)) m
    else []

/-- the commit cost the write loop accrues while consuming `ln` stream
words from `dp` words into sector `r` with `m` sectors left -/
def timeW (tm : Nat → Nat → Nat → ℚ) (h : Nat) : Nat → Nat → Nat → Nat → ℚ
  | _, _, _, 0 => 0
  | r, dp, ln, m + 1 =>
    if 256 - dp ≤ ln then
      tm h r 1 + esdi_mca_get_xfer_time 1 + timeW tm h (r + 1) 0 (ln - (256 - dp)) m
    else 0

theorem take_set_succ {α : Type} :
    ∀ (l : List α) (n : Nat) (x : α), n < l.length →
      (l.set n x).take (n + 1) = l.take n ++ [x]
  | [], n, x, h => absurd h (by simp)
  | a :: l, 0, x, _ => by simp
  | a :: l, n + 1, x, h => by
    show a :: (l.set n x).take (n + 1) = a :: l.take n ++ [x]
    rw [take_set_succ l n x (by simpa using h)]
    rfl

theorem chunkW_word (h : Nat) (r : Nat) (pref : List Nat) (v : Nat) (inp : List Nat)
    (m : Nat) (hlen : pref.length < 256) :
    chunkW h r pref (v :: inp) m = chunkW h r (pref ++ [u16 v]) inp m := by
  cases m with
  | zero => rfl
  | succ m =>
    show (if 256 - pref.length ≤ (v :: inp).length then
        ImgOp.wr h r (pref ++ ((v :: inp).take (256 - pref.length)).map u16) ::
          chunkW h (r + 1) [] ((v :: inp).drop (256 - pref.length)) m
      else []) = _
    rw [show chunkW h r (pref ++ [u16 v]) inp (m + 1) =
      (if 256 - (pref ++ [u16 v]).length ≤ inp.length then
        ImgOp.wr h r ((pref ++ [u16 v]) ++ (inp.take (256 - (pref ++ [u16 v]).length)).map u16) ::
          chunkW h (r + 1) [] (inp.drop (256 - (pref ++ [u16 v]).length)) m
      else []) from rfl]
    rw [List.length_append, List.length_cons, List.length_singleton]
    by_cases hle : 256 - pref.length ≤ inp.length + 1
    · rw [if_pos hle, if_pos (show 256 - (pref.length + 1) ≤ inp.length by omega)]
      rw [show (256 - pref.length) = (256 - (pref.length + 1)) + 1 by omega]
      rw [List.take_succ_cons, List.drop_succ_cons, List.map_cons]
      rw [List.append_assoc]
      rfl
    · rw [if_neg hle, if_neg (show ¬ 256 - (pref.length + 1) ≤ inp.length by omega)]

theorem chunkW_commit (h : Nat) (r : Nat) (pref : List Nat) (inp : List Nat)
    (m : Nat) (hlen : pref.length = 256) :
    chunkW h r pref inp (m + 1) = ImgOp.wr h r pref :: chunkW h (r + 1) [] inp m := by
  show (if 256 - pref.length ≤ inp.length then
      ImgOp.wr h r (pref ++ (inp.take (256 - pref.length)).map u16) ::
        chunkW h (r + 1) [] (inp.drop (256 - pref.length)) m
    else []) = _
  rw [hlen, if_pos (by omega), Nat.sub_self, List.take_zero, List.drop_zero,
    List.map_nil, List.append_nil]

theorem chunkW_empty (h : Nat) (r : Nat) (pref : List Nat) (m : Nat)
    (hlen : 0 < 256 - pref.length) :
    chunkW h r pref [] m = [] := by
  cases m with
  | zero => rfl
  | succ m =>
    show (if 256 - pref.length ≤ ([] : List Nat).length then _ else []) = ([] : List ImgOp)
    rw [if_neg (by simp; omega)]

theorem timeW_word (tm : Nat → Nat → Nat → ℚ) (h r dp c m : Nat) (hdp : dp < 256) :
    timeW tm h r dp (c + 1) m = timeW tm h r (dp + 1) c m := by
  cases m with
  | zero => rfl
  | succ m =>
    show (if 256 - dp ≤ c + 1 then
        tm h r 1 + esdi_mca_get_xfer_time 1 + timeW tm h (r + 1) 0 (c + 1 - (256 - dp)) m
      else 0) =
      (if 256 - (dp + 1) ≤ c then
        tm h r 1 + esdi_mca_get_xfer_time 1 + timeW tm h (r + 1) 0 (c - (256 - (dp + 1))) m
      else 0)
    by_cases hle : 256 - dp ≤ c + 1
    · rw [if_pos hle, if_pos (show 256 - (dp + 1) ≤ c by omega),
        show c + 1 - (256 - dp) = c - (256 - (dp + 1)) by omega]
    · rw [if_neg hle, if_neg (show ¬ 256 - (dp + 1) ≤ c by omega)]

theorem timeW_commit (tm : Nat → Nat → Nat → ℚ) (h r ln m : Nat) :
    timeW tm h r 256 ln (m + 1) =
      tm h r 1 + esdi_mca_get_xfer_time 1 + timeW tm h (r + 1) 0 ln m := by
  show (if 256 - 256 ≤ ln then
      tm h r 1 + esdi_mca_get_xfer_time 1 + timeW tm h (r + 1) 0 (ln - (256 - 256)) m
    else 0) = _
  rw [if_pos (by omega), Nat.sub_self, Nat.sub_zero]

theorem timeW_empty (tm : Nat → Nat → Nat → ℚ) (h r dp m : Nat) (hdp : dp < 256) :
    timeW tm h r dp 0 m = 0 := by
  cases m with
  | zero => rfl
  | succ m =>
    show (if 256 - dp ≤ 0 then _ else 0) = (0 : ℚ)
    rw [if_neg (by omega)]

theorem timeW_nonneg (tm : Nat → Nat → Nat → ℚ) (h : Nat)
    (hnn : ∀ r, 0 ≤ tm h r 1) : ∀ m r dp ln, 0 ≤ timeW tm h r dp ln m
  | 0, _, _, _ => le_refl 0
  | m + 1, r, dp, ln => by
    show 0 ≤ if 256 - dp ≤ ln then
        tm h r 1 + esdi_mca_get_xfer_time 1 + timeW tm h (r + 1) 0 (ln - (256 - dp)) m
      else 0
    have h1 := hnn r
    have h2 := xferT_nonneg
    have h3 := timeW_nonneg tm h hnn m (r + 1) 0 (ln - (256 - dp))
    split <;> linarith

set_option maxHeartbeats 4000000 in
/-- One run of the write loop from an arbitrary mid-transfer cursor: with a
stream shorter than the remaining word count it suspends at the advanced
cursor having committed exactly the fully staged sectors, the staging
buffer holding the consumed prefix of the current sector narrowed to 16
bits; with a stream covering the remainder it commits all remaining
sectors and falls out of the `while`. -/
theorem write_xfer_loop_run (env : Env) (drive : drive_t)
    (hw : ∀ r, env.img_write_ok drive.hdd_num r = true)
    (htw : ∀ r, 0 ≤ env.timing_write drive.hdd_num r 1)
    (cnt rba0 : Nat) (hend : rba0 + cnt ≤ drive.sectors) :
    ∀ fuel sp dp (dev : esdi_t) (inp : List Nat) (t : ℚ) (ops : List ImgOp),
      dev.sector_pos = sp → dev.data_pos = dp → dev.sector_count = cnt →
      dev.rba = rba0 + sp → dev.data.length = 256 →
      sp ≤ cnt → dp ≤ 256 → (sp = cnt → dp = 0) →
      0 ≤ t →
      257 * (cnt - sp) + (257 - dp) ≤ fuel →
      ((inp.length < 256 * (cnt - sp) - dp →
        ∃ dev2, write_xfer_loop env drive fuel dev inp t ops =
            Except.ok (XRes.suspend dev2
              (ops ++ chunkW drive.hdd_num (rba0 + sp) (dev.data.take dp) inp (cnt - sp))
              []) ∧
          dev2.sector_pos = sp + (dp + inp.length) / 256 ∧
          dev2.data_pos = (dp + inp.length) % 256 ∧
          dev2.rba = rba0 + (sp + (dp + inp.length) / 256) ∧
          dev2.sector_count = cnt ∧
          dev2.data.length = 256 ∧
          dev2.data.take ((dp + inp.length) % 256) =
            (dev.data.take dp ++ inp.map u16).drop (256 * ((dp + inp.length) / 256)) ∧
          dev2.timer = some (ESDI_TIME + t +
            timeW env.timing_write drive.hdd_num (rba0 + sp) dp inp.length (cnt - sp)) ∧
          frameEq dev dev2) ∧
      (256 * (cnt - sp) - dp ≤ inp.length →
        ∃ dev2, write_xfer_loop env drive fuel dev inp t ops =
            Except.ok (XRes.done dev2
              (t + timeW env.timing_write drive.hdd_num (rba0 + sp) dp inp.length (cnt - sp))
              (ops ++ chunkW drive.hdd_num (rba0 + sp) (dev.data.take dp) inp (cnt - sp))
              []) ∧
          dev2.sector_pos = cnt ∧ dev2.data_pos = 0 ∧
          dev2.rba = rba0 + cnt ∧ dev2.sector_count = cnt ∧
          dev2.timer = dev.timer ∧ frameEq dev dev2)) := by
  intro fuel
  induction fuel with
  | zero =>
    intro sp dp dev inp t ops hsp hdp hsc hr hlen hsple hdple hspcnt ht0 hfuel
    omega
  | succ fuel ih =>
    intro sp dp dev inp t ops hsp hdp hsc hr hlen hsple hdple hspcnt ht0 hfuel
    obtain ⟨dma, bc, st, iqs, iqe, iqp, crp, cpos, cdat, cdev, stpos, stlen, stdat,
      dpos, dta, sbuf, spos, scnt, cmd, cst, inr, rb, d0, d1, prg, il, tmr⟩ := dev
    dsimp only at hsp hdp hsc hr hlen
    replace hsp := hsp.symm
    replace hdp := hdp.symm
    replace hsc := hsc.symm
    subst hsp
    subst hdp
    subst hsc
    subst hr
    rw [write_xfer_loop.eq_def]
    dsimp only
    refine ⟨fun hlt => ?_, fun hge => ?_⟩
    · -- the stream runs out before the remainder: suspension
      have hscnt : sp < cnt := by omega
      have hm : cnt - sp = (cnt - sp - 1) + 1 := by omega
      rw [if_pos hscnt]
      by_cases hdp256 : dp < 256
      · rw [if_pos hdp256]
        have hpl : (dta.take dp).length = dp := by
          rw [List.length_take]; omega
        cases inp with
        | nil =>
          have hne : ESDI_TIME + t ≠ 0 := by
            rw [ESDI_TIME]; intro hcon; linarith
          simp only [List.length_nil]
          rw [show chunkW drive.hdd_num (rba0 + sp) (dta.take dp) [] (cnt - sp) = []
              from chunkW_empty _ _ _ _ (by omega), List.append_nil]
          refine ⟨_, rfl, ?_, ?_, ?_, ?_, ?_, ?_, ?_, ?_⟩
          · simp only [set_cb_sector_pos]; omega
          · simp only [set_cb_data_pos]; omega
          · simp only [set_cb_rba]; omega
          · simp only [set_cb_sector_count]
          · simp only [set_cb_data]; exact hlen
          · simp only [set_cb_data]
            rw [show (dp + 0) % 256 = dp from by omega,
              List.map_nil, List.append_nil,
              show 256 * ((dp + 0) / 256) = 0 from by omega,
              List.drop_zero]
          · rw [set_cb_timer_pos _ _ hne, timeW_empty _ _ _ _ _ hdp256, add_zero]
          · exact frameEq_set_callback _ (frameEq_refl _)
        | cons v inp2 =>
          dsimp only
          have H := ih sp (dp + 1)
            ⟨dma, bc, st, iqs, iqe, iqp, crp, cpos, cdat, cdev, stpos, stlen, stdat,
              dp + 1, dta.set dp (u16 v), sbuf, sp, cnt, cmd, cst, inr, rba0 + sp,
              d0, d1, prg, il, tmr⟩
            inp2 t ops
            rfl rfl rfl rfl (by simp [hlen]) (by omega) (by omega) (by omega)
            ht0 (by omega)
          have hside : inp2.length < 256 * (cnt - sp) - (dp + 1) := by
            clear H ih; simp only [List.length_cons] at hlt; omega
          obtain ⟨dev2, heq, hp1, hp2, hp3, hp4, hp5, hp6, hp7, hp8⟩ := H.1 hside
          clear H
          have hops : chunkW drive.hdd_num (rba0 + sp) (dta.take dp) (v :: inp2) (cnt - sp) =
              chunkW drive.hdd_num (rba0 + sp) ((dta.set dp (u16 v)).take (dp + 1)) inp2 (cnt - sp) := by
            rw [chunkW_word _ _ _ _ _ _ (by omega), take_set_succ dta dp (u16 v) (by omega)]
          refine ⟨dev2, ?_, ?_, ?_, ?_, hp4, hp5, ?_, ?_, ?_⟩
          · rw [hops]; exact heq
          · rw [hp1]; simp only [List.length_cons]; clear ih; omega
          · rw [hp2]; simp only [List.length_cons]; clear ih; omega
          · rw [hp3]; congr 1; simp only [List.length_cons]; clear ih; omega
          · rw [show ((dp + (v :: inp2).length) % 256) = ((dp + 1 + inp2.length) % 256) from by
              simp only [List.length_cons]; clear ih; omega]
            rw [show (256 * ((dp + (v :: inp2).length) / 256)) = (256 * ((dp + 1 + inp2.length) / 256)) from by
              simp only [List.length_cons]; clear ih; omega]
            rw [hp6, take_set_succ dta dp (u16 v) (by omega), List.map_cons, List.append_assoc]
            rfl
          · rw [hp7, show (v :: inp2).length = inp2.length + 1 from rfl,
              show timeW env.timing_write drive.hdd_num (rba0 + sp) dp (inp2.length + 1) (cnt - sp) =
                timeW env.timing_write drive.hdd_num (rba0 + sp) (dp + 1) inp2.length (cnt - sp)
              from timeW_word _ _ _ _ _ _ hdp256]
          · exact frameEq_trans (by constructor <;> rfl) hp8
      · have hdpe : dp = 256 := by omega
        subst hdpe
        rw [if_neg (show ¬(256 : Nat) < 256 by omega),
          if_neg (show ¬ rba0 + sp ≥ drive.sectors from by omega),
          if_pos (hw (rba0 + sp))]
        have e1 : rba0 + sp + 1 = rba0 + (sp + 1) := by omega
        have e2 : cnt - sp - 1 = cnt - (sp + 1) := by omega
        have htL : (0 : ℚ) ≤ t + env.timing_write drive.hdd_num (rba0 + sp) 1 +
            esdi_mca_get_xfer_time 1 := by
          have h1 := htw (rba0 + sp); have h2 := xferT_nonneg; linarith
        have H := ih (sp + 1) 0
          ⟨dma, bc, st, iqs, iqe, iqp, crp, cpos, cdat, cdev, stpos, stlen, stdat,
            0, dta, sbuf, sp + 1, cnt, cmd, cst, inr, rba0 + (sp + 1), d0, d1, prg, il, tmr⟩
          inp (t + env.timing_write drive.hdd_num (rba0 + sp) 1 + esdi_mca_get_xfer_time 1)
          (ops ++ [ImgOp.wr drive.hdd_num (rba0 + sp) dta])
          rfl rfl rfl rfl hlen (by omega) (by omega) (fun _ => rfl)
          htL (by omega)
        have hside : inp.length < 256 * (cnt - (sp + 1)) - 0 := by clear H ih; omega
        obtain ⟨dev2, heq, hp1, hp2, hp3, hp4, hp5, hp6, hp7, hp8⟩ := H.1 hside
        clear H
        have hops : ops ++ chunkW drive.hdd_num (rba0 + sp) (dta.take 256) inp (cnt - sp) =
            (ops ++ [ImgOp.wr drive.hdd_num (rba0 + sp) dta]) ++
              chunkW drive.hdd_num (rba0 + (sp + 1)) (dta.take 0) inp (cnt - (sp + 1)) := by
          rw [hm, chunkW_commit _ _ _ _ _ (by rw [List.length_take]; omega),
            show dta.take 256 = dta from by rw [← hlen]; exact List.take_length dta,
            List.take_zero, e1, e2, List.append_assoc]
          rfl
        refine ⟨dev2, ?_, ?_, ?_, ?_, hp4, hp5, ?_, ?_, ?_⟩
        · rw [hops]; exact heq
        · rw [hp1]; clear ih; omega
        · rw [hp2]; clear ih; omega
        · rw [hp3]; congr 1; clear ih; omega
        · rw [show ((256 + inp.length) % 256) = ((0 + inp.length) % 256) from by clear ih; omega,
            hp6, List.take_zero, List.nil_append,
            show dta.take 256 = dta from by rw [← hlen]; exact List.take_length dta,
            show (256 * ((256 + inp.length) / 256)) = dta.length + 256 * ((0 + inp.length) / 256) from by
              rw [hlen]; clear ih; omega,
            List.drop_append]
        · rw [hp7]
          congr 1
          rw [show timeW env.timing_write drive.hdd_num (rba0 + sp) 256 inp.length (cnt - sp) =
              env.timing_write drive.hdd_num (rba0 + sp) 1 + esdi_mca_get_xfer_time 1 +
                timeW env.timing_write drive.hdd_num (rba0 + (sp + 1)) 0 inp.length (cnt - (sp + 1))
            from by rw [hm, timeW_commit, e1, e2]]
          ring
        · exact frameEq_trans (by constructor <;> rfl) hp8
    · -- the stream covers the remainder: the loop completes
      by_cases hscnt : sp < cnt
      · have hm : cnt - sp = (cnt - sp - 1) + 1 := by omega
        rw [if_pos hscnt]
        by_cases hdp256 : dp < 256
        · rw [if_pos hdp256]
          have hpl : (dta.take dp).length = dp := by
            rw [List.length_take]; omega
          cases inp with
          | nil => exact absurd hge (by simp; omega)
          | cons v inp2 =>
            dsimp only
            have H := ih sp (dp + 1)
              ⟨dma, bc, st, iqs, iqe, iqp, crp, cpos, cdat, cdev, stpos, stlen, stdat,
                dp + 1, dta.set dp (u16 v), sbuf, sp, cnt, cmd, cst, inr, rba0 + sp,
                d0, d1, prg, il, tmr⟩
              inp2 t ops
              rfl rfl rfl rfl (by simp [hlen]) (by omega) (by omega) (by omega)
              ht0 (by omega)
            have hside : 256 * (cnt - sp) - (dp + 1) ≤ inp2.length := by
              clear H ih; simp only [List.length_cons] at hge; omega
            obtain ⟨dev2, heq, hp1, hp2, hp3, hp4, hp5, hp6⟩ := H.2 hside
            clear H
            have hops : chunkW drive.hdd_num (rba0 + sp) (dta.take dp) (v :: inp2) (cnt - sp) =
                chunkW drive.hdd_num (rba0 + sp) ((dta.set dp (u16 v)).take (dp + 1)) inp2 (cnt - sp) := by
              rw [chunkW_word _ _ _ _ _ _ (by omega), take_set_succ dta dp (u16 v) (by omega)]
            have htime : t + timeW env.timing_write drive.hdd_num (rba0 + sp) dp
                ((v :: inp2).length) (cnt - sp) =
                t + timeW env.timing_write drive.hdd_num (rba0 + sp) (dp + 1) inp2.length (cnt - sp) := by
              rw [show (v :: inp2).length = inp2.length + 1 from rfl,
                timeW_word _ _ _ _ _ _ hdp256]
            refine ⟨dev2, ?_, hp1, hp2, hp3, hp4, hp5, ?_⟩
            · rw [hops, htime]; exact heq
            · exact frameEq_trans (by constructor <;> rfl) hp6
        · have hdpe : dp = 256 := by omega
          subst hdpe
          rw [if_neg (show ¬(256 : Nat) < 256 by omega),
            if_neg (show ¬ rba0 + sp ≥ drive.sectors from by omega),
            if_pos (hw (rba0 + sp))]
          have e1 : rba0 + sp + 1 = rba0 + (sp + 1) := by omega
          have e2 : cnt - sp - 1 = cnt - (sp + 1) := by omega
          have htL : (0 : ℚ) ≤ t + env.timing_write drive.hdd_num (rba0 + sp) 1 +
              esdi_mca_get_xfer_time 1 := by
            have h1 := htw (rba0 + sp); have h2 := xferT_nonneg; linarith
          have H := ih (sp + 1) 0
            ⟨dma, bc, st, iqs, iqe, iqp, crp, cpos, cdat, cdev, stpos, stlen, stdat,
              0, dta, sbuf, sp + 1, cnt, cmd, cst, inr, rba0 + (sp + 1), d0, d1, prg, il, tmr⟩
            inp (t + env.timing_write drive.hdd_num (rba0 + sp) 1 + esdi_mca_get_xfer_time 1)
            (ops ++ [ImgOp.wr drive.hdd_num (rba0 + sp) dta])
            rfl rfl rfl rfl hlen (by omega) (by omega) (fun _ => rfl)
            htL (by omega)
          have hside : 256 * (cnt - (sp + 1)) - 0 ≤ inp.length := by clear H ih; omega
          obtain ⟨dev2, heq, hp1, hp2, hp3, hp4, hp5, hp6⟩ := H.2 hside
          clear H
          have hops : ops ++ chunkW drive.hdd_num (rba0 + sp) (dta.take 256) inp (cnt - sp) =
              (ops ++ [ImgOp.wr drive.hdd_num (rba0 + sp) dta]) ++
                chunkW drive.hdd_num (rba0 + (sp + 1)) (dta.take 0) inp (cnt - (sp + 1)) := by
            rw [hm, chunkW_commit _ _ _ _ _ (by rw [List.length_take]; omega),
              show dta.take 256 = dta from by rw [← hlen]; exact List.take_length dta,
              List.take_zero, e1, e2, List.append_assoc]
            rfl
          have htime : t + timeW env.timing_write drive.hdd_num (rba0 + sp) 256 inp.length (cnt - sp) =
              t + env.timing_write drive.hdd_num (rba0 + sp) 1 + esdi_mca_get_xfer_time 1 +
                timeW env.timing_write drive.hdd_num (rba0 + (sp + 1)) 0 inp.length (cnt - (sp + 1)) := by
            rw [hm, timeW_commit, e1, e2]
            ring
          refine ⟨dev2, ?_, hp1, hp2, hp3, hp4, hp5, ?_⟩
          · rw [hops, htime]; exact heq
          · exact frameEq_trans (by constructor <;> rfl) hp6
      · have hspe : cnt = sp := by omega
        subst hspe
        have hdp0 : dp = 0 := hspcnt rfl
        subst hdp0
        rw [if_neg hscnt]
        rw [show cnt - cnt = 0 from by omega,
          show timeW env.timing_write drive.hdd_num (rba0 + cnt) 0 inp.length 0 = 0 from rfl,
          add_zero,
          show chunkW drive.hdd_num (rba0 + cnt) (dta.take 0) inp 0 = [] from rfl,
          List.append_nil]
        exact ⟨_, rfl, rfl, rfl, rfl, rfl, rfl, frameEq_refl _⟩

/-! ## Gluing committed-sector runs across suspensions -/

/-- Splitting the committed sectors of a concatenated input stream at a
suspension point: when the first part does not finish all sectors, the
commits of the whole stream are the commits of the first part followed by
the commits of the rest from the advanced staging state. -/
theorem chunkW_glue (h : Nat) :
    ∀ (d1 : List Nat) (r : Nat) (pref : List Nat) (d2 : List Nat) (m k : Nat),
      pref.length < 256 →
      pref.length + d1.length < 256 * m →
      k = (pref.length + d1.length) / 256 →
      chunkW h r pref (d1 ++ d2) m =
        chunkW h r pref d1 m ++
          chunkW h (r + k) ((pref ++ d1.map u16).drop (256 * k)) d2 (m - k)
  | [], r, pref, d2, m, k, hp, hlt, hk => by
    simp only [List.length_nil] at hlt hk
    have hk0 : k = 0 := by omega
    subst hk0
    rw [List.nil_append, List.map_nil, List.append_nil, Nat.add_zero,
      Nat.mul_zero, List.drop_zero, Nat.sub_zero,
      chunkW_empty h r pref m (by omega), List.nil_append]
  | v :: d1, r, pref, d2, m, k, hp, hlt, hk => by
    simp only [List.length_cons] at hlt hk
    rw [List.cons_append, chunkW_word h r pref v (d1 ++ d2) m hp,
      chunkW_word h r pref v d1 m hp]
    have hmap : pref ++ (v :: d1).map u16 = (pref ++ [u16 v]) ++ d1.map u16 := by
      simp
    by_cases hfull : pref.length + 1 < 256
    · rw [chunkW_glue h d1 r (pref ++ [u16 v]) d2 m k
        (by simp only [List.length_append, List.length_cons, List.length_nil]; omega)
        (by simp only [List.length_append, List.length_cons, List.length_nil]; omega)
        (by simp only [List.length_append, List.length_cons, List.length_nil]; omega)]
      rw [hmap]
    · cases m with
      | zero => exact absurd hlt (by omega)
      | succ m0 =>
        rw [chunkW_commit h r (pref ++ [u16 v]) (d1 ++ d2) m0
            (by simp only [List.length_append, List.length_cons, List.length_nil]; omega),
          chunkW_commit h r (pref ++ [u16 v]) d1 m0
            (by simp only [List.length_append, List.length_cons, List.length_nil]; omega),
          chunkW_glue h d1 (r + 1) [] d2 m0 (k - 1) (by simp)
            (by simp only [List.length_nil]; omega)
            (by simp only [List.length_nil]; omega),
          List.cons_append]
        have e1 : r + 1 + (k - 1) = r + k := by omega
        have e2 : m0 - (k - 1) = m0 + 1 - k := by omega
        have e3 : (([] : List Nat) ++ d1.map u16).drop (256 * (k - 1)) =
            (pref ++ (v :: d1).map u16).drop (256 * k) := by
          rw [List.nil_append, hmap,
            show 256 * k = (pref ++ [u16 v]).length + 256 * (k - 1) from by
              simp only [List.length_append, List.length_cons, List.length_nil]; omega,
            List.drop_append]
        rw [e1, e2, e3]

/-- The committed sectors ignore stream words beyond the sector budget:
when the first part already covers all sectors, appending more input does
not change the commits. -/
theorem chunkW_long (h : Nat) :
    ∀ (d : List Nat) (r : Nat) (pref F : List Nat) (m : Nat),
      pref.length < 256 →
      256 * m ≤ pref.length + d.length →
      chunkW h r pref (d ++ F) m = chunkW h r pref d m
  | [], r, pref, F, m, hp, hcov => by
    simp only [List.length_nil] at hcov
    cases m with
    | zero => rfl
    | succ m0 => exact absurd hcov (by omega)
  | v :: d, r, pref, F, m, hp, hcov => by
    simp only [List.length_cons] at hcov
    rw [List.cons_append, chunkW_word h r pref v (d ++ F) m hp,
      chunkW_word h r pref v d m hp]
    by_cases hfull : pref.length + 1 < 256
    · exact chunkW_long h d r (pref ++ [u16 v]) F m
        (by simp only [List.length_append, List.length_cons, List.length_nil]; omega)
        (by simp only [List.length_append, List.length_cons, List.length_nil]; omega)
    · cases m with
      | zero => rfl
      | succ m0 =>
        rw [chunkW_commit h r (pref ++ [u16 v]) (d ++ F) m0
            (by simp only [List.length_append, List.length_cons, List.length_nil]; omega),
          chunkW_commit h r (pref ++ [u16 v]) d m0
            (by simp only [List.length_append, List.length_cons, List.length_nil]; omega)]
        congr 1
        exact chunkW_long h d (r + 1) [] F m0 (by simp)
          (by simp only [List.length_nil]; omega)

set_option maxHeartbeats 4000000 in
/-- One `esdi_callback` invocation of the write transfer phase
(`CMD_WRITE` / `CMD_WRITE_VERIFY`, `cmd_state = 1`, DMA enabled) from an
arbitrary mid-transfer cursor: with a DMA stream shorter than the remaining
word count it suspends at the advanced cursor having committed exactly the
fully staged sectors, the suspension timer `ESDI_TIME` plus this
invocation's commit cost; with a stream covering the remainder it commits
all remaining sectors and moves to `cmd_state = 2`. -/
theorem esdi_callback_write_phase1 (env : Env) (dev : esdi_t) (cnt rba0 sp dp : Nat)
    (hin : dev.in_reset = false)
    (hc : dev.command = CMD_WRITE ∨ dev.command = CMD_WRITE_VERIFY)
    (hs : dev.cmd_state = 1)
    (hdev : dev.cmd_dev = ATTN_DEVICE_0 ∨ dev.cmd_dev = ATTN_DEVICE_1)
    (hp : (selDrive dev).present = true)
    (hctrl : ¬ dev.basic_ctrl &&& CTRL_DMA_ENA = 0)
    (hw : ∀ r, env.img_write_ok (selDrive dev).hdd_num r = true)
    (htw : ∀ r, 0 ≤ env.timing_write (selDrive dev).hdd_num r 1)
    (hend : rba0 + cnt ≤ (selDrive dev).sectors)
    (hsp : dev.sector_pos = sp) (hdp : dev.data_pos = dp) (hsc : dev.sector_count = cnt)
    (hr : dev.rba = rba0 + sp) (hlen : dev.data.length = 256)
    (hsple : sp ≤ cnt) (hdple : dp < 256) (hspcnt : sp = cnt → dp = 0) :
    (env.dma_data.length < 256 * (cnt - sp) - dp →
      ∃ dev2, esdi_callback env dev = Except.ok (dev2,
          chunkW (selDrive dev).hdd_num (rba0 + sp) (dev.data.take dp)
            env.dma_data (cnt - sp), []) ∧
        dev2.sector_pos = sp + (dp + env.dma_data.length) / 256 ∧
        dev2.data_pos = (dp + env.dma_data.length) % 256 ∧
        dev2.rba = rba0 + (sp + (dp + env.dma_data.length) / 256) ∧
        dev2.sector_count = cnt ∧
        dev2.data.length = 256 ∧
        dev2.data.take ((dp + env.dma_data.length) % 256) =
          (dev.data.take dp ++ env.dma_data.map u16).drop
            (256 * ((dp + env.dma_data.length) / 256)) ∧
        dev2.timer = some (ESDI_TIME +
          timeW env.timing_write (selDrive dev).hdd_num (rba0 + sp) dp
            env.dma_data.length (cnt - sp)) ∧
        frameEq dev dev2) ∧
    (256 * (cnt - sp) - dp ≤ env.dma_data.length →
      ∃ dev2, esdi_callback env dev = Except.ok (dev2,
          chunkW (selDrive dev).hdd_num (rba0 + sp) (dev.data.take dp)
            env.dma_data (cnt - sp), []) ∧
        dev2.sector_pos = cnt ∧ dev2.data_pos = 0 ∧ dev2.rba = rba0 + cnt ∧
        dev2.sector_count = cnt ∧ dev2.cmd_state = 2 ∧
        dev2.status = STATUS_CMD_IN_PROGRESS ∧
        dev2.command = dev.command ∧ dev2.cmd_dev = dev.cmd_dev ∧
        dev2.in_reset = dev.in_reset ∧ dev2.basic_ctrl = dev.basic_ctrl ∧
        dev2.drives0 = dev.drives0 ∧ dev2.drives1 = dev.drives1 ∧
        dev2.status_pos = dev.status_pos ∧ dev2.status_len = dev.status_len ∧
        dev2.status_data = dev.status_data ∧
        dev2.irq_ena_disable = dev.irq_ena_disable ∧
        dev2.irq_in_progress = dev.irq_in_progress ∧
        dev2.irq_status = dev.irq_status) := by
  rcases hc with hc | hc <;> rcases hdev with hd | hd
  · simp only [selDrive, hd, ATTN_DEVICE_0, ATTN_DEVICE_1, reduceIte] at hp hw htw hend ⊢
    norm_num at hp hw htw hend ⊢
    refine ⟨fun hlt => ?_, fun hge => ?_⟩
    · simp only [esdi_callback]
      rw [if_neg (by simp [hin]), hc]
      norm_num [CMD_WRITE, CMD_WRITE_VERIFY]
      rw [if_neg (by simp [driveOnlyFails, hd, ATTN_DEVICE_0, ATTN_DEVICE_1]),
        if_neg (by simp [selDrive, hd, ATTN_DEVICE_0, ATTN_DEVICE_1, hp]), hs]
      norm_num
      rw [if_neg (show ¬ ({dev with timer := none} : esdi_t).basic_ctrl &&& CTRL_DMA_ENA = 0 from hctrl),
        show selDrive {dev with command := 2, cmd_state := 1, timer := none} = dev.drives0 from by
          simp [selDrive, hd, ATTN_DEVICE_0, ATTN_DEVICE_1]]
      obtain ⟨dev2, heq, hp1, hp2, hp3, hp4, hp5, hp6, hp7, hp8⟩ :=
        (write_xfer_loop_run env dev.drives0 hw htw cnt rba0 hend
          (loopFuel {dev with command := 2, cmd_state := 1, timer := none}) sp dp
          {dev with command := 2, cmd_state := 1, timer := none}
          env.dma_data 0 [] hsp hdp hsc hr hlen hsple (by omega) hspcnt (le_refl 0)
          (show 257 * (cnt - sp) + (257 - dp) ≤ 257 * dev.sector_count + 600 from by
            rw [hsc]; omega)).1 hlt
      rw [heq]
      dsimp only [finishXfer]
      rw [List.nil_append]
      refine ⟨dev2, rfl, hp1, hp2, hp3, hp4, hp5, hp6, ?_, ?_⟩
      · rw [hp7]; congr 1; ring
      · exact frameEq_trans
          (by constructor <;> first | rfl | exact hc.symm | exact hs.symm) hp8
    · simp only [esdi_callback]
      rw [if_neg (by simp [hin]), hc]
      norm_num [CMD_WRITE, CMD_WRITE_VERIFY]
      rw [if_neg (by simp [driveOnlyFails, hd, ATTN_DEVICE_0, ATTN_DEVICE_1]),
        if_neg (by simp [selDrive, hd, ATTN_DEVICE_0, ATTN_DEVICE_1, hp]), hs]
      norm_num
      rw [if_neg (show ¬ ({dev with timer := none} : esdi_t).basic_ctrl &&& CTRL_DMA_ENA = 0 from hctrl),
        show selDrive {dev with command := 2, cmd_state := 1, timer := none} = dev.drives0 from by
          simp [selDrive, hd, ATTN_DEVICE_0, ATTN_DEVICE_1]]
      obtain ⟨dev2, heq, hp1, hp2, hp3, hp4, hp5, hp6⟩ :=
        (write_xfer_loop_run env dev.drives0 hw htw cnt rba0 hend
          (loopFuel {dev with command := 2, cmd_state := 1, timer := none}) sp dp
          {dev with command := 2, cmd_state := 1, timer := none}
          env.dma_data 0 [] hsp hdp hsc hr hlen hsple (by omega) hspcnt (le_refl 0)
          (show 257 * (cnt - sp) + (257 - dp) ≤ 257 * dev.sector_count + 600 from by
            rw [hsc]; omega)).2 (by omega)
      rw [heq]
      dsimp only [finishXfer]
      rw [List.nil_append]
      refine ⟨_, rfl, ?_, ?_, ?_, ?_, ?_, ?_, ?_, ?_, ?_, ?_, ?_, ?_, ?_, ?_, ?_, ?_, ?_, ?_⟩ <;>
        simp [hp1, hp2, hp3, hp4, hp6.eCommand, hp6.eCmdDev, hp6.eInReset,
          hp6.eBasicCtrl, hp6.eDrives0, hp6.eDrives1, hp6.eStatusPos, hp6.eStatusLen,
          hp6.eStatusData, hp6.eIrqEna, hp6.eIrqProg, hp6.eIrqStatus, hd,
          ATTN_DEVICE_0, ATTN_DEVICE_1]
  · simp only [selDrive, hd, ATTN_DEVICE_0, ATTN_DEVICE_1, reduceIte] at hp hw htw hend ⊢
    norm_num at hp hw htw hend ⊢
    refine ⟨fun hlt => ?_, fun hge => ?_⟩
    · simp only [esdi_callback]
      rw [if_neg (by simp [hin]), hc]
      norm_num [CMD_WRITE, CMD_WRITE_VERIFY]
      rw [if_neg (by simp [driveOnlyFails, hd, ATTN_DEVICE_0, ATTN_DEVICE_1]),
        if_neg (by simp [selDrive, hd, ATTN_DEVICE_0, ATTN_DEVICE_1, hp]), hs]
      norm_num
      rw [if_neg (show ¬ ({dev with timer := none} : esdi_t).basic_ctrl &&& CTRL_DMA_ENA = 0 from hctrl),
        show selDrive {dev with command := 2, cmd_state := 1, timer := none} = dev.drives1 from by
          simp [selDrive, hd, ATTN_DEVICE_0, ATTN_DEVICE_1]]
      obtain ⟨dev2, heq, hp1, hp2, hp3, hp4, hp5, hp6, hp7, hp8⟩ :=
        (write_xfer_loop_run env dev.drives1 hw htw cnt rba0 hend
          (loopFuel {dev with command := 2, cmd_state := 1, timer := none}) sp dp
          {dev with command := 2, cmd_state := 1, timer := none}
          env.dma_data 0 [] hsp hdp hsc hr hlen hsple (by omega) hspcnt (le_refl 0)
          (show 257 * (cnt - sp) + (257 - dp) ≤ 257 * dev.sector_count + 600 from by
            rw [hsc]; omega)).1 hlt
      rw [heq]
      dsimp only [finishXfer]
      rw [List.nil_append]
      refine ⟨dev2, rfl, hp1, hp2, hp3, hp4, hp5, hp6, ?_, ?_⟩
      · rw [hp7]; congr 1; ring
      · exact frameEq_trans
          (by constructor <;> first | rfl | exact hc.symm | exact hs.symm) hp8
    · simp only [esdi_callback]
      rw [if_neg (by simp [hin]), hc]
      norm_num [CMD_WRITE, CMD_WRITE_VERIFY]
      rw [if_neg (by simp [driveOnlyFails, hd, ATTN_DEVICE_0, ATTN_DEVICE_1]),
        if_neg (by simp [selDrive, hd, ATTN_DEVICE_0, ATTN_DEVICE_1, hp]), hs]
      norm_num
      rw [if_neg (show ¬ ({dev with timer := none} : esdi_t).basic_ctrl &&& CTRL_DMA_ENA = 0 from hctrl),
        show selDrive {dev with command := 2, cmd_state := 1, timer := none} = dev.drives1 from by
          simp [selDrive, hd, ATTN_DEVICE_0, ATTN_DEVICE_1]]
      obtain ⟨dev2, heq, hp1, hp2, hp3, hp4, hp5, hp6⟩ :=
        (write_xfer_loop_run env dev.drives1 hw htw cnt rba0 hend
          (loopFuel {dev with command := 2, cmd_state := 1, timer := none}) sp dp
          {dev with command := 2, cmd_state := 1, timer := none}
          env.dma_data 0 [] hsp hdp hsc hr hlen hsple (by omega) hspcnt (le_refl 0)
          (show 257 * (cnt - sp) + (257 - dp) ≤ 257 * dev.sector_count + 600 from by
            rw [hsc]; omega)).2 (by omega)
      rw [heq]
      dsimp only [finishXfer]
      rw [List.nil_append]
      refine ⟨_, rfl, ?_, ?_, ?_, ?_, ?_, ?_, ?_, ?_, ?_, ?_, ?_, ?_, ?_, ?_, ?_, ?_, ?_, ?_⟩ <;>
        simp [hp1, hp2, hp3, hp4, hp6.eCommand, hp6.eCmdDev, hp6.eInReset,
          hp6.eBasicCtrl, hp6.eDrives0, hp6.eDrives1, hp6.eStatusPos, hp6.eStatusLen,
          hp6.eStatusData, hp6.eIrqEna, hp6.eIrqProg, hp6.eIrqStatus, hd,
          ATTN_DEVICE_0, ATTN_DEVICE_1]
  · simp only [selDrive, hd, ATTN_DEVICE_0, ATTN_DEVICE_1, reduceIte] at hp hw htw hend ⊢
    norm_num at hp hw htw hend ⊢
    refine ⟨fun hlt => ?_, fun hge => ?_⟩
    · simp only [esdi_callback]
      rw [if_neg (by simp [hin]), hc]
      norm_num [CMD_WRITE, CMD_WRITE_VERIFY]
      rw [if_neg (by simp [driveOnlyFails, hd, ATTN_DEVICE_0, ATTN_DEVICE_1]),
        if_neg (by simp [selDrive, hd, ATTN_DEVICE_0, ATTN_DEVICE_1, hp]), hs]
      norm_num
      rw [if_neg (show ¬ ({dev with timer := none} : esdi_t).basic_ctrl &&& CTRL_DMA_ENA = 0 from hctrl),
        show selDrive {dev with command := 4, cmd_state := 1, timer := none} = dev.drives0 from by
          simp [selDrive, hd, ATTN_DEVICE_0, ATTN_DEVICE_1]]
      obtain ⟨dev2, heq, hp1, hp2, hp3, hp4, hp5, hp6, hp7, hp8⟩ :=
        (write_xfer_loop_run env dev.drives0 hw htw cnt rba0 hend
          (loopFuel {dev with command := 4, cmd_state := 1, timer := none}) sp dp
          {dev with command := 4, cmd_state := 1, timer := none}
          env.dma_data 0 [] hsp hdp hsc hr hlen hsple (by omega) hspcnt (le_refl 0)
          (show 257 * (cnt - sp) + (257 - dp) ≤ 257 * dev.sector_count + 600 from by
            rw [hsc]; omega)).1 hlt
      rw [heq]
      dsimp only [finishXfer]
      rw [List.nil_append]
      refine ⟨dev2, rfl, hp1, hp2, hp3, hp4, hp5, hp6, ?_, ?_⟩
      · rw [hp7]; congr 1; ring
      · exact frameEq_trans
          (by constructor <;> first | rfl | exact hc.symm | exact hs.symm) hp8
    · simp only [esdi_callback]
      rw [if_neg (by simp [hin]), hc]
      norm_num [CMD_WRITE, CMD_WRITE_VERIFY]
      rw [if_neg (by simp [driveOnlyFails, hd, ATTN_DEVICE_0, ATTN_DEVICE_1]),
        if_neg (by simp [selDrive, hd, ATTN_DEVICE_0, ATTN_DEVICE_1, hp]), hs]
      norm_num
      rw [if_neg (show ¬ ({dev with timer := none} : esdi_t).basic_ctrl &&& CTRL_DMA_ENA = 0 from hctrl),
        show selDrive {dev with command := 4, cmd_state := 1, timer := none} = dev.drives0 from by
          simp [selDrive, hd, ATTN_DEVICE_0, ATTN_DEVICE_1]]
      obtain ⟨dev2, heq, hp1, hp2, hp3, hp4, hp5, hp6⟩ :=
        (write_xfer_loop_run env dev.drives0 hw htw cnt rba0 hend
          (loopFuel {dev with command := 4, cmd_state := 1, timer := none}) sp dp
          {dev with command := 4, cmd_state := 1, timer := none}
          env.dma_data 0 [] hsp hdp hsc hr hlen hsple (by omega) hspcnt (le_refl 0)
          (show 257 * (cnt - sp) + (257 - dp) ≤ 257 * dev.sector_count + 600 from by
            rw [hsc]; omega)).2 (by omega)
      rw [heq]
      dsimp only [finishXfer]
      rw [List.nil_append]
      refine ⟨_, rfl, ?_, ?_, ?_, ?_, ?_, ?_, ?_, ?_, ?_, ?_, ?_, ?_, ?_, ?_, ?_, ?_, ?_, ?_⟩ <;>
        simp [hp1, hp2, hp3, hp4, hp6.eCommand, hp6.eCmdDev, hp6.eInReset,
          hp6.eBasicCtrl, hp6.eDrives0, hp6.eDrives1, hp6.eStatusPos, hp6.eStatusLen,
          hp6.eStatusData, hp6.eIrqEna, hp6.eIrqProg, hp6.eIrqStatus, hd,
          ATTN_DEVICE_0, ATTN_DEVICE_1]
  · simp only [selDrive, hd, ATTN_DEVICE_0, ATTN_DEVICE_1, reduceIte] at hp hw htw hend ⊢
    norm_num at hp hw htw hend ⊢
    refine ⟨fun hlt => ?_, fun hge => ?_⟩
    · simp only [esdi_callback]
      rw [if_neg (by simp [hin]), hc]
      norm_num [CMD_WRITE, CMD_WRITE_VERIFY]
      rw [if_neg (by simp [driveOnlyFails, hd, ATTN_DEVICE_0, ATTN_DEVICE_1]),
        if_neg (by simp [selDrive, hd, ATTN_DEVICE_0, ATTN_DEVICE_1, hp]), hs]
      norm_num
      rw [if_neg (show ¬ ({dev with timer := none} : esdi_t).basic_ctrl &&& CTRL_DMA_ENA = 0 from hctrl),
        show selDrive {dev with command := 4, cmd_state := 1, timer := none} = dev.drives1 from by
          simp [selDrive, hd, ATTN_DEVICE_0, ATTN_DEVICE_1]]
      obtain ⟨dev2, heq, hp1, hp2, hp3, hp4, hp5, hp6, hp7, hp8⟩ :=
        (write_xfer_loop_run env dev.drives1 hw htw cnt rba0 hend
          (loopFuel {dev with command := 4, cmd_state := 1, timer := none}) sp dp
          {dev with command := 4, cmd_state := 1, timer := none}
          env.dma_data 0 [] hsp hdp hsc hr hlen hsple (by omega) hspcnt (le_refl 0)
          (show 257 * (cnt - sp) + (257 - dp) ≤ 257 * dev.sector_count + 600 from by
            rw [hsc]; omega)).1 hlt
      rw [heq]
      dsimp only [finishXfer]
      rw [List.nil_append]
      refine ⟨dev2, rfl, hp1, hp2, hp3, hp4, hp5, hp6, ?_, ?_⟩
      · rw [hp7]; congr 1; ring
      · exact frameEq_trans
          (by constructor <;> first | rfl | exact hc.symm | exact hs.symm) hp8
    · simp only [esdi_callback]
      rw [if_neg (by simp [hin]), hc]
      norm_num [CMD_WRITE, CMD_WRITE_VERIFY]
      rw [if_neg (by simp [driveOnlyFails, hd, ATTN_DEVICE_0, ATTN_DEVICE_1]),
        if_neg (by simp [selDrive, hd, ATTN_DEVICE_0, ATTN_DEVICE_1, hp]), hs]
      norm_num
      rw [if_neg (show ¬ ({dev with timer := none} : esdi_t).basic_ctrl &&& CTRL_DMA_ENA = 0 from hctrl),
        show selDrive {dev with command := 4, cmd_state := 1, timer := none} = dev.drives1 from by
          simp [selDrive, hd, ATTN_DEVICE_0, ATTN_DEVICE_1]]
      obtain ⟨dev2, heq, hp1, hp2, hp3, hp4, hp5, hp6⟩ :=
        (write_xfer_loop_run env dev.drives1 hw htw cnt rba0 hend
          (loopFuel {dev with command := 4, cmd_state := 1, timer := none}) sp dp
          {dev with command := 4, cmd_state := 1, timer := none}
          env.dma_data 0 [] hsp hdp hsc hr hlen hsple (by omega) hspcnt (le_refl 0)
          (show 257 * (cnt - sp) + (257 - dp) ≤ 257 * dev.sector_count + 600 from by
            rw [hsc]; omega)).2 (by omega)
      rw [heq]
      dsimp only [finishXfer]
      rw [List.nil_append]
      refine ⟨_, rfl, ?_, ?_, ?_, ?_, ?_, ?_, ?_, ?_, ?_, ?_, ?_, ?_, ?_, ?_, ?_, ?_, ?_, ?_⟩ <;>
        simp [hp1, hp2, hp3, hp4, hp6.eCommand, hp6.eCmdDev, hp6.eInReset,
          hp6.eBasicCtrl, hp6.eDrives0, hp6.eDrives1, hp6.eStatusPos, hp6.eStatusLen,
          hp6.eStatusData, hp6.eIrqEna, hp6.eIrqProg, hp6.eIrqStatus, hd,
          ATTN_DEVICE_0, ATTN_DEVICE_1]

end EsdiMca

